import Mathlib

/-!
# DD4hep shape construction (DDCore/src/Shapes.cpp)

A shallow embedding of the solid factories of `Shapes.cpp`.

Conventions of the embedding
* a C++ `double` is an exact rational (`ℚ`): no rounding, no NaN, no infinities;
* a function that throws returns `Except Error _`;
* the kernel (TGeo) objects are plain data: a shape is its name, its title and the
  parameters handed to the kernel constructor;
* what the file obtains from headers and libraries outside the translated sources
  (the unit constant `deg`, the C math library, the stream formatting of a `double`) is
  collected in `MathEnv` and passed explicitly; the general theorems hold for every such
  environment, and `sampleEnv` is one instance used for concrete evaluations.
-/

namespace dd4hep

/-- The numeric collaborators of `Shapes.cpp`: `units::deg` (DD4hepUnits.h),
the C math library, `operator<<(ostream&, double)` and `_toString(double)`. -/
structure MathEnv where
  deg : ℚ
  cos : ℚ → ℚ
  sin : ℚ → ℚ
  acos : ℚ → ℚ
  asin : ℚ → ℚ
  sqrt : ℚ → ℚ
  fmt : ℚ → String
  toStr : ℚ → String

/-- The constant `M_PI` of `<cmath>`: the double nearest to pi, `0x400921FB54442D18`. -/
def M_PI : ℚ := 884279719003555 / 281474976710656

/-- What a failing call throws: `except(src, fmt, ...)` of Printout.h (the format string is
kept, its arguments are not interpolated), a plain `std::runtime_error(msg)`, or the
invalid-handle exception of `Handle::access()`. The last outcome, `null_dereference`, is not
an exception: it marks a call that dereferences a null pointer (undefined behaviour). -/
inductive Error where
  | except (src : String) (msg : String)
  | runtime_error (msg : String)
  | invalid_handle
  | null_dereference
deriving DecidableEq

/-- Modelled from the spec: the shape title tags of ShapeTags.h, which is not among the
translated sources; each tag is the name of its shape class. -/
def BOX_TAG : String := "Box"
/-- Modelled from the spec: tag of ShapeTags.h. -/
def POLYCONE_TAG : String := "Polycone"
/-- Modelled from the spec: tag of ShapeTags.h. -/
def TUBE_TAG : String := "Tube"
/-- Modelled from the spec: tag of ShapeTags.h. -/
def TRUNCATEDTUBE_TAG : String := "TruncatedTube"
/-- Modelled from the spec: tag of ShapeTags.h. -/
def PSEUDOTRAP_TAG : String := "PseudoTrap"
/-- Modelled from the spec: tag of ShapeTags.h. -/
def POLYHEDRA_TAG : String := "Polyhedra"
/-- Modelled from the spec: tag of ShapeTags.h. -/
def SUBTRACTION_TAG : String := "Subtraction"
/-- Modelled from the spec: tag of ShapeTags.h. -/
def UNION_TAG : String := "Union"
/-- Modelled from the spec: tag of ShapeTags.h. -/
def INTERSECTION_TAG : String := "Intersection"
/-- Modelled from the spec: tag of ShapeTags.h. -/
def SCALE_TAG : String := "Scale"
/-- Modelled from the spec: tag of ShapeTags.h. -/
def TRD2_TAG : String := "Trd2"

/-- Type `Position(x, y, z)`. -/
structure Position where
  x : ℚ
  y : ℚ
  z : ℚ
deriving DecidableEq

/-- Type `RotationZYX(phi, theta, psi)`. -/
structure RotationZYX where
  phi : ℚ
  theta : ℚ
  psi : ℚ
deriving DecidableEq

/-- Type `Rotation3D` with its nine components, row by row. -/
structure Rotation3D where
  xx : ℚ
  xy : ℚ
  xz : ℚ
  yx : ℚ
  yy : ℚ
  yz : ℚ
  zx : ℚ
  zy : ℚ
  zz : ℚ
deriving DecidableEq

/-- The rotation a `Transform3D` is built from: `RotationX(angle)`, a `RotationZYX` or a
`Rotation3D`. -/
inductive Rotation where
  | RotationX (angle : ℚ)
  | ZYX (r : RotationZYX)
  | R3D (r : Rotation3D)
deriving DecidableEq

/-- Type `Transform3D(rotation, position)`; `Transform3D(rotation)` has the zero position. -/
structure Transform3D where
  rot : Rotation
  pos : Position
deriving DecidableEq

/-- The kernel matrices that `Shapes.cpp` creates, named by the call that creates them:
the helpers of `detail::matrix` and the `TGeoCombiTrans(trans, rot)` of
`TruncatedTube::make`, whose rotation is `RotateZ(angle)` applied to the unit rotation. -/
inductive MatrixKind where
  | _identity
  | _transform (t : Transform3D)
  | _translation (p : Position)
  | _rotationZYX (r : RotationZYX)
  | _rotation3D (r : Rotation3D)
  | CombiTransRotateZ (trans : Position) (angle : ℚ)
deriving DecidableEq

/-- A `TGeoMatrix`: what it is and its title (set with `SetTitle`). -/
structure TGeoMatrix where
  kind : MatrixKind
  title : String
deriving DecidableEq

/-- The operator of a boolean node: `TGeoUnion`, `TGeoSubtraction`, `TGeoIntersection`. -/
inductive BoolOp where
  | Union
  | Subtraction
  | Intersection
deriving DecidableEq

mutual
/-- A kernel shape: name and title (`TNamed`) and the arguments of its constructor. -/
inductive TGeoShape where
  | mk (name title : String) (geo : Geometry)
/-- The kernel classes constructed in the translated functions; `Native cls fields` is a
primitive of any other kernel class `cls` (`TGeoCone`, `TGeoSphere`, ...), kept as the
arguments of its constructor in their order. -/
inductive Geometry where
  | BBox (dx dy dz : ℚ)
  | TubeSeg (rmin rmax dz phi1 phi2 : ℚ)
  | Trd2 (dx1 dx2 dy1 dy2 dz : ℚ)
  | Pcon (params : List ℚ)
  | Pgon (params : List ℚ)
  | CompositeShape (node : TGeoBoolNode)
  | ScaledShape (shape : TGeoShape) (sx sy sz : ℚ)
  | Native (cls : String) (fields : List ℚ)
/-- A `TGeoBoolNode`: shapes and matrices are pointers, `none` is the null pointer. -/
inductive TGeoBoolNode where
  | mk (op : BoolOp) (left right : Option TGeoShape) (leftMat rightMat : Option TGeoMatrix)
end

/-- A `Solid` handle: `none` is the unbound handle. -/
abbrev Solid := Option TGeoShape

/-- Field `GetName()`. -/
def TGeoShape.GetName : TGeoShape → String
  | .mk n _ _ => n

/-- Field `GetTitle()`. -/
def TGeoShape.GetTitle : TGeoShape → String
  | .mk _ t _ => t

/-- The constructor arguments of the shape. -/
def TGeoShape.geometry : TGeoShape → Geometry
  | .mk _ _ g => g

/-- Modelled from the spec: `Handle<T>::assign(n, nam, tit)`, which is not among the
translated sources ("all factories set the constructed kind's title tag", "registering
name/title metadata"): the handle is bound to `n`, whose name and title are set to the given
strings when these are not empty. -/
def Handle.assign (n : TGeoShape) (nam tit : String) : TGeoShape :=
  match n with
  | .mk n0 t0 g => .mk (if nam = "" then n0 else nam) (if tit = "" then t0 else tit) g

/-- Function `Solid_type<T>::_assign` (Shapes.cpp 47-52); the result is the object the handle
is bound to. The bounding box that `cbbox` asks for is computed by the kernel and is not
part of the data. -/
def _assign (n : TGeoShape) (nam tit : String) : TGeoShape :=
  Handle.assign n nam tit

/-- Function `TruncatedTube::make` (Shapes.cpp 372-423). The literal `1.1` is `11/10`. The
title of `combi` is set after the node is built (`combi->SetTitle`); the node holds the
pointer, so the title is part of its right matrix. The left matrix is passed as `nullptr`. -/
def TruncatedTube.make (E : MathEnv) (nam : String)
    (dz rmin rmax start_phi delta_phi cut_atStart cut_atDelta : ℚ) (cut_inside : Bool) :
    Except Error TGeoShape :=
  if rmin ≤ 0 ∨ rmax ≤ 0 ∨ cut_atStart ≤ 0 ∨ cut_atDelta ≤ 0 then
    .error (.except TRUNCATEDTUBE_TAG "++ 0 <= rIn,cut_atStart,rOut,cut_atDelta,rOut violated!")
  else if rmin ≥ rmax then
    .error (.except TRUNCATEDTUBE_TAG "++ rIn<rOut violated!")
  else if start_phi ≠ 0 then
    .error (.except TRUNCATEDTUBE_TAG "++ start_phi != 0 not supported!")
  else
    let r := cut_atStart
    let R := cut_atDelta
    let cath := r - R * E.cos (delta_phi * E.deg)
    let hypo := E.sqrt (r * r + R * R - 2 * r * R * E.cos (delta_phi * E.deg))
    let cos_alpha := cath / hypo
    let alpha := E.acos cos_alpha
    let sin_alpha := E.sin |alpha|
    let boxX := 11 / 10 * rmax + rmax / sin_alpha
    let boxY := rmax
    let boxZ := 11 / 10 * dz
    let xBox := if cut_inside then r - boxY / sin_alpha else r + boxY / sin_alpha
    let box := TGeoShape.mk (nam ++ "Box") "" (.BBox boxX boxY boxZ)
    let tubs := TGeoShape.mk (nam ++ "Tubs") "" (.TubeSeg rmin rmax dz start_phi delta_phi)
    let params : String :=
      E.fmt dz ++ " " ++ "\n" ++ E.fmt rmin ++ " " ++ "\n" ++ E.fmt rmax ++ " " ++ "\n"
        ++ E.fmt (start_phi * E.deg) ++ " " ++ "\n" ++ E.fmt (delta_phi * E.deg) ++ " " ++ "\n"
        ++ E.fmt cut_atStart ++ " " ++ "\n" ++ E.fmt cut_atDelta ++ " " ++ "\n"
        ++ (if cut_inside then "1" else "0") ++ "\n"
    let combi : TGeoMatrix :=
      { kind := .CombiTransRotateZ ⟨xBox, 0, 0⟩ (-alpha / E.deg), title := params }
    let sub := TGeoBoolNode.mk .Subtraction (some tubs) (some box) none (some combi)
    .ok (_assign (.mk nam "" (.CompositeShape sub)) "" TRUNCATEDTUBE_TAG)

/-- Constructors `TruncatedTube::TruncatedTube` (Shapes.cpp 361-369); the anonymous one
has `nam = ""`. -/
def TruncatedTube.new (E : MathEnv) (nam : String)
    (dz rmin rmax start_phi delta_phi cut_atStart cut_atDelta : ℚ) (cut_inside : Bool) :
    Except Error TGeoShape :=
  TruncatedTube.make E nam dz rmin rmax (start_phi / E.deg) (delta_phi / E.deg)
    cut_atStart cut_atDelta cut_inside

/-- How a boolean-solid constructor is given the placement of its second shape: the five
overloads `(shape1, shape2)`, `(…, Transform3D)`, `(…, Position)`, `(…, RotationZYX)` and
`(…, Rotation3D)`. -/
inductive PlacementArg where
  | none
  | transform (trans : Transform3D)
  | position (pos : Position)
  | rotationZYX (rot : RotationZYX)
  | rotation3D (rot : Rotation3D)
deriving DecidableEq

/-- The right matrix each overload creates: `_identity()`, `_transform(trans)`,
`_translation(pos)`, `_rotationZYX(rot)` or `_rotation3D(rot)`; a new matrix has no title. -/
def PlacementArg.matrix : PlacementArg → TGeoMatrix
  | .none => ⟨._identity, ""⟩
  | .transform t => ⟨._transform t, ""⟩
  | .position p => ⟨._translation p, ""⟩
  | .rotationZYX r => ⟨._rotationZYX r, ""⟩
  | .rotation3D r => ⟨._rotation3D r, ""⟩

/-- Constructors `SubtractionSolid::SubtractionSolid` (Shapes.cpp 867-925): `nam` is `""` in
the anonymous overloads, `p` selects the placement overload. The shapes are passed as raw
pointers (`operator T*()` of the handle), without a call of `access()`. The definition gives
the composite that the kernel builds from two bound children; what `new TGeoSubtraction` and
the following `ComputeBBox()` do with a null child is kernel code outside the translated
sources, and the value of the definition at an unbound child stands for no outcome of the
source. -/
def SubtractionSolid (nam : String) (shape1 shape2 : Solid) (p : PlacementArg) : Solid :=
  let sub := TGeoBoolNode.mk .Subtraction shape1 shape2 (some ⟨._identity, ""⟩) (some p.matrix)
  some (_assign (.mk nam "" (.CompositeShape sub)) "" SUBTRACTION_TAG)

/-- Constructors `UnionSolid::UnionSolid` (Shapes.cpp 927-985); for bound children, as
`SubtractionSolid`. -/
def UnionSolid (nam : String) (shape1 shape2 : Solid) (p : PlacementArg) : Solid :=
  let uni := TGeoBoolNode.mk .Union shape1 shape2 (some ⟨._identity, ""⟩) (some p.matrix)
  some (_assign (.mk nam "" (.CompositeShape uni)) "" UNION_TAG)

/-- Constructors `IntersectionSolid::IntersectionSolid` (Shapes.cpp 987-1045); for bound
children, as `SubtractionSolid`. -/
def IntersectionSolid (nam : String) (shape1 shape2 : Solid) (p : PlacementArg) : Solid :=
  let inter :=
    TGeoBoolNode.mk .Intersection shape1 shape2 (some ⟨._identity, ""⟩) (some p.matrix)
  some (_assign (.mk nam "" (.CompositeShape inter)) "" INTERSECTION_TAG)

/-- Validating accessor `Handle::access()`: fails on an unbound handle ("Ensure we have a
valid handle!", "Trigger an exception if object is invalid", Shapes.cpp 41, 59). -/
def access (s : Solid) : Except Error TGeoShape :=
  match s with
  | some p => .ok p
  | none => .error .invalid_handle

/-- Call `GetBoolNode()` of a composite shape; a `BooleanSolid` handle holds a
`TGeoCompositeShape`, other shapes are not a `BooleanSolid`. -/
def GetBoolNode (s : TGeoShape) : Except Error TGeoBoolNode :=
  match s with
  | .mk _ _ (.CompositeShape node) => .ok node
  | _ => .error .invalid_handle

/-- Field `op` of the node (the class of the `TGeoBoolNode`). -/
def TGeoBoolNode.op : TGeoBoolNode → BoolOp
  | .mk o _ _ _ _ => o

/-- Call `GetLeftShape()`. -/
def TGeoBoolNode.GetLeftShape : TGeoBoolNode → Option TGeoShape
  | .mk _ l _ _ _ => l

/-- Call `GetRightShape()`. -/
def TGeoBoolNode.GetRightShape : TGeoBoolNode → Option TGeoShape
  | .mk _ _ r _ _ => r

/-- Call `GetLeftMatrix()`. -/
def TGeoBoolNode.GetLeftMatrix : TGeoBoolNode → Option TGeoMatrix
  | .mk _ _ _ lm _ => lm

/-- Call `GetRightMatrix()`. -/
def TGeoBoolNode.GetRightMatrix : TGeoBoolNode → Option TGeoMatrix
  | .mk _ _ _ _ rm => rm

/-- Function `BooleanSolid::rightShape` (Shapes.cpp 848-850). -/
def BooleanSolid.rightShape (s : Solid) : Except Error Solid := do
  let p ← access s
  let node ← GetBoolNode p
  pure node.GetRightShape

/-- Function `BooleanSolid::leftShape` (Shapes.cpp 853-855). -/
def BooleanSolid.leftShape (s : Solid) : Except Error Solid := do
  let p ← access s
  let node ← GetBoolNode p
  pure node.GetLeftShape

/-- Function `BooleanSolid::rightMatrix` (Shapes.cpp 858-860). -/
def BooleanSolid.rightMatrix (s : Solid) : Except Error (Option TGeoMatrix) := do
  let p ← access s
  let node ← GetBoolNode p
  pure node.GetRightMatrix

/-- Function `BooleanSolid::leftMatrix` (Shapes.cpp 863-865). -/
def BooleanSolid.leftMatrix (s : Solid) : Except Error (Option TGeoMatrix) := do
  let p ← access s
  let node ← GetBoolNode p
  pure node.GetLeftMatrix

/-- Function `Solid_type<T>::title` (Shapes.cpp 63-68). -/
def Solid.title (s : Solid) : Except Error String :=
  match s with
  | some p => .ok p.GetTitle
  | none => (access s).map TGeoShape.GetTitle

/-- Function `Solid_type<T>::name` (Shapes.cpp 55-60). -/
def Solid.name (s : Solid) : Except Error String :=
  match s with
  | some p => .ok p.GetName
  | none => (access s).map TGeoShape.GetName

/-- Function `Box::make` (Shapes.cpp 144-146). -/
def Box.make (nam : String) (x_val y_val z_val : ℚ) : TGeoShape :=
  _assign (.mk nam "" (.BBox x_val y_val z_val)) "" BOX_TAG

/-- The statement `solid->GetBoolNode()->GetRightMatrix()->SetTitle(t)`. -/
def SetRightMatrixTitle (s : TGeoShape) (t : String) : TGeoShape :=
  match s with
  | .mk n ti (.CompositeShape (.mk op l r lm (some m))) =>
      .mk n ti (.CompositeShape (.mk op l r lm (some { m with title := t })))
  | other => other

/-- Function `PseudoTrap::make` (Shapes.cpp 637-736), the implementation that is compiled
(the block under `#if 0` is not). The case split assigns `intersec`, `h`, `displacement`
and `startPhi` or throws; the rest of the body follows. The literal `1.1` is `11/10`; the
pointer `.ptr()` of the solid just constructed is read with `access`. -/
def PseudoTrap.make (E : MathEnv) (nam : String) (x1 x2 y1 y2 z r : ℚ) (atMinusZ : Bool) :
    Except Error TGeoShape := do
  let x := if atMinusZ then x1 else x2
  let halfZ := z
  let halfOpeningAngle := E.asin (x / |r|) / E.deg
  let delta := E.sqrt (r * r - x * x)
  let (intersec, h, displacement, startPhi) ←
    (if r < 0 ∧ |r| ≥ x then
      let h0 := if y1 < y2 then y2 else y1
      let h1 := h0 + h0 / 20
      if atMinusZ then
        pure (true, h1, -halfZ - delta, 90 - halfOpeningAngle)
      else
        pure (true, h1, halfZ + delta, -90 - halfOpeningAngle)
    else if r > 0 ∧ |r| ≥ x then
      if atMinusZ then
        pure (false, y1, -halfZ + delta, 270 - halfOpeningAngle)
      else
        pure (false, y2, halfZ - delta, 90 - halfOpeningAngle)
    else
      throw (Error.except PSEUDOTRAP_TAG "Check parameters of the PseudoTrap!")
      : Except Error (Bool × ℚ × ℚ × ℚ))
  let trap : Solid := some (.mk (nam ++ "Trd2") "" (.Trd2 x1 x2 y1 y2 halfZ))
  let tubs : Solid :=
    some (.mk (nam ++ "Tubs") "" (.TubeSeg 0 |r| h startPhi (startPhi + halfOpeningAngle * 2)))
  let params : String :=
    E.fmt x1 ++ " " ++ E.fmt x2 ++ " " ++ E.fmt y1 ++ " " ++ E.fmt y2 ++ " " ++ E.fmt z ++ " "
      ++ E.fmt r ++ " " ++ (if atMinusZ then "1" else "0") ++ " "
  let solid ←
    if intersec then
      access (SubtractionSolid nam trap tubs
        (.transform ⟨.RotationX (M_PI / 2), ⟨0, 0, displacement⟩⟩))
    else
      let sub := SubtractionSolid (nam ++ "Subs") tubs
        (some (Box.make "" (11 / 10 * x) (11 / 10 * h) (E.sqrt (r * r - x * x))))
        (.transform ⟨.RotationX (M_PI / 2), ⟨0, 0, 0⟩⟩)
      access (UnionSolid nam trap sub
        (.transform ⟨.RotationX (M_PI / 2), ⟨0, 0, displacement⟩⟩))
  pure (_assign (SetRightMatrixTitle solid params) "" PSEUDOTRAP_TAG)

/-- The loop that appends `z[i], rmin[i], rmax[i]` for `i = 0 .. n-1`. -/
def zplanes (n : Nat) (z rmin rmax : List ℚ) : List ℚ :=
  ((List.range n).map (fun i => [z.getD i 0, rmin.getD i 0, rmax.getD i 0])).flatten

/-- Constructor `Polycone::Polycone(startPhi, deltaPhi, rmin, rmax, z)`
(Shapes.cpp 181-199). -/
def Polycone.new (E : MathEnv) (startPhi deltaPhi : ℚ) (rmin rmax z : List ℚ) :
    Except Error TGeoShape :=
  if rmin.length < 2 then
    .error (.runtime_error "dd4hep: PolyCone Not enough Z planes. minimum is 2!")
  else if z.length ≠ rmin.length ∨ z.length ≠ rmax.length then
    .error (.runtime_error "dd4hep: Polycone: vectors z,rmin,rmax not of same length")
  else
    let params : List ℚ :=
      [startPhi / E.deg, deltaPhi / E.deg, (rmin.length : ℚ)] ++ zplanes rmin.length z rmin rmax
    .ok (_assign (.mk "" "" (.Pcon params)) "" POLYCONE_TAG)

/-- Constructor `Polycone::Polycone(nam, startPhi, deltaPhi, rmin, rmax, z)`
(Shapes.cpp 227-245). -/
def Polycone.newNamed (E : MathEnv) (nam : String) (startPhi deltaPhi : ℚ)
    (rmin rmax z : List ℚ) : Except Error TGeoShape :=
  if rmin.length < 2 then
    .error (.runtime_error "dd4hep: PolyCone Not enough Z planes. minimum is 2!")
  else if z.length ≠ rmin.length ∨ z.length ≠ rmax.length then
    .error (.runtime_error "dd4hep: Polycone: vectors z,rmin,rmax not of same length")
  else
    let params : List ℚ :=
      [startPhi / E.deg, deltaPhi / E.deg, (rmin.length : ℚ)] ++ zplanes rmin.length z rmin rmax
    .ok (_assign (.mk "" "" (.Pcon params)) nam POLYCONE_TAG)

/-- Function `PolyhedraRegular::make` (Shapes.cpp 739-748). -/
def PolyhedraRegular.make (E : MathEnv) (nam : String) (nsides : ℤ)
    (rmin rmax zpos zneg start delta : ℚ) : Except Error TGeoShape :=
  if rmin < 0 ∨ rmin > rmax then
    .error (.runtime_error
      ("dd4hep: PolyhedraRegular: Illegal argument rmin:<" ++ E.toStr rmin ++ "> is invalid!"))
  else if rmax < 0 then
    .error (.runtime_error
      ("dd4hep: PolyhedraRegular: Illegal argument rmax:<" ++ E.toStr rmax ++ "> is invalid!"))
  else
    let params : List ℚ :=
      [start / E.deg, delta / E.deg, (nsides : ℚ), 2, zpos, rmin, rmax, zneg, rmin, rmax]
    .ok (_assign (.mk "" "" (.Pgon params)) nam POLYHEDRA_TAG)

/-- Function `Polyhedra::make` (Shapes.cpp 751-771). -/
def Polyhedra.make (E : MathEnv) (nam : String) (nsides : ℤ) (start delta : ℚ)
    (z rmin rmax : List ℚ) : Except Error TGeoShape :=
  if rmin.length ≠ z.length ∨ rmax.length ≠ z.length then
    .error (.except "Polyhedra"
      "Number of values to define zplanes are incorrect: z:%ld rmin:%ld rmax:%ld")
  else
    let temp : List ℚ :=
      [start / E.deg, delta / E.deg, (nsides : ℚ), (z.length : ℚ)]
        ++ zplanes z.length z rmin rmax
    .ok (_assign (.mk "" "" (.Pgon temp)) nam POLYHEDRA_TAG)

/-- Function `Tube::make` (Shapes.cpp 325-332); the literal `10e-6` is `10 / 10^6`. -/
def Tube.make (E : MathEnv) (nam : String) (rmin rmax z start_phi end_phi : ℚ) : TGeoShape :=
  if |end_phi - start_phi - 2 * M_PI| < 10 / 1000000 then
    _assign (.mk nam "" (.TubeSeg rmin rmax z (start_phi / E.deg) (start_phi / E.deg + 360)))
      nam TUBE_TAG
  else
    _assign (.mk nam "" (.TubeSeg rmin rmax z (start_phi / E.deg) (end_phi / E.deg)))
      nam TUBE_TAG

/-- The decimal digit character of `d < 10`. -/
def digitChar (d : Nat) : Char := Char.ofNat (48 + d % 10)

/-- The last `k` decimal digits of `n`, most significant first. -/
def lastDigits : Nat → Nat → List Char
  | 0, _ => []
  | k + 1, n => lastDigits k (n / 10) ++ [digitChar n]

/-- The number of decimal digits of `n` (0 for 0), with `fuel` bounding the search. -/
def numDigits : Nat → Nat → Nat
  | 0, _ => 0
  | fuel + 1, n => if n = 0 then 0 else numDigits fuel (n / 10) + 1

/-- The least `k ≤ fuel` with `den ≤ num * 10 ^ k`. -/
def scaleUp : Nat → Nat → Nat → Nat → Nat
  | 0, _, _, k => k
  | fuel + 1, num, den, k => if den ≤ num * 10 ^ k then k else scaleUp fuel num den (k + 1)

/-- Drop the trailing zeros of a digit string. -/
def stripZeros (ds : List Char) : List Char :=
  (ds.reverse.dropWhile (fun c => c == '0')).reverse

/-- A fraction part: nothing when all digits are zero, else the point and the digits. -/
def fracPart (ds : List Char) : List Char :=
  match stripZeros ds with
  | [] => []
  | fs => '.' :: fs

/-- The decimal exponent of `num / den > 0`: the `X` with `10^X ≤ num/den < 10^(X+1)`. -/
def decExponent (num den : Nat) : Int :=
  if den ≤ num then ((numDigits 400 (num / den) : Nat) : Int) - 1
  else - ((scaleUp 400 num den 0 : Nat) : Int)

/-- Round `n / d` to the nearest integer, ties to even. -/
def roundHalfEven (n d : Nat) : Nat :=
  let m := n / d
  let rem := n % d
  if 2 * rem > d ∨ (2 * rem = d ∧ m % 2 = 1) then m + 1 else m

/-- The six significant digits `m` (`10^5 ≤ m < 10^6`) and the decimal exponent `X` of the
positive rational `num / den`, rounded to nearest: `num / den ≈ m * 10^(X-5)`. -/
def sixDigits (num den : Nat) : Nat × Int :=
  let X := decExponent num den
  let m :=
    if X ≤ 5 then roundHalfEven (num * 10 ^ (5 - X).toNat) den
    else roundHalfEven num (den * 10 ^ (X - 5).toNat)
  if m = 1000000 then (100000, X + 1) else (m, X)

/-- The text of a positive value with six significant digits `m` and exponent `X`, in the
style of `%g`: fixed notation when `-4 ≤ X < 6`, scientific otherwise. -/
def formatDigits (m : Nat) (X : Int) : List Char :=
  let ds := lastDigits 6 m
  if X < -4 ∨ 6 ≤ X then
    ds.take 1 ++ fracPart (ds.drop 1) ++ ['e', if X < 0 then '-' else '+']
      ++ (if X.natAbs < 10 then lastDigits 2 X.natAbs
          else lastDigits (numDigits 400 X.natAbs) X.natAbs)
  else if 0 ≤ X then
    ds.take (X.toNat + 1) ++ fracPart (ds.drop (X.toNat + 1))
  else
    '0' :: fracPart (List.replicate ((-X).toNat - 1) '0' ++ ds)

/-- Modelled from the spec: "floating-point values printed with default numeric
formatting". The stream insertion `operator<<(ostream&, double)` of the C++ library with the
stream defaults (precision 6, neither `fixed` nor `scientific`), which is not among the
translated sources. -/
def formatDouble (q : ℚ) : String :=
  if q = 0 then "0"
  else
    let (m, X) := sixDigits q.num.natAbs q.den
    String.mk ((if q < 0 then ['-'] else []) ++ formatDigits m X)

/-- Read decimal digits: the value accumulated, the number of digits and the rest. -/
def readDigits : List Char → Nat → Nat → Nat × Nat × List Char
  | [], acc, n => (acc, n, [])
  | c :: cs, acc, n =>
    if c.isDigit then readDigits cs (acc * 10 + (c.toNat - 48)) (n + 1) else (acc, n, c :: cs)

/-- Read an optional sign: `true` for a minus. -/
def readSign : List Char → Bool × List Char
  | '-' :: cs => (true, cs)
  | '+' :: cs => (false, cs)
  | cs => (false, cs)

/-- Read an optional exponent part `e[+-]digits`. -/
def readExponent : List Char → Int × List Char
  | c :: cs =>
    if c = 'e' ∨ c = 'E' then
      let (neg, cs1) := readSign cs
      let (v, n, cs2) := readDigits cs1 0 0
      if n = 0 then (0, c :: cs) else ((if neg then - (v : Int) else (v : Int)), cs2)
    else (0, c :: cs)
  | [] => (0, [])

/-- Modelled from the spec: the stream extraction `params >> val` of a `double`: skip
white space, then read sign, digits, fraction and exponent; `none` when no digit is
found. -/
def readDouble (s : List Char) : Option (ℚ × List Char) :=
  let s0 := s.dropWhile Char.isWhitespace
  let (neg, s1) := readSign s0
  let (ip, n1, s2) := readDigits s1 0 0
  let (fp, n2, s3) :=
    match s2 with
    | '.' :: cs => readDigits cs 0 0
    | cs => (0, 0, cs)
  if n1 + n2 = 0 then none
  else
    let (ex, s4) := readExponent s3
    let mant : ℚ := (ip : ℚ) + (fp : ℚ) / (10 : ℚ) ^ n2
    let v : ℚ := mant * (10 : ℚ) ^ ex
    some ((if neg then -v else v), s4)

/-- Read `n` values one after the other. -/
def readDoubles : Nat → List Char → Option (List ℚ)
  | 0, _ => some []
  | n + 1, s =>
    match readDouble s with
    | none => none
    | some (v, rest) =>
      match readDoubles n rest with
      | none => none
      | some vs => some (v :: vs)

/-- Newton iteration for the square root, `n` steps from `y`. -/
def newtonSqrt : Nat → ℚ → ℚ → ℚ
  | 0, _, y => y
  | n + 1, x, y => newtonSqrt n x ((y + x / y) / 2)

/-- A sample numeric environment with which the functions are evaluated on concrete inputs:
`deg = M_PI / 180` as in DD4hepUnits.h, the default stream formatting, and rational
stand-ins (truncated series, Newton steps) for the C math library. The general theorems
hold for every environment. -/
def sampleEnv : MathEnv where
  deg := M_PI / 180
  cos := fun x => 1 - x ^ 2 / 2 + x ^ 4 / 24
  sin := fun x => x - x ^ 3 / 6 + x ^ 5 / 120
  acos := fun x => M_PI / 2 - (x + x ^ 3 / 6)
  asin := fun x => x + x ^ 3 / 6
  sqrt := fun x => if x ≤ 0 then 0 else newtonSqrt 6 x ((x + 1) / 2)
  fmt := formatDouble
  toStr := formatDouble

/-- Modelled from the spec: `dimensions<TruncatedTube>(shape)` of ShapeUtilities.cpp, which
is not among the translated sources: the eight values are read back positionally from the
derivation metadata, the title of the right matrix of the boolean node. -/
def TruncatedTube.dimensions (s : Solid) : Except Error (List ℚ) := do
  let p ← access s
  let node ← GetBoolNode p
  match node.GetRightMatrix with
  | none => throw Error.invalid_handle
  | some m =>
    match readDoubles 8 m.title.data with
    | none => throw (Error.except TRUNCATEDTUBE_TAG "+++ Shape type is fishy")
    | some pars => pure pars

/-- The constant `std::numeric_limits<double>::epsilon()`, `2^-52`. -/
def epsilon : ℚ := 1 / 4503599627370496

/-- Function `TruncatedTube::dZ` (Shapes.cpp 467-469). -/
def TruncatedTube.dZ (s : Solid) : Except Error ℚ :=
  (TruncatedTube.dimensions s).map (fun d => d.getD 0 0)

/-- Function `TruncatedTube::rMin` (Shapes.cpp 472-474). -/
def TruncatedTube.rMin (s : Solid) : Except Error ℚ :=
  (TruncatedTube.dimensions s).map (fun d => d.getD 1 0)

/-- Function `TruncatedTube::rMax` (Shapes.cpp 477-479). -/
def TruncatedTube.rMax (s : Solid) : Except Error ℚ :=
  (TruncatedTube.dimensions s).map (fun d => d.getD 2 0)

/-- Function `TruncatedTube::startPhi` (Shapes.cpp 482-484). -/
def TruncatedTube.startPhi (s : Solid) : Except Error ℚ :=
  (TruncatedTube.dimensions s).map (fun d => d.getD 3 0)

/-- Function `TruncatedTube::deltaPhi` (Shapes.cpp 487-489). -/
def TruncatedTube.deltaPhi (s : Solid) : Except Error ℚ :=
  (TruncatedTube.dimensions s).map (fun d => d.getD 4 0)

/-- Function `TruncatedTube::cutAtStart` (Shapes.cpp 492-494). -/
def TruncatedTube.cutAtStart (s : Solid) : Except Error ℚ :=
  (TruncatedTube.dimensions s).map (fun d => d.getD 5 0)

/-- Function `TruncatedTube::cutAtDelta` (Shapes.cpp 497-499). -/
def TruncatedTube.cutAtDelta (s : Solid) : Except Error ℚ :=
  (TruncatedTube.dimensions s).map (fun d => d.getD 6 0)

/-- Function `TruncatedTube::cutInside` (Shapes.cpp 502-504). -/
def TruncatedTube.cutInside (s : Solid) : Except Error Bool :=
  (TruncatedTube.dimensions s).map (fun d => decide (|d.getD 7 0| > epsilon))

/-- The shape that the case table of the specification describes for a pseudo-trapezoid,
given the entries of one row (`startPhi`, `displacement`, `h`) and the operator `mode` of
the top node: a `Trd2(x1,x2,y1,y2,z)` next to a tube segment with inner radius 0, outer
radius `|r|`, half-height `h`, spanning `[startPhi, startPhi + 2w]` with
`w = asin(x/|r|)` in degrees, the tube placed by `rotateX(M_PI/2)` and
`translate(0,0,displacement)`; when the mode is Union the tube is first trimmed by a box with
half-lengths `(1.1 x, 1.1 h, sqrt(r*r - x*x))`. Written from the table, to be compared with
`PseudoTrap.make`. -/
def PseudoTrap.fromTable (E : MathEnv) (nam : String) (x1 x2 y1 y2 z r : ℚ) (atMinusZ : Bool)
    (mode : BoolOp) (startPhi displacement h : ℚ) : TGeoShape :=
  let x := if atMinusZ then x1 else x2
  let w := E.asin (x / |r|) / E.deg
  let trap := TGeoShape.mk (nam ++ "Trd2") "" (.Trd2 x1 x2 y1 y2 z)
  let tubs := TGeoShape.mk (nam ++ "Tubs") "" (.TubeSeg 0 |r| h startPhi (startPhi + 2 * w))
  let metadata : String :=
    E.fmt x1 ++ " " ++ E.fmt x2 ++ " " ++ E.fmt y1 ++ " " ++ E.fmt y2 ++ " " ++ E.fmt z ++ " "
      ++ E.fmt r ++ " " ++ (if atMinusZ then "1" else "0") ++ " "
  let place : TGeoMatrix :=
    ⟨._transform ⟨.RotationX (M_PI / 2), ⟨0, 0, displacement⟩⟩, metadata⟩
  if mode = .Union then
    let box := TGeoShape.mk "" BOX_TAG (.BBox (11 / 10 * x) (11 / 10 * h) (E.sqrt (r * r - x * x)))
    let trimmed := TGeoShape.mk (nam ++ "Subs") SUBTRACTION_TAG
      (.CompositeShape (.mk .Subtraction (some tubs) (some box) (some ⟨._identity, ""⟩)
        (some ⟨._transform ⟨.RotationX (M_PI / 2), ⟨0, 0, 0⟩⟩, ""⟩)))
    .mk nam PSEUDOTRAP_TAG
      (.CompositeShape (.mk .Union (some trap) (some trimmed) (some ⟨._identity, ""⟩)
        (some place)))
  else
    .mk nam PSEUDOTRAP_TAG
      (.CompositeShape (.mk mode (some trap) (some tubs) (some ⟨._identity, ""⟩)
        (some place)))

/-- Raw accessor `Handle::ptr()`: the pointer held by the handle, null when unbound. -/
def ptr (s : Solid) : Option TGeoShape := s

/-- Call `SetName(value)` of the kernel object. -/
def TGeoShape.SetName : TGeoShape → String → TGeoShape
  | .mk _ t g, value => .mk value t g

/-- The class name `IsA()->GetName()` of the kernel object. -/
def TGeoShape.className : TGeoShape → String
  | .mk _ _ (.BBox _ _ _) => "TGeoBBox"
  | .mk _ _ (.TubeSeg _ _ _ _ _) => "TGeoTubeSeg"
  | .mk _ _ (.Trd2 _ _ _ _ _) => "TGeoTrd2"
  | .mk _ _ (.Pcon _) => "TGeoPcon"
  | .mk _ _ (.Pgon _) => "TGeoPgon"
  | .mk _ _ (.CompositeShape _) => "TGeoCompositeShape"
  | .mk _ _ (.ScaledShape _ _ _ _) => "TGeoScaledShape"
  | .mk _ _ (.Native cls _) => cls

/-- Modelled from the spec: the kernel capability `kernelShape.setDimensions(nativeDimensions)`
(`TGeoShape::SetDimensions(double*)`): the native fields are overwritten in their fixed order
from the parameter array; a composite or scaled shape has no native fields of its own. An
entry the array does not have reads as 0; a class with a fixed number of fields reads that
many entries. -/
def Geometry.SetDimensions : Geometry → List ℚ → Geometry
  | .BBox _ _ _, p => .BBox (p.getD 0 0) (p.getD 1 0) (p.getD 2 0)
  | .TubeSeg _ _ _ _ _, p =>
      .TubeSeg (p.getD 0 0) (p.getD 1 0) (p.getD 2 0) (p.getD 3 0) (p.getD 4 0)
  | .Trd2 _ _ _ _ _, p => .Trd2 (p.getD 0 0) (p.getD 1 0) (p.getD 2 0) (p.getD 3 0) (p.getD 4 0)
  | .Pcon _, p => .Pcon p
  | .Pgon _, p => .Pgon p
  | .CompositeShape node, _ => .CompositeShape node
  | .ScaledShape b sx sy sz, _ => .ScaledShape b sx sy sz
  | .Native cls fields, p =>
      .Native cls (p.take fields.length ++ List.replicate (fields.length - p.length) 0)

/-- Call `p->SetDimensions(param)` on a kernel object (followed by `ComputeBBox()`, which
changes no data of the embedding). -/
def TGeoShape.SetDimensions : TGeoShape → List ℚ → TGeoShape
  | .mk n t g, param => .mk n t (g.SetDimensions param)

/-- Function `Solid_type<T>::_setDimensions` (Shapes.cpp 40-44): the result is the state of
the handle after the call. -/
def Solid._setDimensions (s : Solid) (param : List ℚ) : Except Error Solid := do
  let p ← access s
  pure (some (p.SetDimensions param))

/-- Function `Solid_type<T>::setName` (Shapes.cpp 71-80, both overloads): the result is the
state of the handle after the call. -/
def Solid.setName (s : Solid) (value : String) : Except Error Solid := do
  let p ← access s
  pure (some (p.SetName value))

/-- Function `Solid_type<T>::type` (Shapes.cpp 83-88). -/
def Solid.type (s : Solid) : Except Error String :=
  match ptr s with
  | some p => .ok p.className
  | none => (access s).map TGeoShape.GetName

/-- Map over the first two entries of a parameter array (the two angles of a polycone or
polyhedron). -/
def mapAngles (f : ℚ → ℚ) : List ℚ → List ℚ
  | a :: b :: rest => f a :: f b :: rest
  | l => l

/-- Modelled from the spec: "the conversion factor is fixed per field, not per call": the
positions of the angle fields in the parameter array of a kernel class, which are the
positions at which the constructors and typed setters of Shapes.cpp divide by `units::deg`
(`TGeoConeSeg` at 292-309, `TGeoCtub` at 342-352, `TwistedTubeObject` at 512-516, `TGeoHype`
at 555-564, `TGeoSphere` at 567-578, `TGeoTorus` at 581-590, `TGeoTrap` at 593-634); a class
that is not listed has no angle field. -/
def angleFields (cls : String) : List Nat :=
  if cls = "TGeoConeSeg" then [5, 6]
  else if cls = "TGeoCtub" then [3, 4]
  else if cls = "TwistedTubeObject" then [6]
  else if cls = "TGeoHype" then [1, 3]
  else if cls = "TGeoSphere" then [2, 3, 4, 5]
  else if cls = "TGeoTorus" then [3, 4]
  else if cls = "TGeoTrap" then [1, 2, 6, 10]
  else []

/-- Apply `f` to the entries of a parameter array whose position, counted from `i`, is in
`idx`. -/
def convertFrom (idx : List Nat) (f : ℚ → ℚ) : Nat → List ℚ → List ℚ
  | _, [] => []
  | i, v :: rest => (if i ∈ idx then f v else v) :: convertFrom idx f (i + 1) rest

/-- Apply `f` to the entries of a parameter array at the positions `idx`. -/
def convertAt (idx : List Nat) (f : ℚ → ℚ) (l : List ℚ) : List ℚ := convertFrom idx f 0 l

/-- Modelled from the spec: `get_shape_dimensions(shape)` of ShapeUtilities.cpp, which is not
among the translated sources: "reading native fields back in the same order used by
setDimensions", the angle fields converted from the kernel's degrees with the fixed factor
`deg`; a composite has an empty dimension vector; scaled shapes are outside this model. -/
def get_shape_dimensions (E : MathEnv) (p : TGeoShape) : Except Error (List ℚ) :=
  match p.geometry with
  | .BBox dx dy dz => .ok [dx, dy, dz]
  | .TubeSeg rmin rmax dz phi1 phi2 => .ok [rmin, rmax, dz, phi1 * E.deg, phi2 * E.deg]
  | .Trd2 dx1 dx2 dy1 dy2 dz => .ok [dx1, dx2, dy1, dy2, dz]
  | .Pcon params => .ok (mapAngles (fun a => a * E.deg) params)
  | .Pgon params => .ok (mapAngles (fun a => a * E.deg) params)
  | .CompositeShape _ => .ok []
  | .ScaledShape _ _ _ _ => .error (.except "Solid" "Unsupported shape type")
  | .Native cls fields => .ok (convertAt (angleFields cls) (fun a => a * E.deg) fields)

/-- The error of a parameter array of the wrong length. -/
def invalid_setter : Error := .except "Solid" "Invalid number of parameters"

/-- Modelled from the spec: `set_shape_dimensions(shape, params)` of ShapeUtilities.cpp, which
is not among the translated sources: "writes params into the solid's native fields in a
fixed, per-kind order", "fails with InvalidArgument if params.length does not match the
kind's required arity"; the angle fields are converted to the kernel's degrees with the
fixed factor `deg`, as the typed `setDimensions` functions of Shapes.cpp do. The arity of a
polycone is `3 + 3 nz` and that of a polyhedron `4 + 3 nz`, with `nz` read from the array. -/
def set_shape_dimensions (E : MathEnv) (p : TGeoShape) (params : List ℚ) :
    Except Error TGeoShape :=
  match p.geometry with
  | .BBox _ _ _ =>
      if params.length ≠ 3 then .error invalid_setter else .ok (p.SetDimensions params)
  | .TubeSeg _ _ _ _ _ =>
      if params.length ≠ 5 then .error invalid_setter
      else .ok (p.SetDimensions [params.getD 0 0, params.getD 1 0, params.getD 2 0,
        params.getD 3 0 / E.deg, params.getD 4 0 / E.deg])
  | .Trd2 _ _ _ _ _ =>
      if params.length ≠ 5 then .error invalid_setter else .ok (p.SetDimensions params)
  | .Pcon _ =>
      if params.length < 3 ∨ params.length ≠ 3 + 3 * ⌊params.getD 2 0⌋.toNat then
        .error invalid_setter
      else .ok (p.SetDimensions (mapAngles (fun a => a / E.deg) params))
  | .Pgon _ =>
      if params.length < 4 ∨ params.length ≠ 4 + 3 * ⌊params.getD 3 0⌋.toNat then
        .error invalid_setter
      else .ok (p.SetDimensions (mapAngles (fun a => a / E.deg) params))
  | .CompositeShape _ => if params = [] then .ok p else .error invalid_setter
  | .ScaledShape _ _ _ _ => .error (.except "Solid" "Unsupported shape type")
  | .Native cls fields =>
      if params.length ≠ fields.length then .error invalid_setter
      else .ok (p.SetDimensions (convertAt (angleFields cls) (fun a => a / E.deg) params))

/-- Function `Solid_type<T>::dimensions` (Shapes.cpp 91-93). -/
def Solid.dimensions (E : MathEnv) (s : Solid) : Except Error (List ℚ) := do
  let p ← access s
  get_shape_dimensions E p

/-- Function `Solid_type<T>::setDimensions` (Shapes.cpp 96-99): the result is the state of
the handle after the call. -/
def Solid.setDimensions (E : MathEnv) (s : Solid) (params : List ℚ) : Except Error Solid := do
  let p ← access s
  let q ← set_shape_dimensions E p params
  pure (some q)

/-- Function `Scale::make` (Shapes.cpp 124-127). -/
def Scale.make (nam : String) (base : Solid) (x_scale y_scale z_scale : ℚ) :
    Except Error TGeoShape := do
  let b ← access base
  pure (_assign (.mk nam "" (.ScaledShape b x_scale y_scale z_scale)) "" SCALE_TAG)

/-- The calls `GetScale()->GetScale()[i]` on a `TGeoScaledShape`; the typed handle holds no
other kind of shape. -/
def GetScale (p : TGeoShape) (i : Nat) : Except Error ℚ :=
  match p.geometry with
  | .ScaledShape _ sx sy sz => .ok ([sx, sy, sz].getD i 0)
  | _ => .error (.runtime_error "not a TGeoScaledShape")

/-- Function `Scale::scale_x` (Shapes.cpp 130-132). -/
def Scale.scale_x (s : Solid) : Except Error ℚ := do
  let p ← access s
  GetScale p 0

/-- Function `Scale::scale_y` (Shapes.cpp 135-137). -/
def Scale.scale_y (s : Solid) : Except Error ℚ := do
  let p ← access s
  GetScale p 1

/-- Function `Scale::scale_z` (Shapes.cpp 140-142). -/
def Scale.scale_z (s : Solid) : Except Error ℚ := do
  let p ← access s
  GetScale p 2

/-- The calls `GetDX()`, `GetDY()`, `GetDZ()` (`i = 0, 1, 2`) on a `TGeoBBox`; the typed
handle holds no other kind of shape. -/
def GetD (p : TGeoShape) (i : Nat) : Except Error ℚ :=
  match p.geometry with
  | .BBox dx dy dz => .ok ([dx, dy, dz].getD i 0)
  | _ => .error (.runtime_error "not a TGeoBBox")

/-- Function `Box::x` (Shapes.cpp 156-158): `this->ptr()->GetDX()`; with a null pointer the
call dereferences it. -/
def Box.x (s : Solid) : Except Error ℚ :=
  match ptr s with
  | some p => GetD p 0
  | none => .error .null_dereference

/-- Function `Box::y` (Shapes.cpp 161-163). -/
def Box.y (s : Solid) : Except Error ℚ :=
  match ptr s with
  | some p => GetD p 1
  | none => .error .null_dereference

/-- Function `Box::z` (Shapes.cpp 166-168). -/
def Box.z (s : Solid) : Except Error ℚ :=
  match ptr s with
  | some p => GetD p 2
  | none => .error .null_dereference

/-- Function `Box::setDimensions` (Shapes.cpp 149-153). -/
def Box.setDimensions (s : Solid) (x_val y_val z_val : ℚ) : Except Error Solid :=
  Solid._setDimensions s [x_val, y_val, z_val]

/-- Function `ConeSegment::setDimensions` (Shapes.cpp 303-310). -/
def ConeSegment.setDimensions (E : MathEnv) (s : Solid)
    (dz rmin1 rmax1 rmin2 rmax2 startPhi endPhi : ℚ) : Except Error Solid :=
  Solid._setDimensions s [dz, rmin1, rmax1, rmin2, rmax2, startPhi / E.deg, endPhi / E.deg]

/-- Function `Cone::setDimensions` (Shapes.cpp 318-322). -/
def Cone.setDimensions (s : Solid) (z rmin1 rmax1 rmin2 rmax2 : ℚ) : Except Error Solid :=
  Solid._setDimensions s [z, rmin1, rmax1, rmin2, rmax2]

/-- Function `Tube::setDimensions` (Shapes.cpp 335-339). -/
def Tube.setDimensions (E : MathEnv) (s : Solid) (rmin rmax z start_phi end_phi : ℚ) :
    Except Error Solid :=
  Solid._setDimensions s [rmin, rmax, z, start_phi / E.deg, end_phi / E.deg]

/-- Function `Trd1::setDimensions` (Shapes.cpp 524-528). -/
def Trd1.setDimensions (s : Solid) (x1 x2 y z : ℚ) : Except Error Solid :=
  Solid._setDimensions s [x1, x2, y, z]

/-- Function `Trd2::make` (Shapes.cpp 531-533). -/
def Trd2.make (nam : String) (x1 x2 y1 y2 z : ℚ) : TGeoShape :=
  _assign (.mk nam "" (.Trd2 x1 x2 y1 y2 z)) "" TRD2_TAG

/-- Function `Trd2::setDimensions` (Shapes.cpp 536-540). -/
def Trd2.setDimensions (s : Solid) (x1 x2 y1 y2 z : ℚ) : Except Error Solid :=
  Solid._setDimensions s [x1, x2, y1, y2, z]

/-- Function `Paraboloid::setDimensions` (Shapes.cpp 548-552). -/
def Paraboloid.setDimensions (s : Solid) (r_low r_high delta_z : ℚ) : Except Error Solid :=
  Solid._setDimensions s [r_low, r_high, delta_z]

/-- Function `Hyperboloid::setDimensions` (Shapes.cpp 560-564). -/
def Hyperboloid.setDimensions (E : MathEnv) (s : Solid) (rin stin rout stout dz : ℚ) :
    Except Error Solid :=
  Solid._setDimensions s [rin, stin / E.deg, rout, stout / E.deg, dz]

/-- Function `Sphere::setDimensions` (Shapes.cpp 574-578). -/
def Sphere.setDimensions (E : MathEnv) (s : Solid)
    (rmin rmax startTheta endTheta startPhi endPhi : ℚ) : Except Error Solid :=
  Solid._setDimensions s
    [rmin, rmax, startTheta / E.deg, endTheta / E.deg, startPhi / E.deg, endPhi / E.deg]

/-- Function `Torus::setDimensions` (Shapes.cpp 586-590). -/
def Torus.setDimensions (E : MathEnv) (s : Solid) (r rmin rmax startPhi deltaPhi : ℚ) :
    Except Error Solid :=
  Solid._setDimensions s [r, rmin, rmax, startPhi / E.deg, deltaPhi / E.deg]

/-- Function `Trap::setDimensions` (Shapes.cpp 626-634). -/
def Trap.setDimensions (E : MathEnv) (s : Solid)
    (z theta phi h1 bl1 tl1 alpha1 h2 bl2 tl2 alpha2 : ℚ) : Except Error Solid :=
  Solid._setDimensions s
    [z, theta / E.deg, phi / E.deg, h1, bl1, tl1, alpha1 / E.deg, h2, bl2, tl2,
      alpha2 / E.deg]

/-- The identity of a solid is kept by an operation: the operation returns, the handle is
bound, and name, title and class of the object are those of `p`. -/
def keepsIdentity (p : TGeoShape) (r : Except Error Solid) : Prop :=
  ∃ q, r = .ok (some q) ∧ q.GetName = p.GetName ∧ q.GetTitle = p.GetTitle
    ∧ q.className = p.className

/-- The course of a construction call: what it returns or throws, and the kernel shapes
constructed with `new` during the call, in the order of their construction. -/
structure Construction where
  result : Except Error TGeoShape
  built : List TGeoShape

/-- The handle after a construction call: a constructor starts from the unbound handle and
only the final `_assign` binds it. -/
def Construction.handle (c : Construction) : Solid :=
  match c.result with
  | .ok s => some s
  | .error _ => none

/-- A construction call is atomic: either it throws, no kernel shape has been constructed
and the handle is unbound, or it returns with the handle bound to the shape built. -/
def Construction.atomic (c : Construction) : Prop :=
  (∃ e, c.result = .error e ∧ c.built = [] ∧ c.handle = none)
  ∨ (∃ s, c.result = .ok s ∧ c.handle = some s ∧ c.built ≠ [])

/-- Function `TruncatedTube::make` (Shapes.cpp 372-423) with the shapes it constructs: the
box, the tube segment and the composite, all after the three checks. -/
def TruncatedTube.construction (E : MathEnv) (nam : String)
    (dz rmin rmax start_phi delta_phi cut_atStart cut_atDelta : ℚ) (cut_inside : Bool) :
    Construction :=
  if rmin ≤ 0 ∨ rmax ≤ 0 ∨ cut_atStart ≤ 0 ∨ cut_atDelta ≤ 0 then
    ⟨.error (.except TRUNCATEDTUBE_TAG
      "++ 0 <= rIn,cut_atStart,rOut,cut_atDelta,rOut violated!"), []⟩
  else if rmin ≥ rmax then
    ⟨.error (.except TRUNCATEDTUBE_TAG "++ rIn<rOut violated!"), []⟩
  else if start_phi ≠ 0 then
    ⟨.error (.except TRUNCATEDTUBE_TAG "++ start_phi != 0 not supported!"), []⟩
  else
    let r := cut_atStart
    let R := cut_atDelta
    let cath := r - R * E.cos (delta_phi * E.deg)
    let hypo := E.sqrt (r * r + R * R - 2 * r * R * E.cos (delta_phi * E.deg))
    let cos_alpha := cath / hypo
    let alpha := E.acos cos_alpha
    let sin_alpha := E.sin |alpha|
    let boxX := 11 / 10 * rmax + rmax / sin_alpha
    let boxY := rmax
    let boxZ := 11 / 10 * dz
    let xBox := if cut_inside then r - boxY / sin_alpha else r + boxY / sin_alpha
    let box := TGeoShape.mk (nam ++ "Box") "" (.BBox boxX boxY boxZ)
    let tubs := TGeoShape.mk (nam ++ "Tubs") "" (.TubeSeg rmin rmax dz start_phi delta_phi)
    let params : String :=
      E.fmt dz ++ " " ++ "\n" ++ E.fmt rmin ++ " " ++ "\n" ++ E.fmt rmax ++ " " ++ "\n"
        ++ E.fmt (start_phi * E.deg) ++ " " ++ "\n" ++ E.fmt (delta_phi * E.deg) ++ " " ++ "\n"
        ++ E.fmt cut_atStart ++ " " ++ "\n" ++ E.fmt cut_atDelta ++ " " ++ "\n"
        ++ (if cut_inside then "1" else "0") ++ "\n"
    let combi : TGeoMatrix :=
      { kind := .CombiTransRotateZ ⟨xBox, 0, 0⟩ (-alpha / E.deg), title := params }
    let sub := TGeoBoolNode.mk .Subtraction (some tubs) (some box) none (some combi)
    let shape := _assign (.mk nam "" (.CompositeShape sub)) "" TRUNCATEDTUBE_TAG
    ⟨.ok shape, [box, tubs, shape]⟩

/-- The part of `PseudoTrap::make` after the case split (Shapes.cpp 719-735) with the shapes
it constructs: the trapezoid, the tube segment, in union mode the box and the trimmed tube,
and the composite. -/
def PseudoTrap.assemble (E : MathEnv) (nam : String) (x1 x2 y1 y2 z r : ℚ) (atMinusZ : Bool)
    (intersec : Bool) (h displacement startPhi : ℚ) : Construction :=
  let x := if atMinusZ then x1 else x2
  let halfOpeningAngle := E.asin (x / |r|) / E.deg
  let trap := TGeoShape.mk (nam ++ "Trd2") "" (.Trd2 x1 x2 y1 y2 z)
  let tubs :=
    TGeoShape.mk (nam ++ "Tubs") "" (.TubeSeg 0 |r| h startPhi (startPhi + halfOpeningAngle * 2))
  let params : String :=
    E.fmt x1 ++ " " ++ E.fmt x2 ++ " " ++ E.fmt y1 ++ " " ++ E.fmt y2 ++ " " ++ E.fmt z ++ " "
      ++ E.fmt r ++ " " ++ (if atMinusZ then "1" else "0") ++ " "
  if intersec then
    match SubtractionSolid nam (some trap) (some tubs)
        (.transform ⟨.RotationX (M_PI / 2), ⟨0, 0, displacement⟩⟩) with
    | some solid =>
      ⟨.ok (_assign (SetRightMatrixTitle solid params) "" PSEUDOTRAP_TAG),
        [trap, tubs, _assign (SetRightMatrixTitle solid params) "" PSEUDOTRAP_TAG]⟩
    | none => ⟨.error .invalid_handle, [trap, tubs]⟩
  else
    let box := Box.make "" (11 / 10 * x) (11 / 10 * h) (E.sqrt (r * r - x * x))
    match SubtractionSolid (nam ++ "Subs") (some tubs) (some box)
        (.transform ⟨.RotationX (M_PI / 2), ⟨0, 0, 0⟩⟩) with
    | some sub =>
      match UnionSolid nam (some trap) (some sub)
          (.transform ⟨.RotationX (M_PI / 2), ⟨0, 0, displacement⟩⟩) with
      | some solid =>
        ⟨.ok (_assign (SetRightMatrixTitle solid params) "" PSEUDOTRAP_TAG),
          [trap, tubs, box, sub, _assign (SetRightMatrixTitle solid params) "" PSEUDOTRAP_TAG]⟩
      | none => ⟨.error .invalid_handle, [trap, tubs, box, sub]⟩
    | none => ⟨.error .invalid_handle, [trap, tubs, box]⟩

/-- Function `PseudoTrap::make` (Shapes.cpp 637-736) with the shapes it constructs: the case
split constructs nothing, the throw of its last branch comes before every `new`. -/
def PseudoTrap.construction (E : MathEnv) (nam : String) (x1 x2 y1 y2 z r : ℚ)
    (atMinusZ : Bool) : Construction :=
  let x := if atMinusZ then x1 else x2
  let halfZ := z
  let halfOpeningAngle := E.asin (x / |r|) / E.deg
  let delta := E.sqrt (r * r - x * x)
  if r < 0 ∧ |r| ≥ x then
    let h0 := if y1 < y2 then y2 else y1
    let h1 := h0 + h0 / 20
    if atMinusZ then
      PseudoTrap.assemble E nam x1 x2 y1 y2 z r atMinusZ true h1 (-halfZ - delta)
        (90 - halfOpeningAngle)
    else
      PseudoTrap.assemble E nam x1 x2 y1 y2 z r atMinusZ true h1 (halfZ + delta)
        (-90 - halfOpeningAngle)
  else if r > 0 ∧ |r| ≥ x then
    if atMinusZ then
      PseudoTrap.assemble E nam x1 x2 y1 y2 z r atMinusZ false y1 (-halfZ + delta)
        (270 - halfOpeningAngle)
    else
      PseudoTrap.assemble E nam x1 x2 y1 y2 z r atMinusZ false y2 (halfZ - delta)
        (90 - halfOpeningAngle)
  else
    ⟨.error (.except PSEUDOTRAP_TAG "Check parameters of the PseudoTrap!"), []⟩

/-- Constructors `Polycone::Polycone` with z-planes (Shapes.cpp 181-199 and, with a name,
227-245; `nam = ""` for the first) with the shape they construct: the `TGeoPcon`, after the
two checks. -/
def Polycone.construction (E : MathEnv) (nam : String) (startPhi deltaPhi : ℚ)
    (rmin rmax z : List ℚ) : Construction :=
  if rmin.length < 2 then
    ⟨.error (.runtime_error "dd4hep: PolyCone Not enough Z planes. minimum is 2!"), []⟩
  else if z.length ≠ rmin.length ∨ z.length ≠ rmax.length then
    ⟨.error (.runtime_error "dd4hep: Polycone: vectors z,rmin,rmax not of same length"), []⟩
  else
    let params : List ℚ :=
      [startPhi / E.deg, deltaPhi / E.deg, (rmin.length : ℚ)] ++ zplanes rmin.length z rmin rmax
    let shape := _assign (.mk "" "" (.Pcon params)) nam POLYCONE_TAG
    ⟨.ok shape, [shape]⟩

/-- Function `PolyhedraRegular::make` (Shapes.cpp 739-748) with the shape it constructs: the
`TGeoPgon`, after the two checks. -/
def PolyhedraRegular.construction (E : MathEnv) (nam : String) (nsides : ℤ)
    (rmin rmax zpos zneg start delta : ℚ) : Construction :=
  if rmin < 0 ∨ rmin > rmax then
    ⟨.error (.runtime_error
      ("dd4hep: PolyhedraRegular: Illegal argument rmin:<" ++ E.toStr rmin ++ "> is invalid!")),
      []⟩
  else if rmax < 0 then
    ⟨.error (.runtime_error
      ("dd4hep: PolyhedraRegular: Illegal argument rmax:<" ++ E.toStr rmax ++ "> is invalid!")),
      []⟩
  else
    let params : List ℚ :=
      [start / E.deg, delta / E.deg, (nsides : ℚ), 2, zpos, rmin, rmax, zneg, rmin, rmax]
    let shape := _assign (.mk "" "" (.Pgon params)) nam POLYHEDRA_TAG
    ⟨.ok shape, [shape]⟩

/-- Function `Polyhedra::make` (Shapes.cpp 751-771) with the shape it constructs: the
`TGeoPgon`, after the check of the lengths. -/
def Polyhedra.construction (E : MathEnv) (nam : String) (nsides : ℤ) (start delta : ℚ)
    (z rmin rmax : List ℚ) : Construction :=
  if rmin.length ≠ z.length ∨ rmax.length ≠ z.length then
    ⟨.error (.except "Polyhedra"
      "Number of values to define zplanes are incorrect: z:%ld rmin:%ld rmax:%ld"), []⟩
  else
    let temp : List ℚ :=
      [start / E.deg, delta / E.deg, (nsides : ℚ), (z.length : ℚ)]
        ++ zplanes z.length z rmin rmax
    let shape := _assign (.mk "" "" (.Pgon temp)) nam POLYHEDRA_TAG
    ⟨.ok shape, [shape]⟩

/-- The tree `boost::property_tree::ptree` used by JSON/Elements.cpp: a data string and the
children in their order, each with its key. -/
inductive json.ptree where
  | mk (data : String) (children : List (String × json.ptree))

/-- Call `data()` of a tree. -/
def json.ptree.data : json.ptree → String
  | .mk d _ => d

/-- The children of a tree, in order. -/
def json.ptree.children : json.ptree → List (String × json.ptree)
  | .mk _ cs => cs

/-- A `JsonElement`, the value type of the tree: a key and a subtree. -/
abbrev json.JsonElement := String × json.ptree

/-- A `Handle_t`: the pointer `m_node`, `none` when null. -/
structure json.Handle_t where
  m_node : Option json.JsonElement

/-- The character `{`. -/
def json.lbrace : Char := Char.ofNat 123

/-- Function `_checkEnviron` (Elements.cpp 36-39); `getEnviron` stands for
`dd4hep::_getEnviron`, which is declared only. -/
def json._checkEnviron (getEnviron : String → String) (env : String) : String :=
  if getEnviron env = "" then env else getEnviron env

/-- Function `dd4hep::json::_toString(const char* s)` (Elements.cpp 93-97). A C string is a
string without the NUL character, `none` is the null pointer; `*(s+1)` of a string of one
character is the terminator. -/
def json._toString_cstr (getEnviron : String → String) (s : Option String) : String :=
  match s with
  | none => ""
  | some str =>
    if str = "" then ""
    else if ¬ (str.data.head? = some '$' ∧ str.data.get? 1 = some json.lbrace) then str
    else json._checkEnviron getEnviron str

/-- Function `dd4hep::json::_toString(const std::string& s)` (Elements.cpp 100-104). -/
def json._toString_string (getEnviron : String → String) (s : String) : String :=
  if s.length < 3 ∨ s.data.head? ≠ some '$' then s
  else if ¬ (s.data.head? = some '$' ∧ s.data.get? 1 = some json.lbrace) then s
  else json._checkEnviron getEnviron s

/-- Function `attribute_node` (Elements.cpp 67-73); `find(t)` of the tree gives the first
child with the key `t`. -/
def json.attribute_node (n : Option json.JsonElement) (t : String) :
    Option json.JsonElement :=
  match n with
  | some e => e.2.children.find? (fun c => c.1 = t)
  | none => none

/-- Function `attribute_value` (Elements.cpp 75-77). -/
def json.attribute_value (a : json.JsonElement) : String := a.2.data

/-- Function `Handle_t::rawTag` (Elements.cpp 246-248), also used for `tag()`. -/
def json.Handle_t.rawTag (h : json.Handle_t) : Except Error String :=
  match h.m_node with
  | some e => .ok e.1
  | none => .error .null_dereference

/-- Function `Handle_t::attr_nothrow` (Elements.cpp 261-263). -/
def json.Handle_t.attr_nothrow (h : json.Handle_t) (tag_value : String) :
    Option json.JsonElement :=
  json.attribute_node h.m_node tag_value

/-- Function `Handle_t::attr_ptr` (Elements.cpp 318-328). -/
def json.Handle_t.attr_ptr (getEnviron : String → String) (h : json.Handle_t) (t : String) :
    Except Error json.JsonElement :=
  match json.attribute_node h.m_node t with
  | some a => .ok a
  | none =>
    match h.m_node with
    | some e =>
      .error (.runtime_error ("Handle_t::attr_ptr: " ++ "Element [" ++ e.1
        ++ "] has no attribute of type '" ++ json._toString_cstr getEnviron (some t) ++ "'"))
    | none =>
      .error (.runtime_error ("Handle_t::attr_ptr: "
        ++ "Element [INVALID] has no attribute of type '"
        ++ json._toString_cstr getEnviron (some t) ++ "'"))

/-- Function `Handle_t::attr_value(const char*)` (Elements.cpp 339-341). -/
def json.Handle_t.attr_value (getEnviron : String → String) (h : json.Handle_t)
    (attr_tag : String) : Except Error String :=
  (json.Handle_t.attr_ptr getEnviron h attr_tag).map json.attribute_value

/-- Function `Handle_t::attr_value_nothrow` (Elements.cpp 349-352); `none` is the null
pointer returned. -/
def json.Handle_t.attr_value_nothrow (h : json.Handle_t) (attr_tag : String) :
    Option String :=
  match h.attr_nothrow attr_tag with
  | some a => some (json.attribute_value a)
  | none => none

/-- The cutting box of a truncated tube as the specification derives it, with `r` the cut at
the start, `R` the cut at delta and `c = cos(deltaPhi)`: `cath = r - R c`,
`hypo = sqrt(r r + R R - 2 r R c)`, `alpha = acos(cath/hypo)`,
`boxX = 1.1 rmax + rmax/sin(alpha)`, `boxY = rmax`, `boxZ = 1.1 dz` and
`xBox = r - boxY/sin(alpha)` when cutting inside, else `r + boxY/sin(alpha)`. The result is
`(boxX, boxY, boxZ, xBox, alpha)`. Written from these formulas, to be compared with
`TruncatedTube.make`. -/
def TruncatedTube.cutFromSpec (E : MathEnv) (dz rmax deltaPhi r R : ℚ) (cutInside : Bool) :
    ℚ × ℚ × ℚ × ℚ × ℚ :=
  let c := E.cos deltaPhi
  let cath := r - R * c
  let hypo := E.sqrt (r * r + R * R - 2 * r * R * c)
  let alpha := E.acos (cath / hypo)
  let boxX := 11 / 10 * rmax + rmax / E.sin alpha
  let boxY := rmax
  let boxZ := 11 / 10 * dz
  let xBox := if cutInside then r - boxY / E.sin alpha else r + boxY / E.sin alpha
  (boxX, boxY, boxZ, xBox, alpha)

/-- The loop of the (r, z) constructors that appends `z[i], 0.0, r[i]` for `i = 0 .. n-1`. -/
def zplanesR (n : Nat) (z r : List ℚ) : List ℚ :=
  ((List.range n).map (fun i => [z.getD i 0, 0, r.getD i 0])).flatten

/-- Constructor `Polycone::Polycone(startPhi, deltaPhi, r, z)` (Shapes.cpp 202-219). -/
def Polycone.newRZ (E : MathEnv) (startPhi deltaPhi : ℚ) (r z : List ℚ) :
    Except Error TGeoShape :=
  if r.length < 2 then
    .error (.runtime_error "dd4hep: PolyCone Not enough Z planes. minimum is 2!")
  else if z.length ≠ r.length then
    .error (.runtime_error "dd4hep: Polycone: vectors z,r not of same length")
  else
    let params : List ℚ :=
      [startPhi / E.deg, deltaPhi / E.deg, (r.length : ℚ)] ++ zplanesR r.length z r
    .ok (_assign (.mk "" "" (.Pcon params)) "" POLYCONE_TAG)

/-- The placement a matrix pointer of a kernel boolean node stands for: the constructor of
`TGeoBoolNode` puts the identity matrix in the place of a null pointer. -/
def placement (m : Option TGeoMatrix) : MatrixKind :=
  match m with
  | some mat => mat.kind
  | none => ._identity

/-- The conversion `(long)` or `(int)` of a double: the fraction is cut off (a value out of
the range of the type is not modelled). -/
def truncate (q : ℚ) : ℤ := if 0 ≤ q then ⌊q⌋ else ⌈q⌉

/-- Function `dd4hep::json::_toLong` (Elements.cpp 141-143); `_toInteger` stands for
`dd4hep::_toInteger`, which is declared only. -/
def json._toLong (getEnviron : String → String) (_toInteger : String → ℤ × ℚ)
    (value : Option String) : ℤ :=
  match value with
  | some v => truncate (_toInteger (json._toString_cstr getEnviron (some v))).2
  | none => -1

/-- Function `dd4hep::json::_toInt` (Elements.cpp 145-147). -/
def json._toInt (getEnviron : String → String) (_toInteger : String → ℤ × ℚ)
    (value : Option String) : ℤ :=
  match value with
  | some v => truncate (_toInteger (json._toString_cstr getEnviron (some v))).2
  | none => -1

/-- Function `dd4hep::json::_toBool` (Elements.cpp 149-155). -/
def json._toBool (getEnviron : String → String) (value : Option String) : Bool :=
  match value with
  | some v => decide (json._toString_cstr getEnviron (some v) = "true")
  | none => false

/-- Function `dd4hep::json::_toFloat` (Elements.cpp 157-159); `_toFloatingPoint` stands for
`dd4hep::_toFloatingPoint`, which is declared only; the rounding to `float` is not
modelled. -/
def json._toFloat (getEnviron : String → String) (_toFloatingPoint : String → ℤ × ℚ)
    (value : Option String) : ℚ :=
  match value with
  | some v => (_toFloatingPoint (json._toString_cstr getEnviron (some v))).2
  | none => 0

/-- Function `dd4hep::json::_toDouble` (Elements.cpp 161-163). -/
def json._toDouble (getEnviron : String → String) (_toFloatingPoint : String → ℤ × ℚ)
    (value : Option String) : ℚ :=
  match value with
  | some v => (_toFloatingPoint (json._toString_cstr getEnviron (some v))).2
  | none => 0

/-- Getter `TGeoPcon::GetPhi1()` on the native data `[phi1, dphi, nz, z0, rmin0, rmax0, ...]`
of a polycone. -/
def Pcon.GetPhi1 (ps : List ℚ) : ℚ := ps.getD 0 0

/-- Getter `TGeoPcon::GetDphi()`. -/
def Pcon.GetDphi (ps : List ℚ) : ℚ := ps.getD 1 0

/-- Getter `TGeoPcon::GetNz()`: the number of planes, an `Int_t` set from the third entry. -/
def Pcon.GetNz (ps : List ℚ) : Nat := (truncate (ps.getD 2 0)).toNat

/-- Getter `TGeoPcon::GetZ(i)`. -/
def Pcon.GetZ (ps : List ℚ) (i : Nat) : ℚ := ps.getD (3 + 3 * i) 0

/-- Getter `TGeoPcon::GetRmin(i)`. -/
def Pcon.GetRmin (ps : List ℚ) (i : Nat) : ℚ := ps.getD (4 + 3 * i) 0

/-- Getter `TGeoPcon::GetRmax(i)`. -/
def Pcon.GetRmax (ps : List ℚ) (i : Nat) : ℚ := ps.getD (5 + 3 * i) 0

/-- The first loop of `Polycone::addZPlanes` (Shapes.cpp 278-282), which appends
`GetZ(i), GetRmin(i), GetRmax(i)` of the existing planes `i = 0 .. num-1`. -/
def Pcon.readPlanes (ps : List ℚ) (num : Nat) : List ℚ :=
  ((List.range num).map (fun i => [Pcon.GetZ ps i, Pcon.GetRmin ps i, Pcon.GetRmax ps i])).flatten

/-- Function `Polycone::addZPlanes` (Shapes.cpp 267-289): the result is the state of the
handle after the call. `TGeoPcon* sh = *this` is the raw pointer, and `sh->GetNz()` is called
before the size check, so an unbound handle dereferences null; the typed handle holds no
other kind of shape than a polycone. The lengths of `rmax` and `z` are not checked: an index
outside them (undefined in the source) reads as 0 here. -/
def Polycone.addZPlanes (s : Solid) (rmin rmax z : List ℚ) : Except Error Solid :=
  match ptr s with
  | none => .error .null_dereference
  | some sh =>
    match sh.geometry with
    | .Pcon ps =>
      let num := Pcon.GetNz ps
      if rmin.length < 2 then
        .error (.except "PolyCone" "++ addZPlanes: Not enough Z planes. minimum is 2!")
      else
        let params : List ℚ :=
          [Pcon.GetPhi1 ps, Pcon.GetDphi ps, ((num + rmin.length : Nat) : ℚ)]
            ++ Pcon.readPlanes ps num ++ zplanes rmin.length z rmin rmax
        Solid._setDimensions s params
    | _ => .error (.runtime_error "not a TGeoPcon")

/-- A `NodeList`: the tag, the pointer `m_node` and the iterator pair `m_ptr`, kept as the
nodes from `m_ptr.first` up to `m_ptr.second` (the two iterators are equal when the list is
empty). -/
structure json.NodeList where
  m_tag : String
  m_node : Option json.JsonElement
  m_ptr : List json.JsonElement

/-- The nodes between the two iterators that `NodeList::reset` stores for a non-null node:
`ordered_begin() .. not_found()` is every child in the order of the keys (children with the
same key keep their order), `equal_range(tag)` is the children with the key `tag`. -/
def json.NodeList.range (node : json.JsonElement) (tag : String) : List json.JsonElement :=
  if tag = "*" then node.2.children.insertionSort (fun a b => a.1.data ≤ b.1.data)
  else node.2.children.filter (fun c => c.1 = tag)

/-- Function `NodeList::reset` (Elements.cpp 206-214): the list after the call and the
pointer returned; `m_node->second` dereferences `m_node`. -/
def json.NodeList.reset (l : json.NodeList) :
    Except Error (json.NodeList × Option json.JsonElement) :=
  match l.m_node with
  | none => .error .null_dereference
  | some node =>
    .ok ({ l with m_ptr := json.NodeList.range node l.m_tag },
      (json.NodeList.range node l.m_tag).head?)

/-- Constructor `NodeList::NodeList(node, tag_value)` (Elements.cpp 194-198). -/
def json.NodeList.new (node : Option json.JsonElement) (tag_value : String) :
    Except Error json.NodeList := do
  let r ← json.NodeList.reset ⟨tag_value, node, []⟩
  pure r.1

/-- A `Collection_t`: the node list `m_children` and the current node `m_node` of the
element it derives from. -/
structure json.Collection_t where
  m_children : json.NodeList
  m_node : Option json.JsonElement

/-- Constructor `Collection_t::Collection_t(element, tag_value)` (Elements.cpp 382-385). -/
def json.Collection_t.new (element : json.Handle_t) (tag_value : String) :
    Except Error json.Collection_t := do
  let m_children ← json.NodeList.new element.m_node tag_value
  let r ← m_children.reset
  pure ⟨r.1, r.2⟩

/-- Function `Collection_t::reset` (Elements.cpp 394-397). -/
def json.Collection_t.reset (c : json.Collection_t) : Except Error json.Collection_t := do
  let r ← c.m_children.reset
  pure ⟨r.1, r.2⟩

/-- The value `cath = r - R*cos(delta_phi*dd4hep::deg)` of `TruncatedTube::make` (Shapes.cpp
384) as a function of the cosine `c`, over the rationals of the embedding or the reals. -/
def TruncatedTube.cath {α : Type} [CommRing α] (c r R : α) : α := r - R * c

/-- The argument `r*r + R*R - 2*r*R*cos(delta_phi*dd4hep::deg)` of `std::sqrt` in `hypo` of
`TruncatedTube::make` (Shapes.cpp 385) as a function of the cosine `c`. -/
def TruncatedTube.radicand {α : Type} [CommRing α] (c r R : α) : α :=
  r * r + R * R - 2 * r * R * c

/-- The binary exponent of a positive rational by repeated doubling or halving: `e` with
`2^e ≤ a < 2^(e+1)`; the first argument bounds the number of steps. -/
def scaleExp : Nat → ℚ → ℤ → ℤ
  | 0, _, e => e
  | n + 1, a, e =>
    if a < 1 then scaleExp n (a * 2) (e - 1)
    else if 2 ≤ a then scaleExp n (a / 2) (e + 1)
    else e

/-- The binary exponent `e` of a positive rational in the range of the normal doubles:
`2^e ≤ a < 2^(e+1)`. -/
def binExponent (a : ℚ) : ℤ := scaleExp 1100 a 0

/-- Rounding of an exact value to the nearest `double` (IEEE 754 binary64: 53 significant
bits, ties to even), the result of one arithmetic operation on doubles; overflow and
subnormal numbers are not modelled. -/
def roundDouble (q : ℚ) : ℚ :=
  if q = 0 then 0
  else
    (if q < 0 then -1 else 1)
      * (roundHalfEven (|q| / (2 : ℚ) ^ (binExponent |q| - 52)).num.natAbs
          (|q| / (2 : ℚ) ^ (binExponent |q| - 52)).den : ℚ)
      * (2 : ℚ) ^ (binExponent |q| - 52)

/-- Newton steps for the integer square root: from a guess not below the root the guesses
fall until the root is reached; the first argument bounds the number of steps. -/
def isqrtIter : Nat → Nat → Nat → Nat
  | 0, _, g => g
  | f + 1, n, g => if (g + n / g) / 2 < g then isqrtIter f n ((g + n / g) / 2) else g

/-- The integer square root, the largest `s` with `s * s ≤ n`. -/
def isqrt (n : Nat) : Nat := if n = 0 then 0 else isqrtIter 400 n n

/-- The function `std::sqrt` on a `double` that is not negative (IEEE 754: the exact root
rounded to the nearest double); of a negative argument it returns NaN, which is no value of
this model. -/
def sqrtDouble (x : ℚ) : ℚ :=
  if x ≤ 0 then 0
  else
    let e : ℤ := binExponent x / 2
    let y : ℚ := x / (4 : ℚ) ^ (e - 52)
    let f : Nat := isqrt ⌊y⌋.toNat
    let half : ℚ := ((f : ℚ) + 1 / 2) * ((f : ℚ) + 1 / 2)
    let m : Nat := if y > half ∨ (y = half ∧ f % 2 = 1) then f + 1 else f
    (m : ℚ) * (2 : ℚ) ^ (e - 52)

/-- The expression `r - R * std::cos( delta_phi*units::deg )` of `TruncatedTube::make`
(Shapes.cpp 384) as the program evaluates it: every operation on doubles is rounded; `c` is
the double returned by `std::cos`. -/
def TruncatedTube.cathDouble (c r R : ℚ) : ℚ := roundDouble (r - roundDouble (R * c))

/-- The argument `r*r + R*R - 2.*r*R * std::cos( delta_phi*units::deg )` of `std::sqrt`
(Shapes.cpp 385) as the program evaluates it: `((r*r) + (R*R)) - (((2.*r)*R)*c)`, every
operation on doubles rounded, without fused operations. -/
def TruncatedTube.radicandDouble (c r R : ℚ) : ℚ :=
  roundDouble (roundDouble (roundDouble (r * r) + roundDouble (R * R))
    - roundDouble (roundDouble (roundDouble (2 * r) * R) * c))

/-- The value `cos_alpha = cath / hypo` (Shapes.cpp 384-386) as the program evaluates it,
for a radicand that is positive. -/
def TruncatedTube.cosAlphaDouble (c r R : ℚ) : ℚ :=
  roundDouble (TruncatedTube.cathDouble c r R / sqrtDouble (TruncatedTube.radicandDouble c r R))

/-- Modelled from the spec: tag of ShapeTags.h. -/
def SHAPELESS_TAG : String := "Shapeless"
/-- Modelled from the spec: tag of ShapeTags.h. -/
def HALFSPACE_TAG : String := "HalfSpace"
/-- Modelled from the spec: tag of ShapeTags.h. -/
def CONESEGMENT_TAG : String := "ConeSegment"
/-- Modelled from the spec: tag of ShapeTags.h. -/
def CONE_TAG : String := "Cone"
/-- Modelled from the spec: tag of ShapeTags.h. -/
def CUTTUBE_TAG : String := "CutTube"
/-- Modelled from the spec: tag of ShapeTags.h. -/
def ELLIPTICALTUBE_TAG : String := "EllipticalTube"
/-- Modelled from the spec: tag of ShapeTags.h. -/
def TWISTEDTUBE_TAG : String := "TwistedTube"
/-- Modelled from the spec: tag of ShapeTags.h. -/
def TRD1_TAG : String := "Trd1"
/-- Modelled from the spec: tag of ShapeTags.h. -/
def PARABOLOID_TAG : String := "Paraboloid"
/-- Modelled from the spec: tag of ShapeTags.h. -/
def HYPERBOLOID_TAG : String := "Hyperboloid"
/-- Modelled from the spec: tag of ShapeTags.h. -/
def SPHERE_TAG : String := "Sphere"
/-- Modelled from the spec: tag of ShapeTags.h. -/
def TORUS_TAG : String := "Torus"
/-- Modelled from the spec: tag of ShapeTags.h. -/
def TRAP_TAG : String := "Trap"
/-- Modelled from the spec: tag of ShapeTags.h. -/
def EIGHTPOINTSOLID_TAG : String := "EightPointSolid"

/-- Constructor `ShapelessSolid::ShapelessSolid(nam)` (Shapes.cpp 120-122): the assembly
placeholder has no parameters. -/
def ShapelessSolid.new (nam : String) : TGeoShape :=
  _assign (.mk "" "" (.Native "TGeoShapeAssembly" [])) nam SHAPELESS_TAG

/-- Function `HalfSpace::make` (Shapes.cpp 171-173): `point` and `normal` are arrays of three
doubles. -/
def HalfSpace.make (nam : String) (point normal : List ℚ) : TGeoShape :=
  _assign (.mk nam "" (.Native "TGeoHalfSpace"
    [point.getD 0 0, point.getD 1 0, point.getD 2 0,
      normal.getD 0 0, normal.getD 1 0, normal.getD 2 0])) "" HALFSPACE_TAG

/-- Function `ConeSegment::make` (Shapes.cpp 292-300). -/
def ConeSegment.make (E : MathEnv) (nam : String)
    (dz rmin1 rmax1 rmin2 rmax2 startPhi endPhi : ℚ) : TGeoShape :=
  _assign (.mk nam "" (.Native "TGeoConeSeg"
    [dz, rmin1, rmax1, rmin2, rmax2, startPhi / E.deg, endPhi / E.deg])) "" CONESEGMENT_TAG

/-- Function `Cone::make` (Shapes.cpp 313-315). -/
def Cone.make (nam : String) (z rmin1 rmax1 rmin2 rmax2 : ℚ) : TGeoShape :=
  _assign (.mk nam "" (.Native "TGeoCone" [z, rmin1, rmax1, rmin2, rmax2])) "" CONE_TAG

/-- Function `CutTube::make` (Shapes.cpp 355-358); the angles arrive in degrees. -/
def CutTube.make (nam : String) (rmin rmax dz start_phi end_phi lx ly lz tx ty tz : ℚ) :
    TGeoShape :=
  _assign (.mk nam "" (.Native "TGeoCtub"
    [rmin, rmax, dz, start_phi, end_phi, lx, ly, lz, tx, ty, tz])) "" CUTTUBE_TAG

/-- Constructors `CutTube::CutTube` (Shapes.cpp 342-352); the anonymous one has
`nam = ""`. -/
def CutTube.new (E : MathEnv) (nam : String)
    (rmin rmax dz start_phi end_phi lx ly lz tx ty tz : ℚ) : TGeoShape :=
  CutTube.make nam rmin rmax dz (start_phi / E.deg) (end_phi / E.deg) lx ly lz tx ty tz

/-- Function `EllipticalTube::make` (Shapes.cpp 507-509). -/
def EllipticalTube.make (nam : String) (a b dz : ℚ) : TGeoShape :=
  _assign (.mk nam "" (.Native "TGeoEltu" [a, b, dz])) "" ELLIPTICALTUBE_TAG

/-- Function `TwistedTube::make` (Shapes.cpp 512-516); `nsegments` is an `int`. -/
def TwistedTube.make (E : MathEnv) (nam : String) (twist_angle rmin rmax zneg zpos : ℚ)
    (nsegments : ℤ) (totphi : ℚ) : TGeoShape :=
  _assign (.mk nam "" (.Native "TwistedTubeObject"
    [twist_angle, rmin, rmax, zneg, zpos, (nsegments : ℚ), totphi / E.deg])) "" TWISTEDTUBE_TAG

/-- Function `Trd1::make` (Shapes.cpp 519-521). -/
def Trd1.make (nam : String) (x1 x2 y z : ℚ) : TGeoShape :=
  _assign (.mk nam "" (.Native "TGeoTrd1" [x1, x2, y, z])) "" TRD1_TAG

/-- Function `Paraboloid::make` (Shapes.cpp 543-545). -/
def Paraboloid.make (nam : String) (r_low r_high delta_z : ℚ) : TGeoShape :=
  _assign (.mk nam "" (.Native "TGeoParaboloid" [r_low, r_high, delta_z])) "" PARABOLOID_TAG

/-- Function `Hyperboloid::make` (Shapes.cpp 555-557). -/
def Hyperboloid.make (E : MathEnv) (nam : String) (rin stin rout stout dz : ℚ) : TGeoShape :=
  _assign (.mk nam "" (.Native "TGeoHype" [rin, stin / E.deg, rout, stout / E.deg, dz])) ""
    HYPERBOLOID_TAG

/-- Function `Sphere::make` (Shapes.cpp 567-571). -/
def Sphere.make (E : MathEnv) (nam : String)
    (rmin rmax startTheta endTheta startPhi endPhi : ℚ) : TGeoShape :=
  _assign (.mk nam "" (.Native "TGeoSphere"
    [rmin, rmax, startTheta / E.deg, endTheta / E.deg, startPhi / E.deg, endPhi / E.deg])) ""
    SPHERE_TAG

/-- Function `Torus::make` (Shapes.cpp 581-583). -/
def Torus.make (E : MathEnv) (nam : String) (r rmin rmax startPhi deltaPhi : ℚ) : TGeoShape :=
  _assign (.mk nam "" (.Native "TGeoTorus"
    [r, rmin, rmax, startPhi / E.deg, deltaPhi / E.deg])) "" TORUS_TAG

/-- Constructors `Trap::Trap` with eleven parameters (Shapes.cpp 593-609); the anonymous one
has `nam = ""`. -/
def Trap.new (E : MathEnv) (nam : String)
    (z theta phi h1 bl1 tl1 alpha1 h2 bl2 tl2 alpha2 : ℚ) : TGeoShape :=
  _assign (.mk nam "" (.Native "TGeoTrap"
    [z, theta / E.deg, phi / E.deg, h1, bl1, tl1, alpha1 / E.deg, h2, bl2, tl2,
      alpha2 / E.deg])) "" TRAP_TAG

/-- Function `EightPointSolid::make` (Shapes.cpp 791-793): `vtx` is the array of the sixteen
coordinates of the eight vertices. -/
def EightPointSolid.make (nam : String) (dz : ℚ) (vtx : List ℚ) : TGeoShape :=
  _assign (.mk nam ""
    (.Native "TGeoArb8" (dz :: (List.range 16).map (fun i => vtx.getD i 0)))) ""
    EIGHTPOINTSOLID_TAG

deriving instance DecidableEq for Except

/-- C1: `TruncatedTube::make` throws exactly when one of the six rejection conditions
holds, the error is the first applicable of the three messages, and every other input
(any `dz`, `delta_phi`, `cut_inside`) yields a shape. -/
theorem TruncatedTube_make_error_iff (E : MathEnv) (nam : String)
    (dz rmin rmax start_phi delta_phi cut_atStart cut_atDelta : ℚ) (cut_inside : Bool) :
    ((∃ e, TruncatedTube.make E nam dz rmin rmax start_phi delta_phi cut_atStart cut_atDelta
        cut_inside = .error e) ↔
      (rmin ≤ 0 ∨ rmax ≤ 0 ∨ cut_atStart ≤ 0 ∨ cut_atDelta ≤ 0 ∨ rmin ≥ rmax ∨ start_phi ≠ 0))
    ∧ (TruncatedTube.make E nam dz rmin rmax start_phi delta_phi cut_atStart cut_atDelta
        cut_inside
        = .error (.except TRUNCATEDTUBE_TAG
            "++ 0 <= rIn,cut_atStart,rOut,cut_atDelta,rOut violated!") ↔
      (rmin ≤ 0 ∨ rmax ≤ 0 ∨ cut_atStart ≤ 0 ∨ cut_atDelta ≤ 0))
    ∧ (TruncatedTube.make E nam dz rmin rmax start_phi delta_phi cut_atStart cut_atDelta
        cut_inside = .error (.except TRUNCATEDTUBE_TAG "++ rIn<rOut violated!") ↔
      (¬ (rmin ≤ 0 ∨ rmax ≤ 0 ∨ cut_atStart ≤ 0 ∨ cut_atDelta ≤ 0) ∧ rmin ≥ rmax))
    ∧ (TruncatedTube.make E nam dz rmin rmax start_phi delta_phi cut_atStart cut_atDelta
        cut_inside = .error (.except TRUNCATEDTUBE_TAG "++ start_phi != 0 not supported!") ↔
      (¬ (rmin ≤ 0 ∨ rmax ≤ 0 ∨ cut_atStart ≤ 0 ∨ cut_atDelta ≤ 0) ∧ ¬ rmin ≥ rmax
        ∧ start_phi ≠ 0))
    ∧ ((∃ s, TruncatedTube.make E nam dz rmin rmax start_phi delta_phi cut_atStart cut_atDelta
        cut_inside = .ok s) ↔
      ¬ (rmin ≤ 0 ∨ rmax ≤ 0 ∨ cut_atStart ≤ 0 ∨ cut_atDelta ≤ 0 ∨ rmin ≥ rmax
        ∨ start_phi ≠ 0)) := by
  unfold TruncatedTube.make
  by_cases h1 : rmin ≤ 0 ∨ rmax ≤ 0 ∨ cut_atStart ≤ 0 ∨ cut_atDelta ≤ 0
  · simp only [if_pos h1]
    refine ⟨?_, ?_, ?_, ?_, ?_⟩
    · constructor
      · intro _; tauto
      · intro _; exact ⟨_, rfl⟩
    · simp [h1]
    · simp [h1]
    · simp [h1]
    · constructor
      · rintro ⟨s, hs⟩; cases hs
      · intro h; exact absurd (by tauto) h
  · simp only [if_neg h1]
    by_cases h2 : rmin ≥ rmax
    · simp only [if_pos h2]
      refine ⟨?_, ?_, ?_, ?_, ?_⟩
      · constructor
        · intro _; tauto
        · intro _; exact ⟨_, rfl⟩
      · simp [h1]
      · simp [h1, h2]
      · simp [h1, h2]
      · constructor
        · rintro ⟨s, hs⟩; cases hs
        · intro h; exact absurd (by tauto) h
    · simp only [if_neg h2]
      by_cases h3 : start_phi ≠ 0
      · simp only [if_pos h3]
        refine ⟨?_, ?_, ?_, ?_, ?_⟩
        · constructor
          · intro _; tauto
          · intro _; exact ⟨_, rfl⟩
        · simp [h1]
        · simp [h1, h2]
        · simp [h1, h2, h3]
        · constructor
          · rintro ⟨s, hs⟩; cases hs
          · intro h; exact absurd (by tauto) h
      · simp only [if_neg h3]
        refine ⟨?_, ?_, ?_, ?_, ?_⟩
        · constructor
          · rintro ⟨e, he⟩; cases he
          · intro h; exact absurd h (by tauto)
        · simp [h1]
        · simp [h1, h2]
        · simp [h1, h2, h3]
        · constructor
          · intro _; tauto
          · intro _; exact ⟨_, rfl⟩

/-- C2: evaluation of the accessors after construction. At the input of the spec
(dz=10, rmin=5, rmax=8, startPhi=0, deltaPhi=90, cutAtStart=6, cutAtDelta=7, cutInside=true)
all eight accessors return the arguments; at dz = 12345.6875 (an exact double) the text
written is "12345.7" and `dZ()` returns 12345.7, not the argument. -/
theorem TruncatedTube_accessors_evaluated :
    (TruncatedTube.dZ (TruncatedTube.new sampleEnv "" 10 5 8 0 90 6 7 true).toOption = .ok 10
      ∧ TruncatedTube.rMin (TruncatedTube.new sampleEnv "" 10 5 8 0 90 6 7 true).toOption
          = .ok 5
      ∧ TruncatedTube.rMax (TruncatedTube.new sampleEnv "" 10 5 8 0 90 6 7 true).toOption
          = .ok 8
      ∧ TruncatedTube.startPhi (TruncatedTube.new sampleEnv "" 10 5 8 0 90 6 7 true).toOption
          = .ok 0
      ∧ TruncatedTube.deltaPhi (TruncatedTube.new sampleEnv "" 10 5 8 0 90 6 7 true).toOption
          = .ok 90
      ∧ TruncatedTube.cutAtStart (TruncatedTube.new sampleEnv "" 10 5 8 0 90 6 7 true).toOption
          = .ok 6
      ∧ TruncatedTube.cutAtDelta (TruncatedTube.new sampleEnv "" 10 5 8 0 90 6 7 true).toOption
          = .ok 7
      ∧ TruncatedTube.cutInside (TruncatedTube.new sampleEnv "" 10 5 8 0 90 6 7 true).toOption
          = .ok true)
    ∧ sampleEnv.fmt (197531 / 16) = "12345.7"
    ∧ TruncatedTube.dZ
        (TruncatedTube.new sampleEnv "" (197531 / 16) 5 8 0 90 6 7 true).toOption
        = .ok (123457 / 10)
    ∧ (123457 / 10 : ℚ) ≠ 197531 / 16 := by
  refine ⟨⟨?_, ?_, ?_, ?_, ?_, ?_, ?_, ?_⟩, ?_, ?_, ?_⟩ <;> decide!

/-- C3 (counterexample): at r=-10, x1=3, x2=4, y1=2, y2=2, z=5, atMinusZ=true, where
r < 0 and |r| >= x, the node built by `PseudoTrap::make` is a Subtraction, not an
Intersection. -/
theorem PseudoTrap_make_not_Intersection :
    (-10 : ℚ) < 0 ∧ |(-10 : ℚ)| ≥ 3
    ∧ ((PseudoTrap.make sampleEnv "" 3 4 2 2 5 (-10) true >>= GetBoolNode).map
        TGeoBoolNode.op) = .ok BoolOp.Subtraction
    ∧ BoolOp.Subtraction ≠ BoolOp.Intersection := by
  refine ⟨by norm_num, by norm_num, ?_, by decide⟩
  decide!

/-- C3 (amended): for every input with r < 0 and |r| >= x (x = atMinusZ ? x1 : x2),
`PseudoTrap::make` builds the composite with the Subtraction operator: left shape the
trapezoid, right shape the tube segment, left matrix the identity and right matrix
`_transform(Transform3D(RotationX(M_PI/2), Position(0,0,displacement)))`. -/
theorem PseudoTrap_make_negative_r (E : MathEnv) (nam : String) (x1 x2 y1 y2 z r : ℚ)
    (atMinusZ : Bool) (hr : r < 0) (hx : |r| ≥ (if atMinusZ then x1 else x2)) :
    ∃ s node tubs rmat,
      PseudoTrap.make E nam x1 x2 y1 y2 z r atMinusZ = .ok s
      ∧ s.GetTitle = PSEUDOTRAP_TAG
      ∧ GetBoolNode s = .ok node
      ∧ node.op = BoolOp.Subtraction
      ∧ node.GetLeftShape = some (.mk (nam ++ "Trd2") "" (.Trd2 x1 x2 y1 y2 z))
      ∧ node.GetRightShape = some (.mk (nam ++ "Tubs") "" tubs)
      ∧ (∃ h phi1 phi2, tubs = .TubeSeg 0 |r| h phi1 phi2)
      ∧ node.GetLeftMatrix = some ⟨._identity, ""⟩
      ∧ node.GetRightMatrix = some rmat
      ∧ rmat.kind = ._transform ⟨.RotationX (M_PI / 2),
          ⟨0, 0, if atMinusZ then -z - E.sqrt (r * r - (if atMinusZ then x1 else x2)
                      * (if atMinusZ then x1 else x2))
                 else z + E.sqrt (r * r - (if atMinusZ then x1 else x2)
                      * (if atMinusZ then x1 else x2))⟩⟩ := by
  cases atMinusZ <;> simp at hx <;>
    simp [PseudoTrap.make, hr, hx, SubtractionSolid, access, _assign, Handle.assign, SetRightMatrixTitle,
      PlacementArg.matrix, GetBoolNode, TGeoShape.GetTitle, TGeoBoolNode.op,
      TGeoBoolNode.GetLeftShape, TGeoBoolNode.GetRightShape, TGeoBoolNode.GetLeftMatrix,
      TGeoBoolNode.GetRightMatrix, PSEUDOTRAP_TAG, SUBTRACTION_TAG]

/-- Witness of C3 (amended) at r=-10, x1=3, x2=4, y1=2, y2=2, z=5, atMinusZ=true. -/
theorem PseudoTrap_make_negative_r_witness :
    (-10 : ℚ) < 0 ∧ |(-10 : ℚ)| ≥ (if true = true then (3 : ℚ) else 4)
    ∧ ∃ s node, PseudoTrap.make sampleEnv "" 3 4 2 2 5 (-10) true = .ok s
        ∧ GetBoolNode s = .ok node ∧ node.op = BoolOp.Subtraction
        ∧ node.GetLeftShape = some (.mk ("" ++ "Trd2") "" (.Trd2 3 4 2 2 5)) :=
  ⟨by norm_num, by norm_num,
    match PseudoTrap_make_negative_r sampleEnv "" 3 4 2 2 5 (-10) true (by norm_num)
      (by norm_num) with
    | ⟨s, node, _, _, h1, _, h3, h4, h5, _⟩ => ⟨s, node, h1, h3, h4, h5⟩⟩

/-- C4: `PseudoTrap::make` throws 'Check parameters of the PseudoTrap!' exactly when
neither (r < 0 and |r| >= x) nor (r > 0 and |r| >= x) holds, x = atMinusZ ? x1 : x2; it
throws nothing else; every input with r = 0 fails and every input with r != 0 and |r| = x
is accepted. -/
theorem PseudoTrap_make_error_iff (E : MathEnv) (nam : String) (x1 x2 y1 y2 z r : ℚ)
    (atMinusZ : Bool) :
    (PseudoTrap.make E nam x1 x2 y1 y2 z r atMinusZ
        = .error (.except PSEUDOTRAP_TAG "Check parameters of the PseudoTrap!") ↔
      (¬ (r < 0 ∧ |r| ≥ (if atMinusZ then x1 else x2))
        ∧ ¬ (r > 0 ∧ |r| ≥ (if atMinusZ then x1 else x2))))
    ∧ ((∃ e, PseudoTrap.make E nam x1 x2 y1 y2 z r atMinusZ = .error e) ↔
      (¬ (r < 0 ∧ |r| ≥ (if atMinusZ then x1 else x2))
        ∧ ¬ (r > 0 ∧ |r| ≥ (if atMinusZ then x1 else x2))))
    ∧ PseudoTrap.make E nam x1 x2 y1 y2 z 0 atMinusZ
        = .error (.except PSEUDOTRAP_TAG "Check parameters of the PseudoTrap!")
    ∧ (r ≠ 0 → |r| = (if atMinusZ then x1 else x2) →
        ∃ s, PseudoTrap.make E nam x1 x2 y1 y2 z r atMinusZ = .ok s) := by
  have key : ∀ r : ℚ,
      (¬ (r < 0 ∧ |r| ≥ (if atMinusZ then x1 else x2))
        ∧ ¬ (r > 0 ∧ |r| ≥ (if atMinusZ then x1 else x2)) →
        PseudoTrap.make E nam x1 x2 y1 y2 z r atMinusZ
          = .error (.except PSEUDOTRAP_TAG "Check parameters of the PseudoTrap!"))
      ∧ (¬ (¬ (r < 0 ∧ |r| ≥ (if atMinusZ then x1 else x2))
        ∧ ¬ (r > 0 ∧ |r| ≥ (if atMinusZ then x1 else x2))) →
        ∃ s, PseudoTrap.make E nam x1 x2 y1 y2 z r atMinusZ = .ok s) := by
    intro r
    constructor
    · rintro ⟨h1, h2⟩
      unfold PseudoTrap.make
      simp only [if_neg h1, if_neg h2]
      rfl
    · intro h
      by_cases h1 : r < 0 ∧ |r| ≥ (if atMinusZ then x1 else x2)
      · unfold PseudoTrap.make
        simp only [if_pos h1]
        cases atMinusZ <;> exact ⟨_, rfl⟩
      · have h2 : r > 0 ∧ |r| ≥ (if atMinusZ then x1 else x2) := by tauto
        unfold PseudoTrap.make
        simp only [if_neg h1, if_pos h2]
        cases atMinusZ <;> exact ⟨_, rfl⟩
  refine ⟨?_, ?_, ?_, ?_⟩
  · constructor
    · intro h
      by_contra hc
      obtain ⟨s, hs⟩ := (key r).2 hc
      rw [hs] at h
      cases h
    · exact (key r).1
  · constructor
    · rintro ⟨e, he⟩
      by_contra hc
      obtain ⟨s, hs⟩ := (key r).2 hc
      rw [hs] at he
      cases he
    · intro h
      exact ⟨_, (key r).1 h⟩
  · exact (key 0).1 ⟨by simp, by simp⟩
  · intro hr hx
    apply (key r).2
    intro hc
    rcases lt_or_gt_of_ne hr with h | h
    · exact hc.1 ⟨h, hx.ge⟩
    · exact hc.2 ⟨h, hx.ge⟩

/-- Witness of C4: r = 3 = x1 with atMinusZ = true is accepted. -/
theorem PseudoTrap_make_error_iff_witness :
    (3 : ℚ) ≠ 0 ∧ |(3 : ℚ)| = (if true = true then (3 : ℚ) else 4)
    ∧ ∃ s, PseudoTrap.make sampleEnv "" 3 4 2 2 5 3 true = .ok s :=
  ⟨by norm_num, by norm_num,
    (PseudoTrap_make_error_iff sampleEnv "" 3 4 2 2 5 3 true).2.2.2 (by norm_num)
      (by norm_num)⟩

/-- C5: for every accepted input of `PseudoTrap::make`, with x = atMinusZ ? x1 : x2,
w = asin(x/|r|)/deg and d = sqrt(r*r - x*x), the shape built is the one of the case table:
r<0, atMinusZ: startPhi = 90 - w, displacement = -z - d, h = 1.05*max(y1,y2);
r<0, not atMinusZ: startPhi = -90 - w, displacement = z + d, h = 1.05*max(y1,y2);
r>0, atMinusZ: startPhi = 270 - w, displacement = -z + d, h = y1;
r>0, not atMinusZ: startPhi = 90 - w, displacement = z - d, h = y2;
with the tube segment (0, |r|, h, startPhi, startPhi + 2w) next to Trd2(x1,x2,y1,y2,z). -/
theorem PseudoTrap_make_case_table (E : MathEnv) (nam : String) (x1 x2 y1 y2 z r : ℚ) :
    (r < 0 → |r| ≥ x1 →
      PseudoTrap.make E nam x1 x2 y1 y2 z r true
        = .ok (PseudoTrap.fromTable E nam x1 x2 y1 y2 z r true BoolOp.Subtraction
            (90 - E.asin (x1 / |r|) / E.deg) (-z - E.sqrt (r * r - x1 * x1))
            (105 / 100 * max y1 y2)))
    ∧ (r < 0 → |r| ≥ x2 →
      PseudoTrap.make E nam x1 x2 y1 y2 z r false
        = .ok (PseudoTrap.fromTable E nam x1 x2 y1 y2 z r false BoolOp.Subtraction
            (-90 - E.asin (x2 / |r|) / E.deg) (z + E.sqrt (r * r - x2 * x2))
            (105 / 100 * max y1 y2)))
    ∧ (r > 0 → |r| ≥ x1 →
      PseudoTrap.make E nam x1 x2 y1 y2 z r true
        = .ok (PseudoTrap.fromTable E nam x1 x2 y1 y2 z r true BoolOp.Union
            (270 - E.asin (x1 / |r|) / E.deg) (-z + E.sqrt (r * r - x1 * x1)) y1))
    ∧ (r > 0 → |r| ≥ x2 →
      PseudoTrap.make E nam x1 x2 y1 y2 z r false
        = .ok (PseudoTrap.fromTable E nam x1 x2 y1 y2 z r false BoolOp.Union
            (90 - E.asin (x2 / |r|) / E.deg) (z - E.sqrt (r * r - x2 * x2)) y2)) := by
  have hmax : (if y1 < y2 then y2 else y1) + (if y1 < y2 then y2 else y1) / 20
      = 105 / 100 * max y1 y2 := by
    by_cases h : y1 < y2
    · rw [if_pos h, max_eq_right h.le]; ring
    · rw [if_neg h, max_eq_left (not_lt.mp h)]; ring
  refine ⟨?_, ?_, ?_, ?_⟩
  · intro hr hx
    simp [PseudoTrap.make, PseudoTrap.fromTable, hr, hx, SubtractionSolid, access, _assign, Handle.assign,
      SetRightMatrixTitle, PlacementArg.matrix, PSEUDOTRAP_TAG, SUBTRACTION_TAG, hmax]
    ring
  · intro hr hx
    simp [PseudoTrap.make, PseudoTrap.fromTable, hr, hx, SubtractionSolid, access, _assign, Handle.assign,
      SetRightMatrixTitle, PlacementArg.matrix, PSEUDOTRAP_TAG, SUBTRACTION_TAG, hmax]
    ring
  · intro hr hx
    have hn : ¬ r < 0 := not_lt.mpr hr.le
    simp [PseudoTrap.make, PseudoTrap.fromTable, hr, hx, hn, SubtractionSolid, UnionSolid,
      access, _assign, Handle.assign, SetRightMatrixTitle, PlacementArg.matrix, PSEUDOTRAP_TAG,
      SUBTRACTION_TAG, UNION_TAG, BOX_TAG, Box.make]
    ring
  · intro hr hx
    have hn : ¬ r < 0 := not_lt.mpr hr.le
    simp [PseudoTrap.make, PseudoTrap.fromTable, hr, hx, hn, SubtractionSolid, UnionSolid,
      access, _assign, Handle.assign, SetRightMatrixTitle, PlacementArg.matrix, PSEUDOTRAP_TAG,
      SUBTRACTION_TAG, UNION_TAG, BOX_TAG, Box.make]
    ring

/-- Witness of C5: the four rows of the table at x1=3, x2=4, y1=2, y2=2, z=5 and
r = -10 or r = 10. -/
theorem PseudoTrap_make_case_table_witness :
    ((-10 : ℚ) < 0 ∧ |(-10 : ℚ)| ≥ 3
      ∧ PseudoTrap.make sampleEnv "" 3 4 2 2 5 (-10) true
        = .ok (PseudoTrap.fromTable sampleEnv "" 3 4 2 2 5 (-10) true BoolOp.Subtraction
            (90 - sampleEnv.asin (3 / |(-10 : ℚ)|) / sampleEnv.deg)
            (-5 - sampleEnv.sqrt ((-10) * (-10) - 3 * 3)) (105 / 100 * max 2 2)))
    ∧ ((-10 : ℚ) < 0 ∧ |(-10 : ℚ)| ≥ 4
      ∧ PseudoTrap.make sampleEnv "" 3 4 2 2 5 (-10) false
        = .ok (PseudoTrap.fromTable sampleEnv "" 3 4 2 2 5 (-10) false BoolOp.Subtraction
            (-90 - sampleEnv.asin (4 / |(-10 : ℚ)|) / sampleEnv.deg)
            (5 + sampleEnv.sqrt ((-10) * (-10) - 4 * 4)) (105 / 100 * max 2 2)))
    ∧ ((10 : ℚ) > 0 ∧ |(10 : ℚ)| ≥ 3
      ∧ PseudoTrap.make sampleEnv "" 3 4 2 2 5 10 true
        = .ok (PseudoTrap.fromTable sampleEnv "" 3 4 2 2 5 10 true BoolOp.Union
            (270 - sampleEnv.asin (3 / |(10 : ℚ)|) / sampleEnv.deg)
            (-5 + sampleEnv.sqrt (10 * 10 - 3 * 3)) 2))
    ∧ ((10 : ℚ) > 0 ∧ |(10 : ℚ)| ≥ 4
      ∧ PseudoTrap.make sampleEnv "" 3 4 2 2 5 10 false
        = .ok (PseudoTrap.fromTable sampleEnv "" 3 4 2 2 5 10 false BoolOp.Union
            (90 - sampleEnv.asin (4 / |(10 : ℚ)|) / sampleEnv.deg)
            (5 - sampleEnv.sqrt (10 * 10 - 4 * 4)) 2)) :=
  ⟨⟨by norm_num, by norm_num,
      (PseudoTrap_make_case_table sampleEnv "" 3 4 2 2 5 (-10)).1 (by norm_num) (by norm_num)⟩,
    ⟨by norm_num, by norm_num,
      (PseudoTrap_make_case_table sampleEnv "" 3 4 2 2 5 (-10)).2.1 (by norm_num)
        (by norm_num)⟩,
    ⟨by norm_num, by norm_num,
      (PseudoTrap_make_case_table sampleEnv "" 3 4 2 2 5 10).2.2.1 (by norm_num)
        (by norm_num)⟩,
    ⟨by norm_num, by norm_num,
      (PseudoTrap_make_case_table sampleEnv "" 3 4 2 2 5 10).2.2.2 (by norm_num)
        (by norm_num)⟩⟩

/-- C6: each Polycone constructor taking z-planes (anonymous or named) fails exactly when
`rmin` has fewer than 2 entries or the lengths of `z`, `rmin`, `rmax` are not all equal; the
plane-count check is made first. An `rmin` of length 1 fails, and an `rmin` of length 3 with
an `rmax` of length 2 fails. -/
theorem Polycone_zplanes_error_iff (E : MathEnv) (nam : String) (startPhi deltaPhi : ℚ)
    (rmin rmax z : List ℚ) (a b c u v : ℚ) :
    ((∃ e, Polycone.new E startPhi deltaPhi rmin rmax z = .error e) ↔
      (rmin.length < 2 ∨ ¬ (z.length = rmin.length ∧ z.length = rmax.length)))
    ∧ ((∃ e, Polycone.newNamed E nam startPhi deltaPhi rmin rmax z = .error e) ↔
      (rmin.length < 2 ∨ ¬ (z.length = rmin.length ∧ z.length = rmax.length)))
    ∧ (Polycone.new E startPhi deltaPhi rmin rmax z
        = .error (.runtime_error "dd4hep: PolyCone Not enough Z planes. minimum is 2!") ↔
      rmin.length < 2)
    ∧ (Polycone.newNamed E nam startPhi deltaPhi rmin rmax z
        = .error (.runtime_error "dd4hep: PolyCone Not enough Z planes. minimum is 2!") ↔
      rmin.length < 2)
    ∧ (Polycone.new E startPhi deltaPhi rmin rmax z
        = .error (.runtime_error "dd4hep: Polycone: vectors z,rmin,rmax not of same length") ↔
      (¬ rmin.length < 2 ∧ ¬ (z.length = rmin.length ∧ z.length = rmax.length)))
    ∧ (Polycone.newNamed E nam startPhi deltaPhi rmin rmax z
        = .error (.runtime_error "dd4hep: Polycone: vectors z,rmin,rmax not of same length") ↔
      (¬ rmin.length < 2 ∧ ¬ (z.length = rmin.length ∧ z.length = rmax.length)))
    ∧ (∃ e, Polycone.new E startPhi deltaPhi [a] rmax z = .error e)
    ∧ (∃ e, Polycone.newNamed E nam startPhi deltaPhi [a] rmax z = .error e)
    ∧ (∃ e, Polycone.new E startPhi deltaPhi [a, b, c] [u, v] z = .error e)
    ∧ (∃ e, Polycone.newNamed E nam startPhi deltaPhi [a, b, c] [u, v] z = .error e) := by
  refine ⟨?_, ?_, ?_, ?_, ?_, ?_, ?_, ?_, ?_, ?_⟩
  · unfold Polycone.new
    by_cases h1 : rmin.length < 2
    · simp [h1]
    · by_cases h2 : z.length ≠ rmin.length ∨ z.length ≠ rmax.length
      · simp only [if_neg h1, if_pos h2]
        constructor
        · intro _; right; tauto
        · intro _; exact ⟨_, rfl⟩
      · simp only [if_neg h1, if_neg h2]
        constructor
        · rintro ⟨e, he⟩; cases he
        · intro h; exfalso; tauto
  · unfold Polycone.newNamed
    by_cases h1 : rmin.length < 2
    · simp [h1]
    · by_cases h2 : z.length ≠ rmin.length ∨ z.length ≠ rmax.length
      · simp only [if_neg h1, if_pos h2]
        constructor
        · intro _; right; tauto
        · intro _; exact ⟨_, rfl⟩
      · simp only [if_neg h1, if_neg h2]
        constructor
        · rintro ⟨e, he⟩; cases he
        · intro h; exfalso; tauto
  · unfold Polycone.new
    by_cases h1 : rmin.length < 2
    · simp [h1]
    · by_cases h2 : z.length ≠ rmin.length ∨ z.length ≠ rmax.length
      · simp [h1, h2]
      · simp [h1, h2]
  · unfold Polycone.newNamed
    by_cases h1 : rmin.length < 2
    · simp [h1]
    · by_cases h2 : z.length ≠ rmin.length ∨ z.length ≠ rmax.length
      · simp [h1, h2]
      · simp [h1, h2]
  · unfold Polycone.new
    by_cases h1 : rmin.length < 2
    · simp [h1]
    · by_cases h2 : z.length ≠ rmin.length ∨ z.length ≠ rmax.length
      · simp only [if_neg h1, if_pos h2]
        constructor
        · intro _; exact ⟨h1, by tauto⟩
        · intro _; trivial
      · simp only [if_neg h1, if_neg h2]
        constructor
        · intro h; cases h
        · intro h; exfalso; tauto
  · unfold Polycone.newNamed
    by_cases h1 : rmin.length < 2
    · simp [h1]
    · by_cases h2 : z.length ≠ rmin.length ∨ z.length ≠ rmax.length
      · simp only [if_neg h1, if_pos h2]
        constructor
        · intro _; exact ⟨h1, by tauto⟩
        · intro _; trivial
      · simp only [if_neg h1, if_neg h2]
        constructor
        · intro h; cases h
        · intro h; exfalso; tauto
  · exact ⟨.runtime_error "dd4hep: PolyCone Not enough Z planes. minimum is 2!",
      by simp [Polycone.new]⟩
  · exact ⟨.runtime_error "dd4hep: PolyCone Not enough Z planes. minimum is 2!",
      by simp [Polycone.newNamed]⟩
  · refine ⟨.runtime_error "dd4hep: Polycone: vectors z,rmin,rmax not of same length", ?_⟩
    have h2 : z.length ≠ 3 ∨ z.length ≠ 2 := by omega
    simp [Polycone.new, h2]
  · refine ⟨.runtime_error "dd4hep: Polycone: vectors z,rmin,rmax not of same length", ?_⟩
    have h2 : z.length ≠ 3 ∨ z.length ≠ 2 := by omega
    simp [Polycone.newNamed, h2]

/-- C7: `PolyhedraRegular::make` succeeds exactly when 0 <= rmin <= rmax; otherwise it
throws the illegal-argument error, and on success the shape is the polyhedron with the
native parameters [start/deg, delta/deg, nsides, 2, zpos, rmin, rmax, zneg, rmin, rmax]. -/
theorem PolyhedraRegular_make_iff (E : MathEnv) (nam : String) (nsides : ℤ)
    (rmin rmax zpos zneg start delta : ℚ) :
    ((∃ s, PolyhedraRegular.make E nam nsides rmin rmax zpos zneg start delta = .ok s) ↔
      (0 ≤ rmin ∧ rmin ≤ rmax))
    ∧ (PolyhedraRegular.make E nam nsides rmin rmax zpos zneg start delta
        = .ok (.mk nam POLYHEDRA_TAG
            (.Pgon [start / E.deg, delta / E.deg, (nsides : ℚ), 2, zpos, rmin, rmax, zneg,
              rmin, rmax])) ↔
      (0 ≤ rmin ∧ rmin ≤ rmax))
    ∧ (PolyhedraRegular.make E nam nsides rmin rmax zpos zneg start delta
        = .error (.runtime_error
            ("dd4hep: PolyhedraRegular: Illegal argument rmin:<" ++ E.toStr rmin
              ++ "> is invalid!")) ↔
      ¬ (0 ≤ rmin ∧ rmin ≤ rmax)) := by
  unfold PolyhedraRegular.make
  by_cases h1 : rmin < 0 ∨ rmin > rmax
  · have hn : ¬ (0 ≤ rmin ∧ rmin ≤ rmax) := by
      rintro ⟨h0, h2⟩
      rcases h1 with h | h
      · exact absurd h0 (not_le.mpr h)
      · exact absurd h2 (not_le.mpr h)
    simp only [if_pos h1]
    refine ⟨?_, ?_, ?_⟩
    · constructor
      · rintro ⟨s, hs⟩; cases hs
      · intro h; exact absurd h hn
    · constructor
      · intro h; cases h
      · intro h; exact absurd h hn
    · constructor
      · intro _; exact hn
      · intro _; trivial
  · have hy : 0 ≤ rmin ∧ rmin ≤ rmax := by
      constructor
      · exact not_lt.mp (fun h => h1 (Or.inl h))
      · exact not_lt.mp (fun h => h1 (Or.inr h))
    have h2 : ¬ rmax < 0 := not_lt.mpr (le_trans hy.1 hy.2)
    simp only [if_neg h1, if_neg h2]
    refine ⟨?_, ?_, ?_⟩
    · constructor
      · intro _; exact hy
      · intro _; exact ⟨_, rfl⟩
    · constructor
      · intro _; exact hy
      · intro _
        simp [_assign, Handle.assign, POLYHEDRA_TAG]
        intro hnam; exact hnam.symm
    · constructor
      · intro h; cases h
      · intro h; exact absurd hy h

/-- C9: in `Tube::make`, when |end_phi - start_phi - 2*M_PI| < 10e-6 the tube segment is
built with phi1 = start_phi/deg and phi2 = phi1 + 360; otherwise phi2 = end_phi/deg. With
deg = M_PI/180, a tube from 0 to (360 - 1e-7) degrees is built with the same native
parameters as one from 0 to 360 degrees, namely phi1 = 0 and phi2 = 360. -/
theorem Tube_make_full_revolution (E : MathEnv) (nam : String)
    (rmin rmax z start_phi end_phi : ℚ) :
    (|end_phi - start_phi - 2 * M_PI| < 10 / 1000000 →
      Tube.make E nam rmin rmax z start_phi end_phi
        = .mk nam TUBE_TAG (.TubeSeg rmin rmax z (start_phi / E.deg) (start_phi / E.deg + 360)))
    ∧ (¬ |end_phi - start_phi - 2 * M_PI| < 10 / 1000000 →
      Tube.make E nam rmin rmax z start_phi end_phi
        = .mk nam TUBE_TAG (.TubeSeg rmin rmax z (start_phi / E.deg) (end_phi / E.deg)))
    ∧ (E.deg = M_PI / 180 →
      Tube.make E nam rmin rmax z 0 ((360 - 1 / 10000000) * E.deg)
          = Tube.make E nam rmin rmax z 0 (360 * E.deg)
        ∧ Tube.make E nam rmin rmax z 0 (360 * E.deg)
          = .mk nam TUBE_TAG (.TubeSeg rmin rmax z 0 360)) := by
  refine ⟨?_, ?_, ?_⟩
  · intro h
    simp [Tube.make, h, _assign, Handle.assign, TUBE_TAG]
  · intro h
    simp [Tube.make, h, _assign, Handle.assign, TUBE_TAG]
  · intro hdeg
    have h1 : |(360 - 1 / 10000000) * E.deg - 0 - 2 * M_PI| < 10 / 1000000 := by
      rw [hdeg, abs_lt]
      constructor <;> norm_num [M_PI]
    have h2 : |360 * E.deg - 0 - 2 * M_PI| < 10 / 1000000 := by
      rw [hdeg, abs_lt]
      constructor <;> norm_num [M_PI]
    unfold Tube.make
    rw [if_pos h1, if_pos h2]
    simp [_assign, Handle.assign, TUBE_TAG]

/-- Witness of C9: a full revolution (0 to 2*M_PI), a half revolution (0 to M_PI), and the
sample environment, whose `deg` is `M_PI / 180`. -/
theorem Tube_make_full_revolution_witness :
    (|2 * M_PI - 0 - 2 * M_PI| < 10 / 1000000
      ∧ Tube.make sampleEnv "t" 1 2 3 0 (2 * M_PI)
        = .mk "t" TUBE_TAG (.TubeSeg 1 2 3 (0 / sampleEnv.deg) (0 / sampleEnv.deg + 360)))
    ∧ (¬ |M_PI - 0 - 2 * M_PI| < 10 / 1000000
      ∧ Tube.make sampleEnv "t" 1 2 3 0 M_PI
        = .mk "t" TUBE_TAG (.TubeSeg 1 2 3 (0 / sampleEnv.deg) (M_PI / sampleEnv.deg)))
    ∧ (sampleEnv.deg = M_PI / 180
      ∧ Tube.make sampleEnv "t" 1 2 3 0 ((360 - 1 / 10000000) * sampleEnv.deg)
          = Tube.make sampleEnv "t" 1 2 3 0 (360 * sampleEnv.deg)
      ∧ Tube.make sampleEnv "t" 1 2 3 0 (360 * sampleEnv.deg)
          = .mk "t" TUBE_TAG (.TubeSeg 1 2 3 0 360)) :=
  ⟨⟨by norm_num [M_PI],
      (Tube_make_full_revolution sampleEnv "t" 1 2 3 0 (2 * M_PI)).1 (by norm_num [M_PI])⟩,
    ⟨by norm_num [M_PI, abs_lt],
      (Tube_make_full_revolution sampleEnv "t" 1 2 3 0 M_PI).2.1
        (by norm_num [M_PI, abs_lt])⟩,
    ⟨rfl, (Tube_make_full_revolution sampleEnv "t" 1 2 3 0 0).2.2 rfl⟩⟩

/-- C10: for every SubtractionSolid, UnionSolid and IntersectionSolid constructor applied to
the shapes A and B, the boolean node has the operator of its class and the solid the
matching title tag, `leftShape()` is A, `rightShape()` is B, the left matrix is the identity
and the right matrix is the one made from the given placement (transform, position or
rotation), the identity when none is given. -/
theorem BooleanSolid_constructors (nam : String) (A B : Solid) (p : PlacementArg) :
    ((access (SubtractionSolid nam A B p) >>= GetBoolNode).map TGeoBoolNode.op
        = .ok BoolOp.Subtraction
      ∧ Solid.title (SubtractionSolid nam A B p) = .ok SUBTRACTION_TAG
      ∧ BooleanSolid.leftShape (SubtractionSolid nam A B p) = .ok A
      ∧ BooleanSolid.rightShape (SubtractionSolid nam A B p) = .ok B
      ∧ BooleanSolid.leftMatrix (SubtractionSolid nam A B p) = .ok (some ⟨._identity, ""⟩)
      ∧ BooleanSolid.rightMatrix (SubtractionSolid nam A B p) = .ok (some p.matrix))
    ∧ ((access (UnionSolid nam A B p) >>= GetBoolNode).map TGeoBoolNode.op
        = .ok BoolOp.Union
      ∧ Solid.title (UnionSolid nam A B p) = .ok UNION_TAG
      ∧ BooleanSolid.leftShape (UnionSolid nam A B p) = .ok A
      ∧ BooleanSolid.rightShape (UnionSolid nam A B p) = .ok B
      ∧ BooleanSolid.leftMatrix (UnionSolid nam A B p) = .ok (some ⟨._identity, ""⟩)
      ∧ BooleanSolid.rightMatrix (UnionSolid nam A B p) = .ok (some p.matrix))
    ∧ ((access (IntersectionSolid nam A B p) >>= GetBoolNode).map TGeoBoolNode.op
        = .ok BoolOp.Intersection
      ∧ Solid.title (IntersectionSolid nam A B p) = .ok INTERSECTION_TAG
      ∧ BooleanSolid.leftShape (IntersectionSolid nam A B p) = .ok A
      ∧ BooleanSolid.rightShape (IntersectionSolid nam A B p) = .ok B
      ∧ BooleanSolid.leftMatrix (IntersectionSolid nam A B p) = .ok (some ⟨._identity, ""⟩)
      ∧ BooleanSolid.rightMatrix (IntersectionSolid nam A B p) = .ok (some p.matrix))
    ∧ PlacementArg.none.matrix.kind = MatrixKind._identity
    ∧ (∀ t, (PlacementArg.transform t).matrix.kind = MatrixKind._transform t)
    ∧ (∀ q, (PlacementArg.position q).matrix.kind = MatrixKind._translation q)
    ∧ (∀ r, (PlacementArg.rotationZYX r).matrix.kind = MatrixKind._rotationZYX r)
    ∧ (∀ r, (PlacementArg.rotation3D r).matrix.kind = MatrixKind._rotation3D r) := by
  refine ⟨⟨rfl, rfl, rfl, rfl, rfl, rfl⟩, ⟨rfl, rfl, rfl, rfl, rfl, rfl⟩,
    ⟨rfl, rfl, rfl, rfl, rfl, rfl⟩, rfl, fun _ => rfl, fun _ => rfl, fun _ => rfl,
    fun _ => rfl⟩

/-- C11 (divergence): `Scale::make` (Shapes.cpp 124-127), the constructor of this file that
wraps a child solid, takes the child through `access()`: on an unbound child it fails with
the invalid-handle error and builds nothing, on a bound child it builds the scaled shape. The
boolean-solid constructors (Shapes.cpp 867-1045) have no such call: they hand the raw
pointers of both children to the kernel node. -/
theorem Scale_make_validates_child (nam : String) (x_scale y_scale z_scale : ℚ) :
    Scale.make nam none x_scale y_scale z_scale = .error .invalid_handle
    ∧ (∀ b : TGeoShape, Scale.make nam (some b) x_scale y_scale z_scale
        = .ok (.mk nam SCALE_TAG (.ScaledShape b x_scale y_scale z_scale))) :=
  ⟨rfl, fun _ => rfl⟩

/-- C12: on an unbound Solid handle `name()`, `title()`, `type()`, `dimensions()`,
`setName()` and `setDimensions()` all fail with the invalid-handle error; on a bound handle
`name()` and `title()` return the name and title of the kernel object, and after `setName`
and `setDimensions` the handle is bound to that object (renamed, resp. with the dimensions
written by `set_shape_dimensions`). -/
theorem Solid_handle_access (E : MathEnv) (p : TGeoShape) (value : String)
    (params : List ℚ) :
    (Solid.name none = .error .invalid_handle
      ∧ Solid.title none = .error .invalid_handle
      ∧ Solid.type none = .error .invalid_handle
      ∧ Solid.dimensions E none = .error .invalid_handle
      ∧ Solid.setName none value = .error .invalid_handle
      ∧ Solid.setDimensions E none params = .error .invalid_handle)
    ∧ Solid.name (some p) = .ok p.GetName
    ∧ Solid.title (some p) = .ok p.GetTitle
    ∧ Solid.setName (some p) value = .ok (some (p.SetName value))
    ∧ (p.SetName value).GetTitle = p.GetTitle
    ∧ (p.SetName value).geometry = p.geometry
    ∧ Solid.setDimensions E (some p) params = (set_shape_dimensions E p params).map some := by
  refine ⟨⟨rfl, rfl, rfl, rfl, rfl, rfl⟩, rfl, rfl, rfl, ?_, ?_, ?_⟩
  · cases p; rfl
  · cases p; rfl
  · simp only [Solid.setDimensions, access]
    show (set_shape_dimensions E p params >>= fun q => pure (some q)) = _
    generalize set_shape_dimensions E p params = r
    cases r <;> rfl

/-- C13: evaluation of the box accessors on an unbound handle. `Box::x`, `Box::y` and
`Box::z` read the raw pointer and dereference it: no invalid-handle error is raised, while
`Scale::scale_x`, `scale_y`, `scale_z` go through the validating accessor and raise it. -/
theorem Box_accessors_unbound :
    Box.x none = .error .null_dereference
    ∧ Box.y none = .error .null_dereference
    ∧ Box.z none = .error .null_dereference
    ∧ Error.null_dereference ≠ Error.invalid_handle
    ∧ Scale.scale_x none = .error .invalid_handle
    ∧ Scale.scale_y none = .error .invalid_handle
    ∧ Scale.scale_z none = .error .invalid_handle
    ∧ Box.x (some (Box.make "b" 1 2 3)) = .ok 1
    ∧ Box.y (some (Box.make "b" 1 2 3)) = .ok 2
    ∧ Box.z (some (Box.make "b" 1 2 3)) = .ok 3 := by
  refine ⟨rfl, rfl, rfl, by decide, rfl, rfl, rfl, rfl, rfl, rfl⟩

/-- C14 (counterexample): `setName` changes the name of an already created solid: a box
created with the name "a" has the name "b" after `setName("b")`. -/
theorem Solid_setName_changes_name :
    Solid.name (some (Box.make "a" 1 2 3)) = .ok "a"
    ∧ (Solid.setName (some (Box.make "a" 1 2 3)) "b" >>= Solid.name) = .ok "b"
    ∧ "b" ≠ "a" := by
  refine ⟨rfl, rfl, by decide⟩

/-- Lemma: the kernel call `SetDimensions` changes neither name, title nor class. -/
theorem SetDimensions_identity (p : TGeoShape) (param : List ℚ) :
    keepsIdentity p (Solid._setDimensions (some p) param) := by
  refine ⟨p.SetDimensions param, rfl, ?_, ?_, ?_⟩
  · cases p; rfl
  · cases p; rfl
  · obtain ⟨n, t, g⟩ := p
    cases g <;> rfl

/-- Lemma: `set_shape_dimensions` fails, or calls `SetDimensions`, or leaves the object. -/
theorem set_shape_dimensions_cases (E : MathEnv) (p : TGeoShape) (params : List ℚ) :
    (∃ err, set_shape_dimensions E p params = .error err)
    ∨ (∃ l, set_shape_dimensions E p params = .ok (p.SetDimensions l))
    ∨ set_shape_dimensions E p params = .ok p := by
  obtain ⟨n, t, geo⟩ := p
  cases geo with
  | BBox dx dy dz =>
    unfold set_shape_dimensions
    dsimp only [TGeoShape.geometry]
    by_cases h : params.length ≠ 3
    · rw [if_pos h]; exact Or.inl ⟨_, rfl⟩
    · rw [if_neg h]; exact Or.inr (Or.inl ⟨_, rfl⟩)
  | TubeSeg rmin rmax dz phi1 phi2 =>
    unfold set_shape_dimensions
    dsimp only [TGeoShape.geometry]
    by_cases h : params.length ≠ 5
    · rw [if_pos h]; exact Or.inl ⟨_, rfl⟩
    · rw [if_neg h]; exact Or.inr (Or.inl ⟨_, rfl⟩)
  | Trd2 dx1 dx2 dy1 dy2 dz =>
    unfold set_shape_dimensions
    dsimp only [TGeoShape.geometry]
    by_cases h : params.length ≠ 5
    · rw [if_pos h]; exact Or.inl ⟨_, rfl⟩
    · rw [if_neg h]; exact Or.inr (Or.inl ⟨_, rfl⟩)
  | Pcon ps =>
    unfold set_shape_dimensions
    dsimp only [TGeoShape.geometry]
    by_cases h : params.length < 3 ∨ params.length ≠ 3 + 3 * ⌊params.getD 2 0⌋.toNat
    · rw [if_pos h]; exact Or.inl ⟨_, rfl⟩
    · rw [if_neg h]; exact Or.inr (Or.inl ⟨_, rfl⟩)
  | Pgon ps =>
    unfold set_shape_dimensions
    dsimp only [TGeoShape.geometry]
    by_cases h : params.length < 4 ∨ params.length ≠ 4 + 3 * ⌊params.getD 3 0⌋.toNat
    · rw [if_pos h]; exact Or.inl ⟨_, rfl⟩
    · rw [if_neg h]; exact Or.inr (Or.inl ⟨_, rfl⟩)
  | CompositeShape node =>
    unfold set_shape_dimensions
    dsimp only [TGeoShape.geometry]
    by_cases h : params = []
    · rw [if_pos h]; exact Or.inr (Or.inr rfl)
    · rw [if_neg h]; exact Or.inl ⟨_, rfl⟩
  | ScaledShape b sx sy sz =>
    exact Or.inl ⟨_, rfl⟩
  | Native cls fields =>
    unfold set_shape_dimensions
    dsimp only [TGeoShape.geometry]
    by_cases h : params.length ≠ fields.length
    · rw [if_pos h]; exact Or.inl ⟨_, rfl⟩
    · rw [if_neg h]; exact Or.inr (Or.inl ⟨_, rfl⟩)

/-- Lemma: `setDimensions` on a bound handle is `set_shape_dimensions` on its object. -/
theorem Solid_setDimensions_bound (E : MathEnv) (p : TGeoShape) (params : List ℚ) :
    Solid.setDimensions E (some p) params
      = (set_shape_dimensions E p params >>= fun q => pure (some q)) := rfl

/-- C14 (amended): the kind and the title of a Solid are immutable after creation, and the
name is changed by `setName` only: `_setDimensions`, `setDimensions` and the typed
`setDimensions` of each primitive change neither name, title nor kind, and `setName` changes
the name and keeps title and kind. -/
theorem Solid_identity_kept (E : MathEnv) (p : TGeoShape) (value : String)
    (param : List ℚ) (a b c d e f g h i j k : ℚ) :
    keepsIdentity p (Solid._setDimensions (some p) param)
    ∧ ((∃ err, Solid.setDimensions E (some p) param = .error err)
        ∨ keepsIdentity p (Solid.setDimensions E (some p) param))
    ∧ keepsIdentity p (Box.setDimensions (some p) a b c)
    ∧ keepsIdentity p (ConeSegment.setDimensions E (some p) a b c d e f g)
    ∧ keepsIdentity p (Cone.setDimensions (some p) a b c d e)
    ∧ keepsIdentity p (Tube.setDimensions E (some p) a b c d e)
    ∧ keepsIdentity p (Trd1.setDimensions (some p) a b c d)
    ∧ keepsIdentity p (Trd2.setDimensions (some p) a b c d e)
    ∧ keepsIdentity p (Paraboloid.setDimensions (some p) a b c)
    ∧ keepsIdentity p (Hyperboloid.setDimensions E (some p) a b c d e)
    ∧ keepsIdentity p (Sphere.setDimensions E (some p) a b c d e f)
    ∧ keepsIdentity p (Torus.setDimensions E (some p) a b c d e)
    ∧ keepsIdentity p (Trap.setDimensions E (some p) a b c d e f g h i j k)
    ∧ (∃ q, Solid.setName (some p) value = .ok (some q) ∧ q.GetName = value
        ∧ q.GetTitle = p.GetTitle ∧ q.className = p.className) := by
  refine ⟨SetDimensions_identity p _, ?_, SetDimensions_identity p _,
    SetDimensions_identity p _, SetDimensions_identity p _, SetDimensions_identity p _,
    SetDimensions_identity p _, SetDimensions_identity p _, SetDimensions_identity p _,
    SetDimensions_identity p _, SetDimensions_identity p _, SetDimensions_identity p _,
    SetDimensions_identity p _, ?_⟩
  · rcases set_shape_dimensions_cases E p param with ⟨err, he⟩ | ⟨l, hl⟩ | hp
    · left
      exact ⟨err, by rw [Solid_setDimensions_bound, he]; rfl⟩
    · right
      have h2 : Solid.setDimensions E (some p) param = .ok (some (p.SetDimensions l)) := by
        rw [Solid_setDimensions_bound, hl]; rfl
      rw [h2]
      exact SetDimensions_identity p l
    · right
      have h2 : Solid.setDimensions E (some p) param = .ok (some p) := by
        rw [Solid_setDimensions_bound, hp]; rfl
      rw [h2]
      exact ⟨p, rfl, rfl, rfl, rfl⟩
  · obtain ⟨n, t, geo⟩ := p
    exact ⟨_, rfl, rfl, rfl, by cases geo <;> rfl⟩

/-- Lemma: the loop over the planes appends three values per plane. -/
theorem zplanes_length (n : Nat) (z rmin rmax : List ℚ) :
    (zplanes n z rmin rmax).length = 3 * n := by
  unfold zplanes
  induction n with
  | zero => rfl
  | succ k ih =>
    rw [List.range_succ, List.map_append, List.flatten_append, List.length_append, ih]
    simp
    omega

/-- C16 (counterexample): at x1=3, x2=4, y1=2, y2=2, z=5, r=-10, atMinusZ=true the
metadata written by `PseudoTrap::make` is the single line "3 4 2 2 5 -10 1 ": the seven
values are separated by blanks, there is no line break in it. -/
theorem PseudoTrap_metadata_one_line :
    ((PseudoTrap.make sampleEnv "" 3 4 2 2 5 (-10) true
        >>= fun s => BooleanSolid.rightMatrix (some s)).map
          (fun m => m.map TGeoMatrix.title)) = .ok (some "3 4 2 2 5 -10 1 ")
    ∧ '\n' ∉ "3 4 2 2 5 -10 1 ".data := by
  constructor
  · decide!
  · decide

/-- Lemma: every accepted input of `PseudoTrap::make` yields a shape of the table form. -/
theorem PseudoTrap_make_accepted (E : MathEnv) (nam : String) (x1 x2 y1 y2 z r : ℚ)
    (atMinusZ : Bool)
    (h : (r < 0 ∧ |r| ≥ (if atMinusZ then x1 else x2))
      ∨ (r > 0 ∧ |r| ≥ (if atMinusZ then x1 else x2))) :
    ∃ mode startPhi displacement hh,
      PseudoTrap.make E nam x1 x2 y1 y2 z r atMinusZ
        = .ok (PseudoTrap.fromTable E nam x1 x2 y1 y2 z r atMinusZ mode startPhi
            displacement hh) := by
  rcases h with ⟨hr, hx⟩ | ⟨hr, hx⟩
  · cases atMinusZ <;> simp at hx
    · refine ⟨.Subtraction, -90 - E.asin (x2 / |r|) / E.deg, z + E.sqrt (r * r - x2 * x2),
        (if y1 < y2 then y2 else y1) + (if y1 < y2 then y2 else y1) / 20, ?_⟩
      simp [PseudoTrap.make, PseudoTrap.fromTable, hr, hx, SubtractionSolid, access, _assign,
        Handle.assign, SetRightMatrixTitle, PlacementArg.matrix, PSEUDOTRAP_TAG,
        SUBTRACTION_TAG]
      ring
    · refine ⟨.Subtraction, 90 - E.asin (x1 / |r|) / E.deg, -z - E.sqrt (r * r - x1 * x1),
        (if y1 < y2 then y2 else y1) + (if y1 < y2 then y2 else y1) / 20, ?_⟩
      simp [PseudoTrap.make, PseudoTrap.fromTable, hr, hx, SubtractionSolid, access, _assign,
        Handle.assign, SetRightMatrixTitle, PlacementArg.matrix, PSEUDOTRAP_TAG,
        SUBTRACTION_TAG]
      ring
  · have hn : ¬ r < 0 := not_lt.mpr hr.le
    cases atMinusZ <;> simp at hx
    · refine ⟨.Union, 90 - E.asin (x2 / |r|) / E.deg, z - E.sqrt (r * r - x2 * x2), y2, ?_⟩
      simp [PseudoTrap.make, PseudoTrap.fromTable, hr, hx, hn, SubtractionSolid, UnionSolid,
        access, _assign, Handle.assign, SetRightMatrixTitle, PlacementArg.matrix,
        PSEUDOTRAP_TAG, SUBTRACTION_TAG, UNION_TAG, BOX_TAG, Box.make]
      ring
    · refine ⟨.Union, 270 - E.asin (x1 / |r|) / E.deg, -z + E.sqrt (r * r - x1 * x1), y1, ?_⟩
      simp [PseudoTrap.make, PseudoTrap.fromTable, hr, hx, hn, SubtractionSolid, UnionSolid,
        access, _assign, Handle.assign, SetRightMatrixTitle, PlacementArg.matrix,
        PSEUDOTRAP_TAG, SUBTRACTION_TAG, UNION_TAG, BOX_TAG, Box.make]
      ring

/-- Lemma: the right matrix of the top node of a shape of the table form carries the
metadata as its title. -/
theorem fromTable_rightMatrix (E : MathEnv) (nam : String) (x1 x2 y1 y2 z r : ℚ)
    (atMinusZ : Bool) (mode : BoolOp) (startPhi displacement hh : ℚ) :
    BooleanSolid.rightMatrix
        (some (PseudoTrap.fromTable E nam x1 x2 y1 y2 z r atMinusZ mode startPhi
          displacement hh))
      = .ok (some ⟨._transform ⟨.RotationX (M_PI / 2), ⟨0, 0, displacement⟩⟩,
          E.fmt x1 ++ " " ++ E.fmt x2 ++ " " ++ E.fmt y1 ++ " " ++ E.fmt y2 ++ " "
            ++ E.fmt z ++ " " ++ E.fmt r ++ " " ++ (if atMinusZ then "1" else "0") ++ " "⟩) := by
  unfold PseudoTrap.fromTable
  by_cases hm : mode = .Union
  · simp only [if_pos hm]; rfl
  · simp only [if_neg hm]; rfl

/-- C16 (amended): for every accepted input, the metadata string written by
`PseudoTrap::make` holds the seven values x1, x2, y1, y2, z, r, atMinusZ in exactly this
order on one line, each value followed by one blank, with atMinusZ written as the single
character '1' or '0', and it is the title of the right matrix of the top-level boolean node
of the returned solid. -/
theorem PseudoTrap_metadata (E : MathEnv) (nam : String) (x1 x2 y1 y2 z r : ℚ)
    (atMinusZ : Bool)
    (h : (r < 0 ∧ |r| ≥ (if atMinusZ then x1 else x2))
      ∨ (r > 0 ∧ |r| ≥ (if atMinusZ then x1 else x2))) :
    ∃ s m, PseudoTrap.make E nam x1 x2 y1 y2 z r atMinusZ = .ok s
      ∧ BooleanSolid.rightMatrix (some s) = .ok (some m)
      ∧ m.title = E.fmt x1 ++ " " ++ E.fmt x2 ++ " " ++ E.fmt y1 ++ " " ++ E.fmt y2 ++ " "
          ++ E.fmt z ++ " " ++ E.fmt r ++ " " ++ (if atMinusZ then "1" else "0") ++ " " := by
  obtain ⟨mode, sp, d, hh, hm⟩ := PseudoTrap_make_accepted E nam x1 x2 y1 y2 z r atMinusZ h
  exact ⟨_, _, hm, fromTable_rightMatrix E nam x1 x2 y1 y2 z r atMinusZ mode sp d hh, rfl⟩

/-- Witness of C16 (amended) at x1=3, x2=4, y1=2, y2=2, z=5, r=10, atMinusZ=false. -/
theorem PseudoTrap_metadata_witness :
    (((10 : ℚ) < 0 ∧ |(10 : ℚ)| ≥ (if false = true then (3 : ℚ) else 4))
      ∨ ((10 : ℚ) > 0 ∧ |(10 : ℚ)| ≥ (if false = true then (3 : ℚ) else 4)))
    ∧ ∃ s m, PseudoTrap.make sampleEnv "" 3 4 2 2 5 10 false = .ok s
      ∧ BooleanSolid.rightMatrix (some s) = .ok (some m)
      ∧ m.title = sampleEnv.fmt 3 ++ " " ++ sampleEnv.fmt 4 ++ " " ++ sampleEnv.fmt 2 ++ " "
          ++ sampleEnv.fmt 2 ++ " " ++ sampleEnv.fmt 5 ++ " " ++ sampleEnv.fmt 10 ++ " "
          ++ (if false = true then "1" else "0") ++ " " :=
  ⟨Or.inr ⟨by norm_num, by norm_num⟩,
    PseudoTrap_metadata sampleEnv "" 3 4 2 2 5 10 false (Or.inr ⟨by norm_num, by norm_num⟩)⟩

/-- Lemma: the tail of `PseudoTrap::make` returns a shape and has constructed shapes. -/
theorem PseudoTrap_assemble_ok (E : MathEnv) (nam : String) (x1 x2 y1 y2 z r : ℚ)
    (atMinusZ intersec : Bool) (h displacement startPhi : ℚ) :
    ∃ s, (PseudoTrap.assemble E nam x1 x2 y1 y2 z r atMinusZ intersec h displacement
        startPhi).result = .ok s
      ∧ (PseudoTrap.assemble E nam x1 x2 y1 y2 z r atMinusZ intersec h displacement
        startPhi).built ≠ [] := by
  cases intersec
  · exact ⟨_, rfl, by simp [PseudoTrap.assemble, SubtractionSolid, UnionSolid]⟩
  · exact ⟨_, rfl, by simp [PseudoTrap.assemble, SubtractionSolid]⟩

/-- Lemma: a call that returns with shapes constructed is atomic. -/
theorem atomic_of_ok (c : Construction) (h : ∃ s, c.result = .ok s ∧ c.built ≠ []) :
    c.atomic := by
  obtain ⟨s, hs, hb⟩ := h
  exact Or.inr ⟨s, hs, by simp [Construction.handle, hs], hb⟩

/-- C17: construction is atomic on failure. For `TruncatedTube::make`, `PseudoTrap::make`,
the Polycone constructors with z-planes, `PolyhedraRegular::make` and `Polyhedra::make`:
when the arguments are rejected the error is raised before any kernel shape is constructed
and the handle is left unbound; otherwise the call returns with the handle bound to the
shape built. The outcome is that of the plain embedding of each function. -/
theorem construction_atomic (E : MathEnv) (nam : String)
    (dz rmin rmax start_phi delta_phi cut_atStart cut_atDelta : ℚ) (cut_inside : Bool)
    (x1 x2 y1 y2 z r : ℚ) (atMinusZ : Bool) (rmins rmaxs zs : List ℚ) (nsides : ℤ)
    (zpos zneg : ℚ) :
    ((TruncatedTube.construction E nam dz rmin rmax start_phi delta_phi cut_atStart
          cut_atDelta cut_inside).atomic
      ∧ (TruncatedTube.construction E nam dz rmin rmax start_phi delta_phi cut_atStart
          cut_atDelta cut_inside).result
        = TruncatedTube.make E nam dz rmin rmax start_phi delta_phi cut_atStart cut_atDelta
            cut_inside)
    ∧ ((PseudoTrap.construction E nam x1 x2 y1 y2 z r atMinusZ).atomic
      ∧ (PseudoTrap.construction E nam x1 x2 y1 y2 z r atMinusZ).result
        = PseudoTrap.make E nam x1 x2 y1 y2 z r atMinusZ)
    ∧ ((Polycone.construction E "" start_phi delta_phi rmins rmaxs zs).atomic
      ∧ (Polycone.construction E "" start_phi delta_phi rmins rmaxs zs).result
        = Polycone.new E start_phi delta_phi rmins rmaxs zs)
    ∧ ((Polycone.construction E nam start_phi delta_phi rmins rmaxs zs).atomic
      ∧ (Polycone.construction E nam start_phi delta_phi rmins rmaxs zs).result
        = Polycone.newNamed E nam start_phi delta_phi rmins rmaxs zs)
    ∧ ((PolyhedraRegular.construction E nam nsides rmin rmax zpos zneg start_phi
          delta_phi).atomic
      ∧ (PolyhedraRegular.construction E nam nsides rmin rmax zpos zneg start_phi
          delta_phi).result
        = PolyhedraRegular.make E nam nsides rmin rmax zpos zneg start_phi delta_phi)
    ∧ ((Polyhedra.construction E nam nsides start_phi delta_phi zs rmins rmaxs).atomic
      ∧ (Polyhedra.construction E nam nsides start_phi delta_phi zs rmins rmaxs).result
        = Polyhedra.make E nam nsides start_phi delta_phi zs rmins rmaxs) := by
  refine ⟨⟨?_, ?_⟩, ⟨?_, ?_⟩, ⟨?_, ?_⟩, ⟨?_, ?_⟩, ⟨?_, ?_⟩, ⟨?_, ?_⟩⟩
  · unfold TruncatedTube.construction
    by_cases h1 : rmin ≤ 0 ∨ rmax ≤ 0 ∨ cut_atStart ≤ 0 ∨ cut_atDelta ≤ 0
    · rw [if_pos h1]; exact Or.inl ⟨_, rfl, rfl, rfl⟩
    · rw [if_neg h1]
      by_cases h2 : rmin ≥ rmax
      · rw [if_pos h2]; exact Or.inl ⟨_, rfl, rfl, rfl⟩
      · rw [if_neg h2]
        by_cases h3 : start_phi ≠ 0
        · rw [if_pos h3]; exact Or.inl ⟨_, rfl, rfl, rfl⟩
        · rw [if_neg h3]; exact atomic_of_ok _ ⟨_, rfl, by simp⟩
  · unfold TruncatedTube.construction TruncatedTube.make
    by_cases h1 : rmin ≤ 0 ∨ rmax ≤ 0 ∨ cut_atStart ≤ 0 ∨ cut_atDelta ≤ 0
    · rw [if_pos h1, if_pos h1]
    · rw [if_neg h1, if_neg h1]
      by_cases h2 : rmin ≥ rmax
      · rw [if_pos h2, if_pos h2]
      · rw [if_neg h2, if_neg h2]
        by_cases h3 : start_phi ≠ 0
        · rw [if_pos h3, if_pos h3]
        · rw [if_neg h3, if_neg h3]
  · unfold PseudoTrap.construction
    by_cases h1 : r < 0 ∧ |r| ≥ (if atMinusZ then x1 else x2)
    · simp only [if_pos h1]
      cases atMinusZ
      · simp only [Bool.false_eq_true, if_false]
        exact atomic_of_ok _ (PseudoTrap_assemble_ok _ _ _ _ _ _ _ _ _ _ _ _ _)
      · simp only [if_true]
        exact atomic_of_ok _ (PseudoTrap_assemble_ok _ _ _ _ _ _ _ _ _ _ _ _ _)
    · by_cases h2 : r > 0 ∧ |r| ≥ (if atMinusZ then x1 else x2)
      · simp only [if_neg h1, if_pos h2]
        cases atMinusZ
        · simp only [Bool.false_eq_true, if_false]
          exact atomic_of_ok _ (PseudoTrap_assemble_ok _ _ _ _ _ _ _ _ _ _ _ _ _)
        · simp only [if_true]
          exact atomic_of_ok _ (PseudoTrap_assemble_ok _ _ _ _ _ _ _ _ _ _ _ _ _)
      · simp only [if_neg h1, if_neg h2]
        exact Or.inl ⟨_, rfl, rfl, rfl⟩
  · by_cases h1 : r < 0 ∧ |r| ≥ (if atMinusZ then x1 else x2)
    · have e1 : (PseudoTrap.construction E nam x1 x2 y1 y2 z r atMinusZ).result
          = (if atMinusZ then
              PseudoTrap.assemble E nam x1 x2 y1 y2 z r atMinusZ true
                ((if y1 < y2 then y2 else y1) + (if y1 < y2 then y2 else y1) / 20)
                (-z - E.sqrt (r * r - (if atMinusZ then x1 else x2)
                  * (if atMinusZ then x1 else x2)))
                (90 - E.asin ((if atMinusZ then x1 else x2) / |r|) / E.deg)
            else
              PseudoTrap.assemble E nam x1 x2 y1 y2 z r atMinusZ true
                ((if y1 < y2 then y2 else y1) + (if y1 < y2 then y2 else y1) / 20)
                (z + E.sqrt (r * r - (if atMinusZ then x1 else x2)
                  * (if atMinusZ then x1 else x2)))
                (-90 - E.asin ((if atMinusZ then x1 else x2) / |r|) / E.deg)).result := by
        unfold PseudoTrap.construction
        simp only [if_pos h1]
      rw [e1]
      unfold PseudoTrap.make
      simp only [if_pos h1]
      cases atMinusZ <;> rfl
    · by_cases h2 : r > 0 ∧ |r| ≥ (if atMinusZ then x1 else x2)
      · have e1 : (PseudoTrap.construction E nam x1 x2 y1 y2 z r atMinusZ).result
            = (if atMinusZ then
                PseudoTrap.assemble E nam x1 x2 y1 y2 z r atMinusZ false y1
                  (-z + E.sqrt (r * r - (if atMinusZ then x1 else x2)
                    * (if atMinusZ then x1 else x2)))
                  (270 - E.asin ((if atMinusZ then x1 else x2) / |r|) / E.deg)
              else
                PseudoTrap.assemble E nam x1 x2 y1 y2 z r atMinusZ false y2
                  (z - E.sqrt (r * r - (if atMinusZ then x1 else x2)
                    * (if atMinusZ then x1 else x2)))
                  (90 - E.asin ((if atMinusZ then x1 else x2) / |r|) / E.deg)).result := by
          unfold PseudoTrap.construction
          simp only [if_neg h1, if_pos h2]
        rw [e1]
        unfold PseudoTrap.make
        simp only [if_neg h1, if_pos h2]
        cases atMinusZ <;> rfl
      · have e1 : (PseudoTrap.construction E nam x1 x2 y1 y2 z r atMinusZ).result
            = .error (.except PSEUDOTRAP_TAG "Check parameters of the PseudoTrap!") := by
          unfold PseudoTrap.construction
          simp only [if_neg h1, if_neg h2]
        rw [e1]
        unfold PseudoTrap.make
        simp only [if_neg h1, if_neg h2]
        rfl
  · unfold Polycone.construction
    by_cases h1 : rmins.length < 2
    · rw [if_pos h1]; exact Or.inl ⟨_, rfl, rfl, rfl⟩
    · rw [if_neg h1]
      by_cases h2 : zs.length ≠ rmins.length ∨ zs.length ≠ rmaxs.length
      · rw [if_pos h2]; exact Or.inl ⟨_, rfl, rfl, rfl⟩
      · rw [if_neg h2]; exact atomic_of_ok _ ⟨_, rfl, by simp⟩
  · unfold Polycone.construction Polycone.new
    by_cases h1 : rmins.length < 2
    · rw [if_pos h1, if_pos h1]
    · rw [if_neg h1, if_neg h1]
      by_cases h2 : zs.length ≠ rmins.length ∨ zs.length ≠ rmaxs.length
      · rw [if_pos h2, if_pos h2]
      · rw [if_neg h2, if_neg h2]
  · unfold Polycone.construction
    by_cases h1 : rmins.length < 2
    · rw [if_pos h1]; exact Or.inl ⟨_, rfl, rfl, rfl⟩
    · rw [if_neg h1]
      by_cases h2 : zs.length ≠ rmins.length ∨ zs.length ≠ rmaxs.length
      · rw [if_pos h2]; exact Or.inl ⟨_, rfl, rfl, rfl⟩
      · rw [if_neg h2]; exact atomic_of_ok _ ⟨_, rfl, by simp⟩
  · unfold Polycone.construction Polycone.newNamed
    by_cases h1 : rmins.length < 2
    · rw [if_pos h1, if_pos h1]
    · rw [if_neg h1, if_neg h1]
      by_cases h2 : zs.length ≠ rmins.length ∨ zs.length ≠ rmaxs.length
      · rw [if_pos h2, if_pos h2]
      · rw [if_neg h2, if_neg h2]
  · unfold PolyhedraRegular.construction
    by_cases h1 : rmin < 0 ∨ rmin > rmax
    · rw [if_pos h1]; exact Or.inl ⟨_, rfl, rfl, rfl⟩
    · rw [if_neg h1]
      by_cases h2 : rmax < 0
      · rw [if_pos h2]; exact Or.inl ⟨_, rfl, rfl, rfl⟩
      · rw [if_neg h2]; exact atomic_of_ok _ ⟨_, rfl, by simp⟩
  · unfold PolyhedraRegular.construction PolyhedraRegular.make
    by_cases h1 : rmin < 0 ∨ rmin > rmax
    · rw [if_pos h1, if_pos h1]
    · rw [if_neg h1, if_neg h1]
      by_cases h2 : rmax < 0
      · rw [if_pos h2, if_pos h2]
      · rw [if_neg h2, if_neg h2]
  · unfold Polyhedra.construction
    by_cases h1 : rmins.length ≠ zs.length ∨ rmaxs.length ≠ zs.length
    · rw [if_pos h1]; exact Or.inl ⟨_, rfl, rfl, rfl⟩
    · rw [if_neg h1]; exact atomic_of_ok _ ⟨_, rfl, by simp⟩
  · unfold Polyhedra.construction Polyhedra.make
    by_cases h1 : rmins.length ≠ zs.length ∨ rmaxs.length ≠ zs.length
    · rw [if_pos h1, if_pos h1]
    · rw [if_neg h1, if_neg h1]

/-- C18: `attr_ptr(tag)` raises an error exactly when the element is null or has no entry
named `tag`, and otherwise returns an entry of the element with that name;
`attr_value_nothrow(tag)` returns null exactly when `attr_ptr(tag)` raises and otherwise the
value that `attr_value(tag)` returns. -/
theorem attr_ptr_error_iff (getEnviron : String → String) (h : json.Handle_t) (t : String) :
    ((∃ e, h.attr_ptr getEnviron t = .error e) ↔
      (h.m_node = none ∨ ∃ el, h.m_node = some el ∧ ∀ c ∈ el.2.children, c.1 ≠ t))
    ∧ (∀ a, h.attr_ptr getEnviron t = .ok a →
        a.1 = t ∧ ∃ el, h.m_node = some el ∧ a ∈ el.2.children)
    ∧ (h.attr_value_nothrow t = none ↔ ∃ e, h.attr_ptr getEnviron t = .error e)
    ∧ h.attr_value_nothrow t = (h.attr_value getEnviron t).toOption := by
  obtain ⟨node⟩ := h
  cases node with
  | none =>
    refine ⟨?_, ?_, ?_, rfl⟩
    · constructor
      · intro _; exact Or.inl rfl
      · intro _; exact ⟨_, rfl⟩
    · intro a ha; cases ha
    · constructor
      · intro _; exact ⟨_, rfl⟩
      · intro _; rfl
  | some el =>
    cases hf : el.2.children.find? (fun c => decide (c.1 = t)) with
    | none =>
      have hall : ∀ c ∈ el.2.children, c.1 ≠ t := by
        intro c hc
        have := List.find?_eq_none.mp hf c hc
        simpa using this
      have hp : json.Handle_t.attr_ptr getEnviron ⟨some el⟩ t
          = .error (.runtime_error ("Handle_t::attr_ptr: " ++ "Element [" ++ el.1
              ++ "] has no attribute of type '" ++ json._toString_cstr getEnviron (some t)
              ++ "'")) := by
        simp only [json.Handle_t.attr_ptr, json.attribute_node, hf]
      have hv : json.Handle_t.attr_value_nothrow ⟨some el⟩ t = none := by
        simp only [json.Handle_t.attr_value_nothrow, json.Handle_t.attr_nothrow,
          json.attribute_node, hf]
      refine ⟨?_, ?_, ?_, ?_⟩
      · constructor
        · intro _; exact Or.inr ⟨el, rfl, hall⟩
        · intro _; exact ⟨_, hp⟩
      · intro a ha; rw [hp] at ha; cases ha
      · constructor
        · intro _; exact ⟨_, hp⟩
        · intro _; exact hv
      · rw [hv, json.Handle_t.attr_value, hp]; rfl
    | some a =>
      have hp : json.Handle_t.attr_ptr getEnviron ⟨some el⟩ t = .ok a := by
        simp only [json.Handle_t.attr_ptr, json.attribute_node, hf]
      have hv : json.Handle_t.attr_value_nothrow ⟨some el⟩ t
          = some (json.attribute_value a) := by
        simp only [json.Handle_t.attr_value_nothrow, json.Handle_t.attr_nothrow,
          json.attribute_node, hf]
      have hk : a.1 = t := by
        have := List.find?_some hf
        simpa using this
      have hm : a ∈ el.2.children := List.mem_of_find?_eq_some hf
      refine ⟨?_, ?_, ?_, ?_⟩
      · constructor
        · rintro ⟨e, he⟩; rw [hp] at he; cases he
        · rintro (h0 | ⟨el2, h1, h2⟩)
          · cases h0
          · cases h1
            exact absurd hk (h2 a hm)
      · intro b hb
        rw [hp] at hb
        cases hb
        exact ⟨hk, el, rfl, hm⟩
      · constructor
        · intro h0; rw [hv] at h0; cases h0
        · rintro ⟨e, he⟩; rw [hp] at he; cases he
      · rw [hv, json.Handle_t.attr_value, hp]; rfl

/-- Witness of C18: in the element with the entries "a" = "1" and "b" = "2" the entry
returned for the tag "b" is named "b" and is an entry of the element. -/
theorem attr_ptr_error_iff_witness :
    json.Handle_t.attr_ptr id
        ⟨some ("e", .mk "" [("a", .mk "1" []), ("b", .mk "2" [])])⟩ "b"
      = .ok ("b", .mk "2" [])
    ∧ (("b", json.ptree.mk "2" []) : json.JsonElement).1 = "b"
    ∧ ∃ el, (json.Handle_t.mk (some ("e", .mk "" [("a", .mk "1" []), ("b", .mk "2" [])]))).m_node
          = some el
        ∧ (("b", json.ptree.mk "2" []) : json.JsonElement) ∈ el.2.children :=
  have h0 : json.Handle_t.attr_ptr id
        ⟨some ("e", .mk "" [("a", .mk "1" []), ("b", .mk "2" [])])⟩ "b"
      = .ok ("b", .mk "2" []) := by
    simp [json.Handle_t.attr_ptr, json.attribute_node, json.ptree.children]
  ⟨h0, (attr_ptr_error_iff id
      ⟨some ("e", .mk "" [("a", .mk "1" []), ("b", .mk "2" [])])⟩ "b").2.1 _ h0⟩

/-- C19: on a string that does not begin with the two characters `$` and `{`, both
overloads of `json::_toString` return the input unchanged, so they agree; the `const char*`
overload returns the empty string for the null pointer and for the empty string. -/
theorem json_toString_plain (getEnviron : String → String) (s : String)
    (hs : ¬ (['$', json.lbrace] <+: s.data)) :
    json._toString_cstr getEnviron (some s) = s
    ∧ json._toString_string getEnviron s = s
    ∧ json._toString_cstr getEnviron (some s) = json._toString_string getEnviron s
    ∧ json._toString_cstr getEnviron none = ""
    ∧ json._toString_cstr getEnviron (some "") = "" := by
  have hc : ¬ (s.data.head? = some '$' ∧ s.data.get? 1 = some json.lbrace) := by
    intro ⟨h1, h2⟩
    apply hs
    obtain ⟨l⟩ := s
    match l, h1, h2 with
    | a :: b :: rest, h1, h2 =>
      simp only [List.head?_cons, Option.some.injEq] at h1
      simp only [List.get?_cons_succ, List.get?_cons_zero, Option.some.injEq] at h2
      subst h1 h2
      exact ⟨rest, rfl⟩
  have h1 : json._toString_cstr getEnviron (some s) = s := by
    unfold json._toString_cstr
    by_cases he : s = ""
    · simp only [if_pos he]; exact he.symm
    · simp only [if_neg he, if_pos hc]
  have h2 : json._toString_string getEnviron s = s := by
    unfold json._toString_string
    by_cases h3 : s.length < 3 ∨ s.data.head? ≠ some '$'
    · simp only [if_pos h3]
    · simp only [if_neg h3, if_pos hc]
  exact ⟨h1, h2, h1.trans h2.symm, rfl, rfl⟩

/-- Witness of C19: the plain string "true" is returned unchanged by both overloads. -/
theorem json_toString_plain_witness :
    ¬ (['$', json.lbrace] <+: "true".data)
    ∧ json._toString_cstr id (some "true") = "true"
    ∧ json._toString_string id "true" = "true" :=
  have h : ¬ (['$', json.lbrace] <+: "true".data) := by
    rintro ⟨r, hr⟩
    simp at hr
  ⟨h, (json_toString_plain id "true" h).1, (json_toString_plain id "true" h).2.1⟩

/-- C20: for every accepted input of the TruncatedTube constructor, with a non-zero unit
`deg` and `acos` returning a non-negative angle, the cutting box is the one derived in the
specification from r = cut_atStart, R = cut_atDelta and c = cos(deltaPhi): the box has the
half-lengths (boxX, boxY, boxZ) and is placed at (xBox, 0, 0), rotated by -alpha; the cosine
is that of the deltaPhi passed to the constructor. -/
theorem TruncatedTube_cutting_box (E : MathEnv) (nam : String)
    (dz rmin rmax start_phi delta_phi cut_atStart cut_atDelta : ℚ) (cut_inside : Bool)
    (hdeg : E.deg ≠ 0) (h1 : 0 < rmin) (h2 : 0 < rmax) (h3 : 0 < cut_atStart)
    (h4 : 0 < cut_atDelta) (h5 : rmin < rmax) (h6 : start_phi = 0)
    (hacos : 0 ≤ (TruncatedTube.cutFromSpec E dz rmax delta_phi cut_atStart cut_atDelta
      cut_inside).2.2.2.2) :
    ∃ s node m,
      TruncatedTube.new E nam dz rmin rmax start_phi delta_phi cut_atStart cut_atDelta
          cut_inside = .ok s
      ∧ GetBoolNode s = .ok node
      ∧ node.GetRightShape = some (.mk (nam ++ "Box") ""
          (.BBox
            (TruncatedTube.cutFromSpec E dz rmax delta_phi cut_atStart cut_atDelta
              cut_inside).1
            (TruncatedTube.cutFromSpec E dz rmax delta_phi cut_atStart cut_atDelta
              cut_inside).2.1
            (TruncatedTube.cutFromSpec E dz rmax delta_phi cut_atStart cut_atDelta
              cut_inside).2.2.1))
      ∧ node.GetRightMatrix = some m
      ∧ m.kind = .CombiTransRotateZ
          ⟨(TruncatedTube.cutFromSpec E dz rmax delta_phi cut_atStart cut_atDelta
              cut_inside).2.2.2.1, 0, 0⟩
          (-(TruncatedTube.cutFromSpec E dz rmax delta_phi cut_atStart cut_atDelta
              cut_inside).2.2.2.2 / E.deg) := by
  have hc : delta_phi / E.deg * E.deg = delta_phi := by field_simp
  have hn1 : ¬ (rmin ≤ 0 ∨ rmax ≤ 0 ∨ cut_atStart ≤ 0 ∨ cut_atDelta ≤ 0) := by
    intro h
    rcases h with h | h | h | h
    · exact absurd h1 (not_lt.mpr h)
    · exact absurd h2 (not_lt.mpr h)
    · exact absurd h3 (not_lt.mpr h)
    · exact absurd h4 (not_lt.mpr h)
  have hn2 : ¬ rmin ≥ rmax := not_le.mpr h5
  have hn3 : ¬ start_phi / E.deg ≠ 0 := by rw [h6]; simp
  have ha : |E.acos ((cut_atStart - cut_atDelta * E.cos delta_phi)
        / E.sqrt (cut_atStart * cut_atStart + cut_atDelta * cut_atDelta
            - 2 * cut_atStart * cut_atDelta * E.cos delta_phi))|
      = E.acos ((cut_atStart - cut_atDelta * E.cos delta_phi)
        / E.sqrt (cut_atStart * cut_atStart + cut_atDelta * cut_atDelta
            - 2 * cut_atStart * cut_atDelta * E.cos delta_phi)) := abs_of_nonneg hacos
  unfold TruncatedTube.new TruncatedTube.make
  rw [if_neg hn1, if_neg hn2, if_neg hn3]
  simp only [hc, ha, TruncatedTube.cutFromSpec]
  exact ⟨_, _, _, rfl, rfl, rfl, rfl, rfl⟩

/-- Witness of C20 in the sample environment: dz=10, rmin=5, rmax=8, start_phi=0,
delta_phi=1, cut_atStart=6, cut_atDelta=7, cutting inside. -/
theorem TruncatedTube_cutting_box_witness :
    sampleEnv.deg ≠ 0 ∧ (0 : ℚ) < 5 ∧ (0 : ℚ) < 8 ∧ (0 : ℚ) < 6 ∧ (0 : ℚ) < 7 ∧ (5 : ℚ) < 8
    ∧ 0 ≤ (TruncatedTube.cutFromSpec sampleEnv 10 8 1 6 7 true).2.2.2.2
    ∧ ∃ s node m,
      TruncatedTube.new sampleEnv "" 10 5 8 0 1 6 7 true = .ok s
      ∧ GetBoolNode s = .ok node
      ∧ node.GetRightShape = some (.mk ("" ++ "Box") ""
          (.BBox (TruncatedTube.cutFromSpec sampleEnv 10 8 1 6 7 true).1
            (TruncatedTube.cutFromSpec sampleEnv 10 8 1 6 7 true).2.1
            (TruncatedTube.cutFromSpec sampleEnv 10 8 1 6 7 true).2.2.1))
      ∧ node.GetRightMatrix = some m
      ∧ m.kind = .CombiTransRotateZ
          ⟨(TruncatedTube.cutFromSpec sampleEnv 10 8 1 6 7 true).2.2.2.1, 0, 0⟩
          (-(TruncatedTube.cutFromSpec sampleEnv 10 8 1 6 7 true).2.2.2.2 / sampleEnv.deg) :=
  have hd : sampleEnv.deg ≠ 0 := by norm_num [sampleEnv, M_PI]
  have ha : 0 ≤ (TruncatedTube.cutFromSpec sampleEnv 10 8 1 6 7 true).2.2.2.2 := by decide!
  ⟨hd, by norm_num, by norm_num, by norm_num, by norm_num, by norm_num, ha,
    TruncatedTube_cutting_box sampleEnv "" 10 5 8 0 1 6 7 true hd (by norm_num) (by norm_num)
      (by norm_num) (by norm_num) (by norm_num) rfl ha⟩

/-- Lemma: the two error texts of `PolyhedraRegular::make` differ, whatever the values
printed in them. -/
theorem rmin_text_ne_rmax_text (a b : String) :
    "dd4hep: PolyhedraRegular: Illegal argument rmin:<" ++ a ++ "> is invalid!"
      ≠ "dd4hep: PolyhedraRegular: Illegal argument rmax:<" ++ b ++ "> is invalid!" := by
  intro h
  have h2 := congrArg (fun s : String => s.data.take 49) h
  simp only [String.data_append, List.append_assoc] at h2
  rw [List.take_left' (by decide), List.take_left' (by decide)] at h2
  exact absurd h2 (by decide)

/-- C30: in `PolyhedraRegular::make` the second error branch is unreachable: when the first
check (rmin < 0 or rmin > rmax) does not fire then rmax >= 0, so the check rmax < 0 is false
there, and the 'Illegal argument rmax' error is never the outcome of the call. -/
theorem PolyhedraRegular_rmax_branch_unreachable (E : MathEnv) (nam : String) (nsides : ℤ)
    (rmin rmax zpos zneg start delta : ℚ) :
    (¬ (rmin < 0 ∨ rmin > rmax) → 0 ≤ rmax ∧ ¬ rmax < 0)
    ∧ PolyhedraRegular.make E nam nsides rmin rmax zpos zneg start delta
        ≠ .error (.runtime_error
            ("dd4hep: PolyhedraRegular: Illegal argument rmax:<" ++ E.toStr rmax
              ++ "> is invalid!")) := by
  have key : ¬ (rmin < 0 ∨ rmin > rmax) → 0 ≤ rmax := by
    intro h
    have h0 : 0 ≤ rmin := not_lt.mp (fun h' => h (Or.inl h'))
    have h1 : rmin ≤ rmax := not_lt.mp (fun h' => h (Or.inr h'))
    exact le_trans h0 h1
  refine ⟨fun h => ⟨key h, not_lt.mpr (key h)⟩, ?_⟩
  unfold PolyhedraRegular.make
  by_cases h1 : rmin < 0 ∨ rmin > rmax
  · rw [if_pos h1]
    intro h
    injection h with h
    injection h with h
    exact rmin_text_ne_rmax_text _ _ h
  · rw [if_neg h1, if_neg (not_lt.mpr (key h1))]
    intro h
    cases h

/-- Witness of C30: rmin = 1, rmax = 2 passes the first check and rmax >= 0. -/
theorem PolyhedraRegular_rmax_branch_unreachable_witness :
    ¬ ((1 : ℚ) < 0 ∨ (1 : ℚ) > 2) ∧ (0 : ℚ) ≤ 2 ∧ ¬ (2 : ℚ) < 0 :=
  ⟨by norm_num,
    (PolyhedraRegular_rmax_branch_unreachable sampleEnv "" 6 1 2 5 (-5) 0 1).1 (by norm_num)⟩

/-- C24 (counterexample): x1 = -20 with r = 10 and atMinusZ = true passes the parameter
check of `PseudoTrap::make` (|r| >= x), but r*r - x*x = -300 is negative and x/|r| = -2 is
below -1. -/
theorem PseudoTrap_negative_x_accepted :
    (∃ s, PseudoTrap.make sampleEnv "" (-20) 4 2 2 5 10 true = .ok s)
    ∧ (10 : ℚ) ≠ 0 ∧ |(10 : ℚ)| ≥ -20
    ∧ ¬ ((10 : ℚ) * 10 - (-20) * (-20) ≥ 0)
    ∧ ¬ (-1 ≤ (-20 : ℚ) / |(10 : ℚ)|) := by
  refine ⟨?_, by norm_num, by norm_num, by norm_num, by norm_num [abs_of_pos]⟩
  have h1 : ¬ ((10 : ℚ) < 0 ∧ |(10 : ℚ)| ≥ (if true = true then (-20 : ℚ) else 4)) := by
    norm_num
  have h2 : (10 : ℚ) > 0 ∧ |(10 : ℚ)| ≥ (if true = true then (-20 : ℚ) else 4) := by
    norm_num
  unfold PseudoTrap.make
  simp only [if_neg h1, if_pos h2]
  exact ⟨_, rfl⟩

/-- C24 (amended): for every input accepted by the parameter check of `PseudoTrap::make`
(r != 0 and |r| >= x with x = atMinusZ ? x1 : x2) whose x is not negative, the square root
and the arcsine are applied inside their domains: r*r - x*x >= 0 and -1 <= x/|r| <= 1; and
such an input is accepted. -/
theorem PseudoTrap_domains (E : MathEnv) (nam : String) (x1 x2 y1 y2 z r : ℚ)
    (atMinusZ : Bool) (hr : r ≠ 0) (hx : |r| ≥ (if atMinusZ then x1 else x2))
    (h0 : 0 ≤ (if atMinusZ then x1 else x2)) :
    (∃ s, PseudoTrap.make E nam x1 x2 y1 y2 z r atMinusZ = .ok s)
    ∧ r * r - (if atMinusZ then x1 else x2) * (if atMinusZ then x1 else x2) ≥ 0
    ∧ -1 ≤ (if atMinusZ then x1 else x2) / |r|
    ∧ (if atMinusZ then x1 else x2) / |r| ≤ 1 := by
  have hpos : 0 < |r| := abs_pos.mpr hr
  refine ⟨?_, ?_, ?_, ?_⟩
  · rcases lt_or_gt_of_ne hr with h | h
    · have h1 : r < 0 ∧ |r| ≥ (if atMinusZ then x1 else x2) := ⟨h, hx⟩
      unfold PseudoTrap.make
      simp only [if_pos h1]
      cases atMinusZ <;> exact ⟨_, rfl⟩
    · have h1 : ¬ (r < 0 ∧ |r| ≥ (if atMinusZ then x1 else x2)) :=
        fun h' => absurd h'.1 (not_lt.mpr h.le)
      have h2 : r > 0 ∧ |r| ≥ (if atMinusZ then x1 else x2) := ⟨h, hx⟩
      unfold PseudoTrap.make
      simp only [if_neg h1, if_pos h2]
      cases atMinusZ <;> exact ⟨_, rfl⟩
  · have h2 : (if atMinusZ then x1 else x2) * (if atMinusZ then x1 else x2) ≤ |r| * |r| :=
      mul_le_mul hx hx h0 hpos.le
    rw [abs_mul_abs_self] at h2
    linarith
  · have h3 : 0 ≤ (if atMinusZ then x1 else x2) / |r| := div_nonneg h0 hpos.le
    linarith
  · exact (div_le_one hpos).mpr hx

/-- Witness of C24 (amended) at r = 10, x1 = 3, atMinusZ = true. -/
theorem PseudoTrap_domains_witness :
    (10 : ℚ) ≠ 0 ∧ |(10 : ℚ)| ≥ (if true = true then (3 : ℚ) else 4)
    ∧ 0 ≤ (if true = true then (3 : ℚ) else 4)
    ∧ (∃ s, PseudoTrap.make sampleEnv "" 3 4 2 2 5 10 true = .ok s)
    ∧ (10 : ℚ) * 10 - (if true = true then (3 : ℚ) else 4)
        * (if true = true then (3 : ℚ) else 4) ≥ 0
    ∧ -1 ≤ (if true = true then (3 : ℚ) else 4) / |(10 : ℚ)|
    ∧ (if true = true then (3 : ℚ) else 4) / |(10 : ℚ)| ≤ 1 :=
  ⟨by norm_num, by norm_num, by norm_num,
    PseudoTrap_domains sampleEnv "" 3 4 2 2 5 10 true (by norm_num) (by norm_num)
      (by norm_num)⟩

/-- Lemma: the loop over z, zeros and r is the loop of the (r, z) constructor. -/
theorem zplanes_zeros (n : Nat) (z r : List ℚ) :
    zplanes n z (List.replicate n 0) r = zplanesR n z r := by
  unfold zplanes zplanesR
  congr 1
  apply List.map_congr_left
  intro i _
  have h : (List.replicate n (0 : ℚ)).getD i 0 = 0 := by
    rw [List.getD_eq_getElem?_getD, List.getElem?_replicate]
    split_ifs <;> rfl
  rw [h]

/-- Lemma: the loop of the (r, z) constructor appends three values per plane. -/
theorem zplanesR_length (n : Nat) (z r : List ℚ) : (zplanesR n z r).length = 3 * n := by
  rw [← zplanes_zeros, zplanes_length]

/-- C27: the Polycone constructor taking (startPhi, deltaPhi, r, z) is equivalent to the one
taking (startPhi, deltaPhi, rmin, rmax, z) with rmin the zeros of the length of r and
rmax = r: both fail exactly when r has fewer than 2 entries or z has another length, and
otherwise both build the polycone with the same native parameter vector
[startPhi/deg, deltaPhi/deg, n, z0, 0, r0, z1, 0, r1, ...] of length 3 + 3n. -/
theorem Polycone_rz_equivalent (E : MathEnv) (startPhi deltaPhi : ℚ) (r z : List ℚ) :
    ((∃ e, Polycone.newRZ E startPhi deltaPhi r z = .error e) ↔
      (r.length < 2 ∨ z.length ≠ r.length))
    ∧ ((∃ e, Polycone.new E startPhi deltaPhi (List.replicate r.length 0) r z = .error e) ↔
      (r.length < 2 ∨ z.length ≠ r.length))
    ∧ (Polycone.newRZ E startPhi deltaPhi r z
        = .ok (.mk "" POLYCONE_TAG
            (.Pcon ([startPhi / E.deg, deltaPhi / E.deg, (r.length : ℚ)]
              ++ zplanesR r.length z r))) ↔
      ¬ (r.length < 2 ∨ z.length ≠ r.length))
    ∧ (Polycone.new E startPhi deltaPhi (List.replicate r.length 0) r z
        = .ok (.mk "" POLYCONE_TAG
            (.Pcon ([startPhi / E.deg, deltaPhi / E.deg, (r.length : ℚ)]
              ++ zplanesR r.length z r))) ↔
      ¬ (r.length < 2 ∨ z.length ≠ r.length))
    ∧ ([startPhi / E.deg, deltaPhi / E.deg, (r.length : ℚ)] ++ zplanesR r.length z r).length
        = 3 + 3 * r.length := by
  have hshape : _assign (.mk "" "" (.Pcon ([startPhi / E.deg, deltaPhi / E.deg,
        (r.length : ℚ)] ++ zplanesR r.length z r))) "" POLYCONE_TAG
      = .mk "" POLYCONE_TAG (.Pcon ([startPhi / E.deg, deltaPhi / E.deg, (r.length : ℚ)]
          ++ zplanesR r.length z r)) := rfl
  have hnew : Polycone.new E startPhi deltaPhi (List.replicate r.length 0) r z
      = (if r.length < 2 then
          .error (.runtime_error "dd4hep: PolyCone Not enough Z planes. minimum is 2!")
        else if z.length ≠ r.length ∨ z.length ≠ r.length then
          .error (.runtime_error "dd4hep: Polycone: vectors z,rmin,rmax not of same length")
        else .ok (.mk "" POLYCONE_TAG (.Pcon ([startPhi / E.deg, deltaPhi / E.deg,
          (r.length : ℚ)] ++ zplanesR r.length z r)))) := by
    unfold Polycone.new
    simp only [List.length_replicate, zplanes_zeros]
    rfl
  have hrz : Polycone.newRZ E startPhi deltaPhi r z
      = (if r.length < 2 then
          .error (.runtime_error "dd4hep: PolyCone Not enough Z planes. minimum is 2!")
        else if z.length ≠ r.length then
          .error (.runtime_error "dd4hep: Polycone: vectors z,r not of same length")
        else .ok (.mk "" POLYCONE_TAG (.Pcon ([startPhi / E.deg, deltaPhi / E.deg,
          (r.length : ℚ)] ++ zplanesR r.length z r)))) := rfl
  rw [hnew, hrz]
  by_cases h1 : r.length < 2
  · rw [if_pos h1, if_pos h1]
    refine ⟨?_, ?_, ?_, ?_, ?_⟩
    · exact ⟨fun _ => Or.inl h1, fun _ => ⟨_, rfl⟩⟩
    · exact ⟨fun _ => Or.inl h1, fun _ => ⟨_, rfl⟩⟩
    · exact ⟨fun h => (by cases h), fun h => absurd (Or.inl h1) h⟩
    · exact ⟨fun h => (by cases h), fun h => absurd (Or.inl h1) h⟩
    · simp only [List.length_append, zplanesR_length, List.length_cons, List.length_nil]
  · rw [if_neg h1, if_neg h1]
    by_cases h2 : z.length ≠ r.length
    · have h3 : z.length ≠ r.length ∨ z.length ≠ r.length := Or.inl h2
      rw [if_pos h2, if_pos h3]
      refine ⟨?_, ?_, ?_, ?_, ?_⟩
      · exact ⟨fun _ => Or.inr h2, fun _ => ⟨_, rfl⟩⟩
      · exact ⟨fun _ => Or.inr h2, fun _ => ⟨_, rfl⟩⟩
      · exact ⟨fun h => (by cases h), fun h => absurd (Or.inr h2) h⟩
      · exact ⟨fun h => (by cases h), fun h => absurd (Or.inr h2) h⟩
      · simp only [List.length_append, zplanesR_length, List.length_cons, List.length_nil]
    · have h3 : ¬ (z.length ≠ r.length ∨ z.length ≠ r.length) := fun h => h.elim h2 h2
      have h4 : ¬ (r.length < 2 ∨ z.length ≠ r.length) := fun h => h.elim h1 h2
      rw [if_neg h2, if_neg h3]
      refine ⟨?_, ?_, ?_, ?_, ?_⟩
      · exact ⟨fun ⟨e, he⟩ => (by cases he), fun h => absurd h h4⟩
      · exact ⟨fun ⟨e, he⟩ => (by cases he), fun h => absurd h h4⟩
      · exact ⟨fun _ => h4, fun _ => rfl⟩
      · exact ⟨fun _ => h4, fun _ => rfl⟩
      · simp only [List.length_append, zplanesR_length, List.length_cons, List.length_nil]

/-- C29: `_toBool(value)` is true exactly when value is not null and its string form after
`_toString` is "true"; the texts "True", "1", "yes", the empty string and the null pointer
give false; for the null pointer `_toInt` and `_toLong` give -1 and `_toFloat` and
`_toDouble` give 0. -/
theorem json_toBool_iff (getEnviron : String → String) (_toInteger : String → ℤ × ℚ)
    (_toFloatingPoint : String → ℤ × ℚ) (value : Option String) :
    (json._toBool getEnviron value = true ↔
      ∃ v, value = some v ∧ json._toString_cstr getEnviron (some v) = "true")
    ∧ json._toBool getEnviron (some "true") = true
    ∧ json._toBool getEnviron (some "True") = false
    ∧ json._toBool getEnviron (some "1") = false
    ∧ json._toBool getEnviron (some "yes") = false
    ∧ json._toBool getEnviron (some "") = false
    ∧ json._toBool getEnviron none = false
    ∧ json._toInt getEnviron _toInteger none = -1
    ∧ json._toLong getEnviron _toInteger none = -1
    ∧ json._toFloat getEnviron _toFloatingPoint none = 0
    ∧ json._toDouble getEnviron _toFloatingPoint none = 0 := by
  refine ⟨?_, rfl, rfl, rfl, rfl, rfl, rfl, rfl, rfl, rfl, rfl⟩
  cases value with
  | none =>
    constructor
    · intro h; cases h
    · rintro ⟨v, hv, _⟩; cases hv
  | some v =>
    constructor
    · intro h
      exact ⟨v, rfl, by simpa [json._toBool] using h⟩
    · rintro ⟨w, hw, h⟩
      cases hw
      simpa [json._toBool] using h

/-- Lemma: for r > 0 and |r| >= x, `PseudoTrap::make` returns the Union row of the table. -/
theorem PseudoTrap_make_union (E : MathEnv) (nam : String) (x1 x2 y1 y2 z r : ℚ)
    (atMinusZ : Bool) (hr : r > 0) (hx : |r| ≥ (if atMinusZ then x1 else x2)) :
    PseudoTrap.make E nam x1 x2 y1 y2 z r atMinusZ
      = .ok (PseudoTrap.fromTable E nam x1 x2 y1 y2 z r atMinusZ .Union
          ((if atMinusZ then 270 else 90) - E.asin ((if atMinusZ then x1 else x2) / |r|) / E.deg)
          (if atMinusZ then
              -z + E.sqrt (r * r - (if atMinusZ then x1 else x2) * (if atMinusZ then x1 else x2))
            else
              z - E.sqrt (r * r - (if atMinusZ then x1 else x2) * (if atMinusZ then x1 else x2)))
          (if atMinusZ then y1 else y2)) := by
  have hn : ¬ r < 0 := not_lt.mpr hr.le
  cases atMinusZ <;> simp at hx
  · simp [PseudoTrap.make, PseudoTrap.fromTable, hr, hx, hn, SubtractionSolid, UnionSolid,
      access, _assign, Handle.assign, SetRightMatrixTitle, PlacementArg.matrix,
      PSEUDOTRAP_TAG, SUBTRACTION_TAG, UNION_TAG, BOX_TAG, Box.make]
    ring
  · simp [PseudoTrap.make, PseudoTrap.fromTable, hr, hx, hn, SubtractionSolid, UnionSolid,
      access, _assign, Handle.assign, SetRightMatrixTitle, PlacementArg.matrix,
      PSEUDOTRAP_TAG, SUBTRACTION_TAG, UNION_TAG, BOX_TAG, Box.make]
    ring

/-- C22: for every PseudoTrap input with r > 0 and |r| >= x (x = x1 at minus z, else x2),
`PseudoTrap::make` returns a Union whose left child is the trapezoid and whose right child is
the trimmed tube, placed by rotateX(M_PI/2) and translate(0,0,displacement); the trimmed tube
is the Subtraction named nam+"Subs" whose left child is the tube segment and whose right
child is the anonymous box, tagged "Box", with the half-lengths (1.1 x, 1.1 h,
sqrt(r r - x x)), placed by rotateX(M_PI/2) with no translation; h is y1 at minus z and y2
otherwise. -/
theorem PseudoTrap_union_structure (E : MathEnv) (nam : String) (x1 x2 y1 y2 z r : ℚ)
    (atMinusZ : Bool) (hr : r > 0) (hx : |r| ≥ (if atMinusZ then x1 else x2)) :
    ∃ s node m sub subnode sm,
      PseudoTrap.make E nam x1 x2 y1 y2 z r atMinusZ = .ok s
      ∧ GetBoolNode s = .ok node
      ∧ node.op = .Union
      ∧ node.GetLeftShape = some (.mk (nam ++ "Trd2") "" (.Trd2 x1 x2 y1 y2 z))
      ∧ placement node.GetLeftMatrix = ._identity
      ∧ node.GetRightShape = some sub
      ∧ node.GetRightMatrix = some m
      ∧ m.kind = ._transform ⟨.RotationX (M_PI / 2), ⟨0, 0,
          (if atMinusZ then
              -z + E.sqrt (r * r - (if atMinusZ then x1 else x2) * (if atMinusZ then x1 else x2))
            else
              z - E.sqrt (r * r - (if atMinusZ then x1 else x2)
                * (if atMinusZ then x1 else x2)))⟩⟩
      ∧ sub.GetName = nam ++ "Subs"
      ∧ GetBoolNode sub = .ok subnode
      ∧ subnode.op = .Subtraction
      ∧ subnode.GetLeftShape = some (.mk (nam ++ "Tubs") ""
          (.TubeSeg 0 |r| (if atMinusZ then y1 else y2)
            ((if atMinusZ then 270 else 90)
              - E.asin ((if atMinusZ then x1 else x2) / |r|) / E.deg)
            ((if atMinusZ then 270 else 90)
              - E.asin ((if atMinusZ then x1 else x2) / |r|) / E.deg
              + 2 * (E.asin ((if atMinusZ then x1 else x2) / |r|) / E.deg))))
      ∧ placement subnode.GetLeftMatrix = ._identity
      ∧ subnode.GetRightShape = some (.mk "" BOX_TAG (.BBox
          (11 / 10 * (if atMinusZ then x1 else x2))
          (11 / 10 * (if atMinusZ then y1 else y2))
          (E.sqrt (r * r - (if atMinusZ then x1 else x2) * (if atMinusZ then x1 else x2)))))
      ∧ subnode.GetRightMatrix = some sm
      ∧ sm.kind = ._transform ⟨.RotationX (M_PI / 2), ⟨0, 0, 0⟩⟩ := by
  rw [PseudoTrap_make_union E nam x1 x2 y1 y2 z r atMinusZ hr hx]
  unfold PseudoTrap.fromTable
  rw [if_pos rfl]
  exact ⟨_, _, _, _, _, _, rfl, rfl, rfl, rfl, rfl, rfl, rfl, rfl, rfl, rfl, rfl, rfl, rfl,
    rfl, rfl, rfl⟩

/-- Witness of C22 at r=10, x1=3, x2=4, y1=2, y2=6, z=5, atMinusZ=false: the Union with
h = y2 = 6. -/
theorem PseudoTrap_union_structure_witness :
    (10 : ℚ) > 0 ∧ |(10 : ℚ)| ≥ (if false = true then (3 : ℚ) else 4)
    ∧ ∃ s node m sub subnode sm,
      PseudoTrap.make sampleEnv "" 3 4 2 6 5 10 false = .ok s
      ∧ GetBoolNode s = .ok node
      ∧ node.op = .Union
      ∧ node.GetLeftShape = some (.mk ("" ++ "Trd2") "" (.Trd2 3 4 2 6 5))
      ∧ placement node.GetLeftMatrix = ._identity
      ∧ node.GetRightShape = some sub
      ∧ node.GetRightMatrix = some m
      ∧ m.kind = ._transform ⟨.RotationX (M_PI / 2), ⟨0, 0,
          (if false = true then
              -5 + sampleEnv.sqrt (10 * 10 - (if false = true then (3 : ℚ) else 4)
                * (if false = true then 3 else 4))
            else
              5 - sampleEnv.sqrt (10 * 10 - (if false = true then (3 : ℚ) else 4)
                * (if false = true then 3 else 4)))⟩⟩
      ∧ sub.GetName = "" ++ "Subs"
      ∧ GetBoolNode sub = .ok subnode
      ∧ subnode.op = .Subtraction
      ∧ subnode.GetLeftShape = some (.mk ("" ++ "Tubs") ""
          (.TubeSeg 0 |(10 : ℚ)| (if false = true then 2 else 6)
            ((if false = true then 270 else 90)
              - sampleEnv.asin ((if false = true then 3 else 4) / |(10 : ℚ)|) / sampleEnv.deg)
            ((if false = true then 270 else 90)
              - sampleEnv.asin ((if false = true then 3 else 4) / |(10 : ℚ)|) / sampleEnv.deg
              + 2 * (sampleEnv.asin ((if false = true then 3 else 4) / |(10 : ℚ)|)
                  / sampleEnv.deg))))
      ∧ placement subnode.GetLeftMatrix = ._identity
      ∧ subnode.GetRightShape = some (.mk "" BOX_TAG (.BBox
          (11 / 10 * (if false = true then 3 else 4))
          (11 / 10 * (if false = true then 2 else 6))
          (sampleEnv.sqrt (10 * 10 - (if false = true then (3 : ℚ) else 4)
            * (if false = true then 3 else 4)))))
      ∧ subnode.GetRightMatrix = some sm
      ∧ sm.kind = ._transform ⟨.RotationX (M_PI / 2), ⟨0, 0, 0⟩⟩ :=
  ⟨by norm_num, by norm_num,
    PseudoTrap_union_structure sampleEnv "" 3 4 2 6 5 10 false (by norm_num) (by norm_num)⟩

/-- C21: for every accepted input of the TruncatedTube constructor, with a non-zero unit
`deg` and `acos` returning a non-negative angle, the result is a Subtraction whose left child
is the tube segment (rmin, rmax, dz) spanning startPhi to startPhi + deltaPhi (in degrees)
with identity placement, and whose right child is the box (boxX, boxY, boxZ) placed at
(xBox, 0, 0) and rotated by -alpha about z; the title of the right matrix holds the eight
values dz, rmin, rmax, startPhi, deltaPhi, cutAtStart, cutAtDelta, cutInside in this order,
each on a line of its own (the value, a blank, a newline), the flag as "1" or "0". -/
theorem TruncatedTube_structure (E : MathEnv) (nam : String)
    (dz rmin rmax start_phi delta_phi cut_atStart cut_atDelta : ℚ) (cut_inside : Bool)
    (hdeg : E.deg ≠ 0) (h1 : 0 < rmin) (h2 : 0 < rmax) (h3 : 0 < cut_atStart)
    (h4 : 0 < cut_atDelta) (h5 : rmin < rmax) (h6 : start_phi = 0)
    (hacos : 0 ≤ (TruncatedTube.cutFromSpec E dz rmax delta_phi cut_atStart cut_atDelta
      cut_inside).2.2.2.2) :
    ∃ s node m,
      TruncatedTube.new E nam dz rmin rmax start_phi delta_phi cut_atStart cut_atDelta
          cut_inside = .ok s
      ∧ s.GetName = nam ∧ s.GetTitle = TRUNCATEDTUBE_TAG
      ∧ GetBoolNode s = .ok node
      ∧ node.op = .Subtraction
      ∧ node.GetLeftShape = some (.mk (nam ++ "Tubs") ""
          (.TubeSeg rmin rmax dz (start_phi / E.deg) ((start_phi + delta_phi) / E.deg)))
      ∧ placement node.GetLeftMatrix = ._identity
      ∧ node.GetRightShape = some (.mk (nam ++ "Box") ""
          (.BBox
            (TruncatedTube.cutFromSpec E dz rmax delta_phi cut_atStart cut_atDelta
              cut_inside).1
            (TruncatedTube.cutFromSpec E dz rmax delta_phi cut_atStart cut_atDelta
              cut_inside).2.1
            (TruncatedTube.cutFromSpec E dz rmax delta_phi cut_atStart cut_atDelta
              cut_inside).2.2.1))
      ∧ node.GetRightMatrix = some m
      ∧ m.kind = .CombiTransRotateZ
          ⟨(TruncatedTube.cutFromSpec E dz rmax delta_phi cut_atStart cut_atDelta
              cut_inside).2.2.2.1, 0, 0⟩
          (-(TruncatedTube.cutFromSpec E dz rmax delta_phi cut_atStart cut_atDelta
              cut_inside).2.2.2.2 / E.deg)
      ∧ m.title = E.fmt dz ++ " " ++ "\n" ++ E.fmt rmin ++ " " ++ "\n" ++ E.fmt rmax ++ " "
          ++ "\n" ++ E.fmt start_phi ++ " " ++ "\n" ++ E.fmt delta_phi ++ " " ++ "\n"
          ++ E.fmt cut_atStart ++ " " ++ "\n" ++ E.fmt cut_atDelta ++ " " ++ "\n"
          ++ (if cut_inside then "1" else "0") ++ "\n" := by
  subst h6
  have hc : delta_phi / E.deg * E.deg = delta_phi := by field_simp
  have hn1 : ¬ (rmin ≤ 0 ∨ rmax ≤ 0 ∨ cut_atStart ≤ 0 ∨ cut_atDelta ≤ 0) := by
    intro h
    rcases h with h | h | h | h
    · exact absurd h1 (not_lt.mpr h)
    · exact absurd h2 (not_lt.mpr h)
    · exact absurd h3 (not_lt.mpr h)
    · exact absurd h4 (not_lt.mpr h)
  have hn2 : ¬ rmin ≥ rmax := not_le.mpr h5
  have hn3 : ¬ (0 : ℚ) / E.deg ≠ 0 := by simp
  have ha : |E.acos ((cut_atStart - cut_atDelta * E.cos delta_phi)
        / E.sqrt (cut_atStart * cut_atStart + cut_atDelta * cut_atDelta
            - 2 * cut_atStart * cut_atDelta * E.cos delta_phi))|
      = E.acos ((cut_atStart - cut_atDelta * E.cos delta_phi)
        / E.sqrt (cut_atStart * cut_atStart + cut_atDelta * cut_atDelta
            - 2 * cut_atStart * cut_atDelta * E.cos delta_phi)) := abs_of_nonneg hacos
  unfold TruncatedTube.new TruncatedTube.make
  rw [if_neg hn1, if_neg hn2, if_neg hn3]
  simp only [hc, ha, TruncatedTube.cutFromSpec, zero_add, zero_div, zero_mul]
  exact ⟨_, _, _, rfl, rfl, rfl, rfl, rfl, rfl, rfl, rfl, rfl, rfl, rfl⟩

/-- Witness of C21 in the sample environment: dz=10, rmin=5, rmax=8, start_phi=0,
delta_phi=1, cut_atStart=6, cut_atDelta=7, cutting inside. -/
theorem TruncatedTube_structure_witness :
    sampleEnv.deg ≠ 0 ∧ (0 : ℚ) < 5 ∧ (0 : ℚ) < 8 ∧ (0 : ℚ) < 6 ∧ (0 : ℚ) < 7 ∧ (5 : ℚ) < 8
    ∧ 0 ≤ (TruncatedTube.cutFromSpec sampleEnv 10 8 1 6 7 true).2.2.2.2
    ∧ ∃ s node m,
      TruncatedTube.new sampleEnv "" 10 5 8 0 1 6 7 true = .ok s
      ∧ s.GetName = "" ∧ s.GetTitle = TRUNCATEDTUBE_TAG
      ∧ GetBoolNode s = .ok node
      ∧ node.op = .Subtraction
      ∧ node.GetLeftShape = some (.mk ("" ++ "Tubs") ""
          (.TubeSeg 5 8 10 (0 / sampleEnv.deg) ((0 + 1) / sampleEnv.deg)))
      ∧ placement node.GetLeftMatrix = ._identity
      ∧ node.GetRightShape = some (.mk ("" ++ "Box") ""
          (.BBox (TruncatedTube.cutFromSpec sampleEnv 10 8 1 6 7 true).1
            (TruncatedTube.cutFromSpec sampleEnv 10 8 1 6 7 true).2.1
            (TruncatedTube.cutFromSpec sampleEnv 10 8 1 6 7 true).2.2.1))
      ∧ node.GetRightMatrix = some m
      ∧ m.kind = .CombiTransRotateZ
          ⟨(TruncatedTube.cutFromSpec sampleEnv 10 8 1 6 7 true).2.2.2.1, 0, 0⟩
          (-(TruncatedTube.cutFromSpec sampleEnv 10 8 1 6 7 true).2.2.2.2 / sampleEnv.deg)
      ∧ m.title = sampleEnv.fmt 10 ++ " " ++ "\n" ++ sampleEnv.fmt 5 ++ " " ++ "\n"
          ++ sampleEnv.fmt 8 ++ " " ++ "\n" ++ sampleEnv.fmt 0 ++ " " ++ "\n"
          ++ sampleEnv.fmt 1 ++ " " ++ "\n" ++ sampleEnv.fmt 6 ++ " " ++ "\n"
          ++ sampleEnv.fmt 7 ++ " " ++ "\n" ++ (if true = true then "1" else "0") ++ "\n" :=
  have hd : sampleEnv.deg ≠ 0 := by norm_num [sampleEnv, M_PI]
  have ha : 0 ≤ (TruncatedTube.cutFromSpec sampleEnv 10 8 1 6 7 true).2.2.2.2 := by decide!
  ⟨hd, by norm_num, by norm_num, by norm_num, by norm_num, by norm_num, ha,
    TruncatedTube_structure sampleEnv "" 10 5 8 0 1 6 7 true hd (by norm_num) (by norm_num)
      (by norm_num) (by norm_num) (by norm_num) rfl ha⟩

/-- Lemma: a list of `n` triples has `3 n` entries. -/
theorem triples_length (g : ℕ → List ℚ) (hg : ∀ j, (g j).length = 3) (n : ℕ) :
    ((List.range n).map g).flatten.length = 3 * n := by
  induction n with
  | zero => rfl
  | succ k ih =>
    rw [List.range_succ, List.map_append, List.flatten_append, List.length_append, ih]
    simp [hg]
    ring

/-- Lemma: the entries of a list of triples. -/
theorem triples_getD (g1 g2 g3 : ℕ → ℚ) (n i : ℕ) (h : i < n) :
    ((List.range n).map (fun j => [g1 j, g2 j, g3 j])).flatten.getD (3 * i) 0 = g1 i
    ∧ ((List.range n).map (fun j => [g1 j, g2 j, g3 j])).flatten.getD (3 * i + 1) 0 = g2 i
    ∧ ((List.range n).map (fun j => [g1 j, g2 j, g3 j])).flatten.getD (3 * i + 2) 0 = g3 i := by
  induction n with
  | zero => omega
  | succ k ih =>
    have hl := triples_length (fun j => [g1 j, g2 j, g3 j]) (fun _ => rfl) k
    rw [List.range_succ, List.map_append, List.flatten_append]
    by_cases hk : i < k
    · rw [List.getD_append _ _ _ _ (by rw [hl]; omega),
        List.getD_append _ _ _ _ (by rw [hl]; omega),
        List.getD_append _ _ _ _ (by rw [hl]; omega)]
      exact ih hk
    · have hik : i = k := by omega
      subst hik
      rw [List.getD_append_right _ _ _ _ (by rw [hl]),
        List.getD_append_right _ _ _ _ (by rw [hl]; omega),
        List.getD_append_right _ _ _ _ (by rw [hl]; omega),
        hl]
      simp

/-- Lemma: the getters of a polycone read the planes that follow a prefix of `3 + 3 k`
entries. -/
theorem Pcon_getters_after (P : List ℚ) (k m : ℕ) (hP : P.length = 3 + 3 * k)
    (z rmin rmax : List ℚ) (i : ℕ) (hi : i < m) :
    Pcon.GetZ (P ++ zplanes m z rmin rmax) (k + i) = z.getD i 0
    ∧ Pcon.GetRmin (P ++ zplanes m z rmin rmax) (k + i) = rmin.getD i 0
    ∧ Pcon.GetRmax (P ++ zplanes m z rmin rmax) (k + i) = rmax.getD i 0 := by
  obtain ⟨e1, e2, e3⟩ := triples_getD (fun j => z.getD j 0) (fun j => rmin.getD j 0)
    (fun j => rmax.getD j 0) m i hi
  have a1 : 3 + 3 * (k + i) - P.length = 3 * i := by rw [hP]; omega
  have a2 : 4 + 3 * (k + i) - P.length = 3 * i + 1 := by rw [hP]; omega
  have a3 : 5 + 3 * (k + i) - P.length = 3 * i + 2 := by rw [hP]; omega
  unfold Pcon.GetZ Pcon.GetRmin Pcon.GetRmax zplanes
  rw [List.getD_append_right _ _ _ _ (by rw [hP]; omega),
    List.getD_append_right _ _ _ _ (by rw [hP]; omega),
    List.getD_append_right _ _ _ _ (by rw [hP]; omega), a1, a2, a3]
  exact ⟨e1, e2, e3⟩

/-- Lemma: the getters of a polycone do not read behind the planes they are asked for. -/
theorem Pcon_getters_before (P Q : List ℚ) (i : ℕ) (h : 5 + 3 * i < P.length) :
    Pcon.GetZ (P ++ Q) i = Pcon.GetZ P i
    ∧ Pcon.GetRmin (P ++ Q) i = Pcon.GetRmin P i
    ∧ Pcon.GetRmax (P ++ Q) i = Pcon.GetRmax P i := by
  unfold Pcon.GetZ Pcon.GetRmin Pcon.GetRmax
  rw [List.getD_append _ _ _ _ (by omega), List.getD_append _ _ _ _ (by omega),
    List.getD_append _ _ _ _ (by omega)]
  exact ⟨rfl, rfl, rfl⟩

/-- Lemma: reading the planes of a polycone back gives the planes it was built from. -/
theorem readPlanes_zplanes (a b c : ℚ) (n : ℕ) (z rmin rmax : List ℚ) :
    Pcon.readPlanes ([a, b, c] ++ zplanes n z rmin rmax) n = zplanes n z rmin rmax := by
  unfold Pcon.readPlanes
  conv_rhs => unfold zplanes
  congr 1
  apply List.map_congr_left
  intro i hi
  obtain ⟨s1, s2, s3⟩ := Pcon_getters_after [a, b, c] 0 n rfl z rmin rmax i
    (List.mem_range.mp hi)
  rw [Nat.zero_add] at s1 s2 s3
  rw [s1, s2, s3]

/-- Lemma: the plane count of a polycone built with a natural number of planes. -/
theorem GetNz_natCast (a b : ℚ) (n : ℕ) (t : List ℚ) :
    Pcon.GetNz ([a, b, (n : ℚ)] ++ t) = n := by
  simp [Pcon.GetNz, truncate]

/-- C26: `Polycone::addZPlanes(rmin, rmax, z)` on a polycone with n existing planes and three
sequences of equal length m >= 2 keeps the name, the title, phi1 and dphi, sets the plane
count to n + m, keeps the n existing planes (z, rmin, rmax) unchanged and in order as the
first n planes and appends the m new planes (z[i], rmin[i], rmax[i]) in order after them; on
a polycone it fails, with the text of the source, when rmin has fewer than 2 entries. -/
theorem Polycone_addZPlanes (nm tit : String) (phi1 dphi : ℚ) (n : ℕ)
    (z0 rmin0 rmax0 rmin rmax z : List ℚ)
    (hm : 2 ≤ rmin.length) (_hR : rmax.length = rmin.length) (_hz : z.length = rmin.length) :
    (∃ ps,
      Polycone.addZPlanes
          (some (.mk nm tit (.Pcon ([phi1, dphi, (n : ℚ)] ++ zplanes n z0 rmin0 rmax0))))
          rmin rmax z
        = .ok (some (.mk nm tit (.Pcon ps)))
      ∧ ps = [phi1, dphi, ((n + rmin.length : ℕ) : ℚ)] ++ zplanes n z0 rmin0 rmax0
          ++ zplanes rmin.length z rmin rmax
      ∧ Pcon.GetPhi1 ps = phi1 ∧ Pcon.GetDphi ps = dphi
      ∧ Pcon.GetNz ps = n + rmin.length
      ∧ (∀ i, i < n →
          Pcon.GetZ ps i = Pcon.GetZ ([phi1, dphi, (n : ℚ)] ++ zplanes n z0 rmin0 rmax0) i
          ∧ Pcon.GetRmin ps i
            = Pcon.GetRmin ([phi1, dphi, (n : ℚ)] ++ zplanes n z0 rmin0 rmax0) i
          ∧ Pcon.GetRmax ps i
            = Pcon.GetRmax ([phi1, dphi, (n : ℚ)] ++ zplanes n z0 rmin0 rmax0) i)
      ∧ (∀ i, i < rmin.length →
          Pcon.GetZ ps (n + i) = z.getD i 0 ∧ Pcon.GetRmin ps (n + i) = rmin.getD i 0
          ∧ Pcon.GetRmax ps (n + i) = rmax.getD i 0))
    ∧ (∀ short rmax2 z2 : List ℚ, short.length < 2 →
        Polycone.addZPlanes
            (some (.mk nm tit (.Pcon ([phi1, dphi, (n : ℚ)] ++ zplanes n z0 rmin0 rmax0))))
            short rmax2 z2
          = .error (.except "PolyCone" "++ addZPlanes: Not enough Z planes. minimum is 2!")) := by
  have hlen : ([phi1, dphi, (n : ℚ)] ++ zplanes n z0 rmin0 rmax0).length = 3 + 3 * n := by
    simp only [List.length_append, zplanes_length, List.length_cons, List.length_nil]
  have hlen2 : ([phi1, dphi, ((n + rmin.length : ℕ) : ℚ)] ++ zplanes n z0 rmin0 rmax0).length
      = 3 + 3 * n := by
    simp only [List.length_append, zplanes_length, List.length_cons, List.length_nil]
  constructor
  · refine ⟨_, ?_, rfl, rfl, rfl, ?_, ?_, ?_⟩
    · unfold Polycone.addZPlanes
      simp only [ptr, TGeoShape.geometry, GetNz_natCast, readPlanes_zplanes,
        if_neg (not_lt.mpr hm)]
      rfl
    · rw [List.append_assoc]
      exact GetNz_natCast phi1 dphi (n + rmin.length) _
    · intro i hi
      obtain ⟨e1, e2, e3⟩ := Pcon_getters_before
        ([phi1, dphi, ((n + rmin.length : ℕ) : ℚ)] ++ zplanes n z0 rmin0 rmax0)
        (zplanes rmin.length z rmin rmax) i (by rw [hlen2]; omega)
      obtain ⟨s1, s2, s3⟩ := Pcon_getters_after [phi1, dphi, ((n + rmin.length : ℕ) : ℚ)] 0 n
        rfl z0 rmin0 rmax0 i hi
      obtain ⟨t1, t2, t3⟩ := Pcon_getters_after [phi1, dphi, (n : ℚ)] 0 n rfl z0 rmin0 rmax0 i hi
      rw [Nat.zero_add] at s1 s2 s3 t1 t2 t3
      rw [e1, e2, e3, s1, s2, s3, t1, t2, t3]
      exact ⟨rfl, rfl, rfl⟩
    · intro i hi
      exact Pcon_getters_after _ n rmin.length hlen2 z rmin rmax i hi
  · intro short rmax2 z2 hs
    unfold Polycone.addZPlanes
    simp only [ptr, TGeoShape.geometry, if_pos hs]

/-- Witness of C26: two planes (z, rmin, rmax) = (0, 1, 2), (5, 1, 3) are added to the
polycone with phi1 = 0, dphi = 360 and the planes (-5, 1, 2), (-1, 1, 2). -/
theorem Polycone_addZPlanes_witness :
    Polycone.addZPlanes
        (some (.mk "pc" POLYCONE_TAG (.Pcon [0, 360, 2, -5, 1, 2, -1, 1, 2])))
        [1, 1] [2, 3] [0, 5]
      = .ok (some (.mk "pc" POLYCONE_TAG
          (.Pcon [0, 360, 4, -5, 1, 2, -1, 1, 2, 0, 1, 2, 5, 1, 3]))) := by
  obtain ⟨⟨ps, h1, h2, _⟩, _⟩ := Polycone_addZPlanes "pc" POLYCONE_TAG 0 360 2 [-5, -1] [1, 1]
    [2, 2] [1, 1] [2, 3] [0, 5] (by decide) (by decide) (by decide)
  rw [h2] at h1
  exact h1

/-- Lemma: the radicand of `hypo` is not negative when the cosine is at most 1. -/
theorem radicand_nonneg (c r R : ℝ) (hr : 0 < r) (hR : 0 < R) (hc : c ≤ 1) :
    0 ≤ TruncatedTube.radicand c r R := by
  unfold TruncatedTube.radicand
  nlinarith [sq_nonneg (r - R), mul_pos hr hR, mul_nonneg (mul_pos hr hR).le (sub_nonneg.mpr hc)]

/-- Lemma: the square of `cath` is at most the radicand of `hypo`. -/
theorem cath_sq_le (c r R : ℝ) (h1 : -1 ≤ c) (h2 : c ≤ 1) :
    TruncatedTube.cath c r R ^ 2 ≤ TruncatedTube.radicand c r R := by
  unfold TruncatedTube.cath TruncatedTube.radicand
  nlinarith [mul_nonneg (sq_nonneg R) (mul_nonneg (sub_nonneg.mpr h2) (by linarith : (0:ℝ) ≤ 1 + c))]

/-- Lemma: for every accepted input, `TruncatedTube::make` rotates the cutting box by
`-alpha/deg` with `alpha = acos(cath/hypo)`, `hypo = sqrt(radicand)`, where `cath` and
`radicand` are taken at the cosine of `delta_phi*deg`, `r = cut_atStart` and
`R = cut_atDelta`. -/
theorem TruncatedTube_make_alpha (E : MathEnv) (nam : String)
    (dz rmin rmax start_phi delta_phi cut_atStart cut_atDelta : ℚ) (cut_inside : Bool)
    (hn1 : ¬ (rmin ≤ 0 ∨ rmax ≤ 0 ∨ cut_atStart ≤ 0 ∨ cut_atDelta ≤ 0))
    (hn2 : ¬ rmin ≥ rmax) (hn3 : ¬ start_phi ≠ 0) :
    ∃ s node m x,
      TruncatedTube.make E nam dz rmin rmax start_phi delta_phi cut_atStart cut_atDelta
          cut_inside = .ok s
      ∧ GetBoolNode s = .ok node
      ∧ node.GetRightMatrix = some m
      ∧ m.kind = .CombiTransRotateZ ⟨x, 0, 0⟩
          (-(E.acos (TruncatedTube.cath (E.cos (delta_phi * E.deg)) cut_atStart cut_atDelta
              / E.sqrt (TruncatedTube.radicand (E.cos (delta_phi * E.deg)) cut_atStart
                  cut_atDelta))) / E.deg) := by
  unfold TruncatedTube.make
  rw [if_neg hn1, if_neg hn2, if_neg hn3]
  exact ⟨_, _, _, _, rfl, rfl, rfl, rfl⟩

/-- Lemma: in exact real arithmetic, for r > 0 and R > 0 and every angle, the radicand of
`hypo` is not negative, the quotient cath/hypo lies in [-1, 1] when hypo > 0, and the arc
cosine lies in [0, pi]. -/
theorem TruncatedTube_exact_domain (r R deltaPhi : ℝ) (hr : 0 < r) (hR : 0 < R) :
    0 ≤ TruncatedTube.radicand (Real.cos deltaPhi) r R
    ∧ (0 < Real.sqrt (TruncatedTube.radicand (Real.cos deltaPhi) r R) →
        -1 ≤ TruncatedTube.cath (Real.cos deltaPhi) r R
            / Real.sqrt (TruncatedTube.radicand (Real.cos deltaPhi) r R)
        ∧ TruncatedTube.cath (Real.cos deltaPhi) r R
            / Real.sqrt (TruncatedTube.radicand (Real.cos deltaPhi) r R) ≤ 1)
    ∧ 0 ≤ Real.arccos (TruncatedTube.cath (Real.cos deltaPhi) r R
            / Real.sqrt (TruncatedTube.radicand (Real.cos deltaPhi) r R))
    ∧ Real.arccos (TruncatedTube.cath (Real.cos deltaPhi) r R
            / Real.sqrt (TruncatedTube.radicand (Real.cos deltaPhi) r R)) ≤ Real.pi := by
  refine ⟨radicand_nonneg _ r R hr hR (Real.cos_le_one _), ?_, Real.arccos_nonneg _,
    Real.arccos_le_pi _⟩
  intro hpos
  have habs := Real.abs_le_sqrt
    (cath_sq_le (Real.cos deltaPhi) r R (Real.neg_one_le_cos _) (Real.cos_le_one _))
  have h2 := abs_le.mp habs
  constructor
  · rw [le_div_iff₀ hpos]; linarith [h2.1]
  · rw [div_le_one hpos]; exact h2.2

/-- C25 (failing inputs): evaluated in doubles as the program does, with delta_phi = 0
(cosine 1), the accepted cuts 5.02 and 5.020000001 give the radicand -2^-47 < 0, although
its exact value is positive; and the accepted cuts 5.5 and 7.3 give hypo > 0 and the
quotient cath/hypo = -(1 + 3 * 2^-52) < -1, outside the domain of acos. -/
theorem TruncatedTube_rounding_leaves_domain :
    sampleEnv.cos (0 * sampleEnv.deg) = 1
    ∧ (∃ s, TruncatedTube.make sampleEnv "" 10 5 8 0 0 (roundDouble (502 / 100))
        (roundDouble (5020000001 / 1000000000)) true = .ok s)
    ∧ TruncatedTube.radicandDouble 1 (roundDouble (502 / 100))
        (roundDouble (5020000001 / 1000000000)) = -1 / 2 ^ 47
    ∧ 0 < TruncatedTube.radicand (1 : ℚ) (roundDouble (502 / 100))
        (roundDouble (5020000001 / 1000000000))
    ∧ (∃ s, TruncatedTube.make sampleEnv "" 10 5 8 0 0 (roundDouble (55 / 10))
        (roundDouble (73 / 10)) true = .ok s)
    ∧ 0 < sqrtDouble (TruncatedTube.radicandDouble 1 (roundDouble (55 / 10))
        (roundDouble (73 / 10)))
    ∧ TruncatedTube.cosAlphaDouble 1 (roundDouble (55 / 10)) (roundDouble (73 / 10))
        = -(1 + 3 / 2 ^ 52)
    ∧ TruncatedTube.cosAlphaDouble 1 (roundDouble (55 / 10)) (roundDouble (73 / 10)) < -1 := by
  refine ⟨by decide!, ?_, by decide!, by decide!, ?_, by decide!, by decide!, by decide!⟩
  · obtain ⟨s, _, _, _, h, _⟩ := TruncatedTube_make_alpha sampleEnv "" 10 5 8 0 0
      (roundDouble (502 / 100)) (roundDouble (5020000001 / 1000000000)) true
      (by decide!) (by decide!) (by decide!)
    exact ⟨s, h⟩
  · obtain ⟨s, _, _, _, h, _⟩ := TruncatedTube_make_alpha sampleEnv "" 10 5 8 0 0
      (roundDouble (55 / 10)) (roundDouble (73 / 10)) true
      (by decide!) (by decide!) (by decide!)
    exact ⟨s, h⟩

/-- C23 (failing inputs): the input rmin = 5, rmax = 8, start_phi = 0, delta_phi = 0,
cut_atStart = cut_atDelta = 6 passes the validation of `TruncatedTube::make` and hypo is 0,
in the sample environment and in doubles, so cath/hypo is 0/0; the input with
delta_phi = 180 and the cuts 6 and 7 passes the validation too, the argument
`delta_phi*units::deg` of the cosine is the double M_PI, whose cosine is -1, and then, in
doubles, cath = 13, hypo = 13 and cos_alpha = 1, whose arc cosine is 0 with sine 0, the
divisor of rmax/sin_alpha and boxY/sin_alpha. -/
theorem TruncatedTube_zero_divisors :
    (∃ s, TruncatedTube.make sampleEnv "" 10 5 8 0 0 6 6 true = .ok s)
    ∧ sampleEnv.sqrt (TruncatedTube.radicand (sampleEnv.cos (0 * sampleEnv.deg)) 6 6) = 0
    ∧ TruncatedTube.radicandDouble 1 6 6 = 0
    ∧ sqrtDouble (TruncatedTube.radicandDouble 1 6 6) = 0
    ∧ (∃ s, TruncatedTube.make sampleEnv "" 10 5 8 0 180 6 7 true = .ok s)
    ∧ roundDouble (180 * roundDouble (M_PI / 180)) = M_PI
    ∧ TruncatedTube.cathDouble (-1) 6 7 = 13
    ∧ sqrtDouble (TruncatedTube.radicandDouble (-1) 6 7) = 13
    ∧ TruncatedTube.cosAlphaDouble (-1) 6 7 = 1 := by
  refine ⟨?_, by decide!, by decide!, by decide!, ?_, by decide!, by decide!, by decide!,
    by decide!⟩
  · obtain ⟨s, _, _, _, h, _⟩ := TruncatedTube_make_alpha sampleEnv "" 10 5 8 0 0 6 6 true
      (by norm_num) (by norm_num) (by norm_num)
    exact ⟨s, h⟩
  · obtain ⟨s, _, _, _, h, _⟩ := TruncatedTube_make_alpha sampleEnv "" 10 5 8 0 180 6 7 true
      (by norm_num) (by norm_num) (by norm_num)
    exact ⟨s, h⟩

end dd4hep
